import Mathlib

/-!
# Rasterization: volume decoder and sampling engine

A shallow embedding of `src/volume.cpp` (the MHD decoder), of
`src/project.cpp` (the interpolation and alpha kernels, the region predicates,
the transfer routines, the traversal of the visualisation modes and the reduced
volume) and of the vector operations of `src/vec3D.inl` they use, with the
properties of the specification stated and settled against it.

Conventions of the embedding:

* a C++ `float` is a rational number (`ℚ`) wherever the source only adds,
  subtracts, multiplies and divides by a nonzero number, and its arithmetic is
  exact; where a property is an exact equality or a strict inequality that
  rounding breaks, the computation is modelled a second time with every
  operation followed by the rounding of binary32 (`alphaBinary32`,
  `load_lod_volumeWith`);
* the alpha weighting, which divides by `1 - density` and calls `std::pow`, is
  evaluated over `FloatVal`: real numbers extended by the infinities and NaN of
  IEEE-754;
* a C++ `int` is an `Int`, reduced to 32 bits (two's complement) where the
  source multiplies or scans one;
* a thrown `std::exception` is `Except.error`; running out of memory and a
  failed read of an open file are not modelled;
* the global variables of the engine are the fields of one record, handed to
  every function that reads them and returned by every function that writes
  them;
* a counted `for` loop is the list of the values of its variable, and a
  transfer routine returns the grid indices it reads and the primitives it
  hands to OpenGL, both in order.
-/

namespace Rasterization

/-! ## Definitions -/

/-! ### Interpolation kernels (`src/project.cpp`, lines 1251-1279) -/

/-- Linear interpolation, `linearInterPolation` of `project.cpp`. -/
def linearInterPolation (x x1 x2 q00 q01 : ℚ) : ℚ :=
  ((x2 - x) / (x2 - x1)) * q00 + ((x - x1) / (x2 - x1)) * q01

/-- Bilinear interpolation, `biLinearInterplationp` of `project.cpp`. -/
def biLinearInterplationp (x y q11 q12 q21 q22 x1 x2 y1 y2 : ℚ) : ℚ :=
  let r1 := linearInterPolation x x1 x2 q11 q21
  let r2 := linearInterPolation x x1 x2 q12 q22
  linearInterPolation y y1 y2 r1 r2

/-- Trilinear interpolation, `triLinearInterpolation` of `project.cpp`, with
the parameters in the order of the source. -/
def triLinearInterpolation (x y z p000 p001 p010 p011 p100 p101 p110 p111
    x1 x2 y1 y2 z1 z2 : ℚ) : ℚ :=
  let x00 := linearInterPolation x x1 x2 p000 p100
  let x10 := linearInterPolation x x1 x2 p010 p110
  let x01 := linearInterPolation x x1 x2 p001 p101
  let x11 := linearInterPolation x x1 x2 p011 p111
  let r0 := linearInterPolation y y1 y2 x00 x01
  let r1 := linearInterPolation y y1 y2 x10 x11
  linearInterPolation z z1 z2 r0 r1

/-- The trilinear sample the transfer routines take at an interior voxel
`(x, y, z)` (`project.cpp`, lines 477-488 and 693-704): the eight corners are
read from the volume at `x-1|x+1`, `y-1|y+1`, `z-1|z+1`, and the query point is
the voxel itself.  The volume is given by its indexing operator. -/
def trilinAtVoxel (gVolume : Int → Int → Int → ℚ) (x y z : Int) : ℚ :=
  let p000 := gVolume (x - 1) (y - 1) (z - 1)
  let p100 := gVolume (x + 1) (y - 1) (z - 1)
  let p110 := gVolume (x + 1) (y + 1) (z - 1)
  let p010 := gVolume (x - 1) (y + 1) (z - 1)
  let p001 := gVolume (x - 1) (y - 1) (z + 1)
  let p101 := gVolume (x + 1) (y - 1) (z + 1)
  let p111 := gVolume (x + 1) (y + 1) (z + 1)
  let p011 := gVolume (x - 1) (y + 1) (z + 1)
  triLinearInterpolation x y z p000 p001 p010 p011 p100 p101 p110 p111
    (x - 1) (x + 1) (y - 1) (y + 1) (z - 1) (z + 1)

/-! ### Alpha weighting (`src/project.cpp`, line 260 and its seven copies)

The weighting divides by `1 - density` and raises to a negative power, so its
value at the end points depends on the infinities of IEEE-754 arithmetic.  For
this expression a `float` is a `FloatVal`: a real number (zero is unsigned), an
infinity, or NaN.  The operations of `alpha` are exact; `alphaBinary32`, in the
next section, rounds each of them. -/

/-- A value of a `float` expression: a finite number, an infinity or NaN. -/
inductive FloatVal where
  | finite (r : ℝ)
  | posInf
  | negInf
  | nan

/-- The sum `a + b` of two `float`s. -/
noncomputable def FloatVal.add : FloatVal → FloatVal → FloatVal
  | FloatVal.finite a, FloatVal.finite b => FloatVal.finite (a + b)
  | FloatVal.finite _, FloatVal.posInf => FloatVal.posInf
  | FloatVal.finite _, FloatVal.negInf => FloatVal.negInf
  | FloatVal.posInf, FloatVal.finite _ => FloatVal.posInf
  | FloatVal.posInf, FloatVal.posInf => FloatVal.posInf
  | FloatVal.negInf, FloatVal.finite _ => FloatVal.negInf
  | FloatVal.negInf, FloatVal.negInf => FloatVal.negInf
  | _, _ => FloatVal.nan

/-- The difference `a - b` of two `float`s. -/
noncomputable def FloatVal.sub : FloatVal → FloatVal → FloatVal
  | FloatVal.finite a, FloatVal.finite b => FloatVal.finite (a - b)
  | FloatVal.finite _, FloatVal.posInf => FloatVal.negInf
  | FloatVal.finite _, FloatVal.negInf => FloatVal.posInf
  | FloatVal.posInf, FloatVal.finite _ => FloatVal.posInf
  | FloatVal.posInf, FloatVal.negInf => FloatVal.posInf
  | FloatVal.negInf, FloatVal.finite _ => FloatVal.negInf
  | FloatVal.negInf, FloatVal.posInf => FloatVal.negInf
  | _, _ => FloatVal.nan

/-- The quotient `a / b` of two `float`s: a nonzero number divided by zero is
an infinity, and `0 / 0` is NaN. -/
noncomputable def FloatVal.div : FloatVal → FloatVal → FloatVal
  | FloatVal.finite a, FloatVal.finite b =>
      if b = 0 then
        (if a = 0 then FloatVal.nan else if 0 < a then FloatVal.posInf else FloatVal.negInf)
      else FloatVal.finite (a / b)
  | FloatVal.finite _, FloatVal.posInf => FloatVal.finite 0
  | FloatVal.finite _, FloatVal.negInf => FloatVal.finite 0
  | FloatVal.posInf, FloatVal.finite b => if 0 ≤ b then FloatVal.posInf else FloatVal.negInf
  | FloatVal.negInf, FloatVal.finite b => if 0 ≤ b then FloatVal.negInf else FloatVal.posInf
  | _, _ => FloatVal.nan

/-- The value of `std::pow(x, -1.5f)`: NaN for a negative finite base, `+∞` at
zero, zero at the infinities. -/
noncomputable def FloatVal.powNegThreeHalves : FloatVal → FloatVal
  | FloatVal.finite r =>
      if r < 0 then FloatVal.nan
      else if r = 0 then FloatVal.posInf
      else FloatVal.finite (r ^ (-(3 / 2) : ℝ))
  | FloatVal.posInf => FloatVal.finite 0
  | FloatVal.negInf => FloatVal.finite 0
  | FloatVal.nan => FloatVal.nan

/-- The quotient `density / (1.0f - density)` inside the alpha weighting. -/
noncomputable def alphaQuotient (density : FloatVal) : FloatVal :=
  FloatVal.div density (FloatVal.sub (FloatVal.finite 1) density)

/-- The alpha weighting of the transfer routines,
`1.0f / (1.0f + std::pow(density / (1.0f - density), -1.5f))`. -/
noncomputable def alpha (density : FloatVal) : FloatVal :=
  FloatVal.div (FloatVal.finite 1)
    (FloatVal.add (FloatVal.finite 1) (FloatVal.powNegThreeHalves (alphaQuotient density)))

/-! ### Rounding to binary32

The `float` of the engine is the binary32 format of IEEE-754: 24 significant
bits, rounding to nearest with ties to even. -/

/-- The integer nearest to `y`; half-way between two integers, the even one:
the rounding "to nearest, ties to even" of IEEE-754. -/
def roundTiesToEven {α : Type} [LinearOrderedField α] [FloorRing α] (y : α) : Int :=
  if Int.fract y < 1 / 2 then ⌊y⌋
  else if 1 / 2 < Int.fract y then ⌊y⌋ + 1
  else if ⌊y⌋ % 2 = 0 then ⌊y⌋ else ⌊y⌋ + 1

/-- The exponent of the binade of `x` in binary32: `⌊log₂ |x|⌋`, and `-126`, the
exponent of the subnormal numbers, below `2^(-126)`. -/
def binade32 {α : Type} [LinearOrderedField α] [FloorRing α] (x : α) : Int :=
  max (Int.log 2 |x|) (-126)

/-- The binary32 number nearest to `x` (ties to even): with 24 significant
bits, the multiples of `2^(e - 23)` in the binade of exponent `e`.  Overflow is
not part of this function. -/
def roundBinary32 {α : Type} [LinearOrderedField α] [FloorRing α] (x : α) : α :=
  (roundTiesToEven (x / 2 ^ (binade32 x - 23)) : α) * 2 ^ (binade32 x - 23)

/-- Modelled from the spec: the `Volume` class declared in `volume.hpp`, which
is not among the sources.  The spec describes it as owning "a contiguous array
of `width × height × depth` normalized density samples". -/
structure Volume where
  width : Nat
  height : Nat
  depth : Nat
  data : List ℚ
  deriving DecidableEq

/-- Modelled from the spec: the constructor `Volume(w, h, d)` of `volume.hpp`
(not among the sources).  It allocates `w * h * d` samples ("array length always
equals width·height·depth"); their content is "undefined until loaded", and is
zero in the model. -/
def Volume.create (w h d : Nat) : Volume :=
  { width := w, height := h, depth := d, data := List.replicate (w * h * d) 0 }

/-- Modelled from the spec: `Volume::total_element_count` of `volume.hpp` (not
among the sources), the length of the sample array. -/
def Volume.total_element_count (v : Volume) : Nat := v.data.length

/-! ### Machine integers -/

/-- The 32-bit two's-complement value of an integer: what an `int` holds after
an arithmetic result or a scanned numeral has been reduced to 32 bits. -/
def wrapInt32 (v : Int) : Int := (v + 2 ^ 31) % 2 ^ 32 - 2 ^ 31

/-- Multiplication of two `int`s. -/
def intMul (a b : Int) : Int := wrapInt32 (a * b)

/-- The largest `int`. -/
def INT_MAX : Int := 2 ^ 31 - 1

/-! ### The MHD decoder (`src/volume.cpp`) -/

/-- The element types of `volume.cpp`, `enum class MHDType`. -/
inductive MHDType where
  | unknown
  | u8
  | s16
  deriving DecidableEq

/-- The header record of `volume.cpp`, `struct MHDInfo`, with its default
member initialisers. -/
structure MHDInfo where
  typeIsImage : Bool := false
  dataIsBinary : Bool := false
  dataCompressed : Bool := false
  ndims : Int := -1
  x : Int := -1
  y : Int := -1
  z : Int := -1
  elementType : MHDType := MHDType.unknown
  dataFile : String := ""
  deriving DecidableEq

/-- The template argument `tType` of the two payload readers: `std::uint8_t`
or `std::int16_t`. -/
inductive SampleType where
  | uint8
  | int16
  deriving DecidableEq

/-- The value of `sizeof(tType)`. -/
def SampleType.sizeof : SampleType → Nat
  | SampleType.uint8 => 1
  | SampleType.int16 => 2

/-- The value of `std::numeric_limits<tType>::max()`. -/
def SampleType.max : SampleType → Int
  | SampleType.uint8 => 255
  | SampleType.int16 => 32767

/-- The value of `std::numeric_limits<tType>::min()`. -/
def SampleType.min : SampleType → Int
  | SampleType.uint8 => 0
  | SampleType.int16 => -32768

/-- The signed value of a 16-bit pattern. -/
def toInt16 (n : Nat) : Int := if n < 32768 then (n : Int) else (n : Int) - 65536

/-- The samples a byte sequence holds when it is read as an array of `tType`
(little-endian for the two-byte type; a trailing odd byte holds no sample). -/
def decodeSamples : SampleType → List UInt8 → List Int
  | SampleType.uint8, bs => bs.map (fun b => (b.toNat : Int))
  | SampleType.int16, lo :: hi :: rest =>
      toInt16 (lo.toNat + 256 * hi.toNat) :: decodeSamples SampleType.int16 rest
  | SampleType.int16, _ => []

/-- One step of the min/max scan of the payload readers (`volume.cpp`, lines
81-83 and 152-154); the state is `(minf, maxf)`. -/
def minmaxStep (acc : ℚ × ℚ) (elem : Int) : ℚ × ℚ :=
  let elemf : ℚ := (elem : ℚ)
  if elemf > acc.2 then (acc.1, elemf)
  else if elemf < acc.1 then (elemf, acc.2)
  else acc

/-- The min/max scan of the payload readers (`volume.cpp`, lines 77-84 and
148-155): `minf` starts at the largest value of the type and `maxf` at the
smallest; the result is `(minf, maxf)`. -/
def minmaxScan (T : SampleType) (buffer : List Int) : ℚ × ℚ :=
  buffer.foldl minmaxStep ((T.max : ℚ), (T.min : ℚ))

/-- The normalisation of the payload readers (`volume.cpp`, lines 86-88 and
157-159): the `std::transform` over the buffer.  Where `maxf = minf` the C++
quotient is not a finite number; the model's quotient is `0` there. -/
def normalize (T : SampleType) (buffer : List Int) : List ℚ :=
  let minf := (minmaxScan T buffer).1
  let maxf := (minmaxScan T buffer).2
  buffer.map (fun (aValue : Int) => ((aValue : ℚ) - minf) / (maxf - minf))

/-- The effect of `std::transform(first, last, ret.data(), f)` on the sample
array of `ret`: the leading entries are overwritten by the results. -/
def transformInto (results : List ℚ) (ret : Volume) : Volume :=
  { ret with data := results ++ ret.data.drop results.length }

/-- The value of `aInfo.x*aInfo.y*aInfo.z`, computed in `int`. -/
def sampleCount (aInfo : MHDInfo) : Int := intMul (intMul aInfo.x aInfo.y) aInfo.z

/-- The call `std::fread(buffer.data(), sizeof(tType), buffer.size(), aFile)` on
a file holding the bytes `aFile`: the buffer afterwards and the number of
complete elements read. -/
def fread (T : SampleType) (buffer : List Int) (aFile : List UInt8) : List Int × Nat :=
  let rd := Nat.min buffer.length (aFile.length / T.sizeof)
  (decodeSamples T (aFile.take (rd * T.sizeof)) ++ buffer.drop rd, rd)

/-- The reader of a raw payload, `load_data_raw_<tType>` of `volume.cpp`.  A
negative element count converts to a `size_t` above `max_size()`, on which the
constructor of `std::vector` throws `std::length_error`. -/
def load_data_raw_ (T : SampleType) (aFile : List UInt8) (aInfo : MHDInfo) :
    Except String Volume :=
  if sampleCount aInfo < 0 then Except.error "vector: length_error"
  else
    let buffer₀ : List Int := List.replicate (sampleCount aInfo).toNat 0
    let (buffer, rd) := fread T buffer₀ aFile
    if rd ≠ buffer.length then Except.error "Could not read volume data"
    else
      let ret := Volume.create aInfo.x.toNat aInfo.y.toNat aInfo.z.toNat
      Except.ok (transformInto (normalize T buffer) ret)

/-- The return codes of the miniz library (`miniz.h`, a third-party header that
is not among the sources). -/
inductive MzStatus where
  | MZ_OK
  | MZ_STREAM_END
  | MZ_NEED_DICT
  | MZ_ERRNO
  | MZ_STREAM_ERROR
  | MZ_DATA_ERROR
  | MZ_MEM_ERROR
  | MZ_BUF_ERROR
  | MZ_VERSION_ERROR
  | MZ_PARAM_ERROR
  deriving DecidableEq

/-- What one call of `mz_inflate` leaves behind: its return code and the bytes
it wrote at `next_out`; `total_out` is their number. -/
structure InflateResult where
  status : MzStatus
  output : List UInt8

/-- The field `mzs.total_out` after the call. -/
def InflateResult.total_out (r : InflateResult) : Nat := r.output.length

/-- The miniz library as the decoder uses it: the return code of
`mz_inflateInit`, and `mz_inflate(&mzs, MZ_FINISH)` as a function of the
`avail_in` input bytes and of `avail_out`. -/
structure Miniz where
  inflateInit : MzStatus
  inflate : List UInt8 → Nat → InflateResult

/-- The call `mz_inflate(&mzs, MZ_FINISH)` of the compressed reader (lines
110-124): `avail_in` and `avail_out` are the size of the compressed data and of
the buffer, both converted to `unsigned`. -/
def inflateCall (mz : Miniz) (compressed : List UInt8) (bufferBytes : Nat) : InflateResult :=
  mz.inflate (compressed.take (compressed.length % 2 ^ 32)) (bufferBytes % 2 ^ 32)

/-- The reader of a compressed payload, `load_data_compressed_<tType>` of
`volume.cpp`.  The whole file is read, inflated into the zero-initialised
buffer, and the buffer is normalised as in the raw reader.  As in the raw
reader, a negative element count makes the constructor of the buffer throw. -/
def load_data_compressed_ (T : SampleType) (mz : Miniz) (aFile : List UInt8)
    (aInfo : MHDInfo) : Except String Volume :=
  let compressed := aFile
  if sampleCount aInfo < 0 then Except.error "vector: length_error"
  else
    let count : Nat := (sampleCount aInfo).toNat
    if mz.inflateInit ≠ MzStatus.MZ_OK then
      Except.error "miniz: could not initialize decompressor"
    else
      let r := inflateCall mz compressed (count * T.sizeof)
      if r.status ≠ MzStatus.MZ_OK ∧
          ¬ (r.status = MzStatus.MZ_STREAM_END ∧ r.total_out = count * T.sizeof) then
        Except.error "miniz: decompression failed"
      else
        let bytes := (r.output ++ List.replicate (count * T.sizeof - r.output.length) 0).take
          (count * T.sizeof)
        let buffer := decodeSamples T bytes
        let ret := Volume.create aInfo.x.toNat aInfo.y.toNat aInfo.z.toNat
        Except.ok (transformInto (normalize T buffer) ret)

/-! #### The header (`load_mhd_volume`, lines 166-250) -/

/-- The white-space characters of `isspace`, which `scanf` skips. -/
def isSpaceChar (c : Char) : Bool :=
  c = ' ' || c = '\t' || c = '\n' || c = '\x0b' || c = '\x0c' || c = '\r'

/-- The number a string of decimal digits denotes. -/
def digitsValue (ds : List Char) : Nat :=
  ds.foldl (fun acc c => 10 * acc + (c.toNat - '0'.toNat)) 0

/-- The numeral at the head of the input, as the conversion `%d` of `scanf`
reads it: leading white space is skipped, then an optional sign and at least one
decimal digit are read.  The result is the integer the numeral denotes and the
rest of the input, or `none` when no number is there. -/
def scanNumeral (input : List Char) : Option (Int × List Char) :=
  let s := input.dropWhile isSpaceChar
  let signed : Bool × List Char :=
    match s with
    | '-' :: t => (true, t)
    | '+' :: t => (false, t)
    | _ => (false, s)
  let digits := signed.2.takeWhile Char.isDigit
  let rest := signed.2.dropWhile Char.isDigit
  if digits = [] then none
  else
    let magnitude : Int := (digitsValue digits : Int)
    some (if signed.1 then -magnitude else magnitude, rest)

/-- The `int` that `%d` stores for a numeral of value `v`.  A value in the range
of `int` is stored as it is.  Outside it the C standard leaves the result open;
the model follows the GNU C library, which converts through `long` (64 bits,
saturating at its bounds) and keeps the low 32 bits. -/
def storedInt (v : Int) : Int := wrapInt32 (max (-(2 ^ 63)) (min v (2 ^ 63 - 1)))

/-- The conversion `%d` of `scanf`: the `int` stored for the numeral at the head
of the input, and the rest of the input, or `none` when no number is there. -/
def scanInt (input : List Char) : Option (Int × List Char) :=
  (scanNumeral input).map (fun p => (storedInt p.1, p.2))

/-- The call `std::sscanf(value, "%d%c", &info.ndims, &dummy)`: the return
value, and the integer stored (if any).  The return value is the number of
conversions assigned, or `-1` (`EOF`) when the input ends before the first. -/
def sscanf_d_c (value : String) : Int × Option Int :=
  match scanInt value.toList with
  | none => (if value.toList.dropWhile isSpaceChar = [] then -1 else 0, none)
  | some (n, rest) =>
      match rest with
      | [] => (1, some n)
      | _ :: _ => (2, some n)

/-- The call `std::sscanf(value, "%d %d %d%c", &info.x, &info.y, &info.z,
&dummy)`: the return value and the integers stored, in order.  White space in
the format matches any amount of white space, none included. -/
def sscanf_d_d_d_c (value : String) : Int × List Int :=
  match scanInt value.toList with
  | none => (if value.toList.dropWhile isSpaceChar = [] then -1 else 0, [])
  | some (a, rest₁) =>
      match scanInt (rest₁.dropWhile isSpaceChar) with
      | none => (1, [a])
      | some (b, rest₂) =>
          match scanInt (rest₂.dropWhile isSpaceChar) with
          | none => (2, [a, b])
          | some (c, rest₃) =>
              match rest₃ with
              | [] => (3, [a, b, c])
              | _ :: _ => (4, [a, b, c])

/-- The body of the header loop of `load_mhd_volume` (lines 183-223) for one
`name = value` pair matched by `fscanf`. -/
def header_line (info : MHDInfo) (name value : String) : Except String MHDInfo :=
  if name = "ObjectType" then
    Except.ok { info with typeIsImage := decide (value = "Image") }
  else if name = "BinaryData" then
    Except.ok { info with dataIsBinary := decide (value = "True") }
  else if name = "CompressedData" then
    Except.ok { info with dataCompressed := decide (value = "True") }
  else if name = "NDims" then
    match sscanf_d_c value with
    | (1, some n) => Except.ok { info with ndims := n }
    | _ => Except.error "MHD: NDims should be a single integer"
  else if name = "DimSize" then
    match sscanf_d_d_d_c value with
    | (3, [a, b, c]) => Except.ok { info with x := a, y := b, z := c }
    | _ => Except.error "MHD: DimSize should be three integers"
  else if name = "ElementType" then
    if value = "MET_UCHAR" then Except.ok { info with elementType := MHDType.u8 }
    else if value = "MET_SHORT" then Except.ok { info with elementType := MHDType.s16 }
    else Except.error ("MHD: ElementType '" ++ value ++ "' unknown")
  else if name = "ElementDataFile" then
    Except.ok { info with dataFile := value }
  else
    Except.ok info

/-- The header loop of `load_mhd_volume` (lines 181-226) over the pairs that the
successive calls of `fscanf` match. -/
def read_header : List (String × String) → MHDInfo → Except String MHDInfo
  | [], info => Except.ok info
  | (name, value) :: rest, info =>
      match header_line info name value with
      | Except.ok info' => read_header rest info'
      | Except.error e => Except.error e

/-- The checks of `load_mhd_volume` on the header record (lines 233-250). -/
def verify_header (info : MHDInfo) : Except String Unit :=
  if !info.typeIsImage then Except.error "Only support ObjectType = Image."
  else if !info.dataIsBinary then
    Except.error "Only support binary data (BinaryData = True)"
  else if info.elementType = MHDType.unknown then
    Except.error "Element type of binary data is not recognized"
  else if info.ndims ≠ 3 then Except.error "Only support 3D volumes"
  else if info.x ≤ 0 ∨ info.y ≤ 0 ∨ info.z ≤ 0 then
    Except.error "Volume size is invalid (DimSize should be three positive integers"
  else Except.ok ()

/-- The path of the payload (lines 253-258): the directory of the header file,
up to its last `/`, followed by the name the header gives. -/
def dataPath (aFileName dataFile : String) : String :=
  let cs := aFileName.toList
  if '/' ∈ cs then
    String.mk ((cs.reverse.dropWhile (fun c => c ≠ '/')).drop 1).reverse ++ "/" ++ dataFile
  else dataFile

/-- The files the decoder opens.  `openHeader` stands for `fopen` of the header
together with the `name = value` pairs that the `fscanf` loop matches in it, in
order; `openData` gives the bytes of a payload file.  `none` is a failed
`fopen`. -/
structure Files where
  openHeader : String → Option (List (String × String))
  openData : String → Option (List UInt8)

/-- The body of the function-try-block of `load_mhd_volume` (lines 167-291). -/
def load_mhd_volume_body (fs : Files) (mz : Miniz) (aFileName : String) :
    Except String Volume :=
  match fs.openHeader aFileName with
  | none => Except.error "Could not open source file"
  | some lines =>
      match read_header lines {} with
      | Except.error e => Except.error e
      | Except.ok info =>
          match verify_header info with
          | Except.error e => Except.error e
          | Except.ok _ =>
              match fs.openData (dataPath aFileName info.dataFile) with
              | none => Except.error "Could not open volume data"
              | some data =>
                  if !info.dataCompressed then
                    match info.elementType with
                    | MHDType.u8 => load_data_raw_ SampleType.uint8 data info
                    | MHDType.s16 => load_data_raw_ SampleType.int16 data info
                    | MHDType.unknown => Except.ok (Volume.create 0 0 0)
                  else
                    match info.elementType with
                    | MHDType.u8 => load_data_compressed_ SampleType.uint8 mz data info
                    | MHDType.s16 => load_data_compressed_ SampleType.int16 mz data info
                    | MHDType.unknown => Except.ok (Volume.create 0 0 0)

/-- The decoder, `load_mhd_volume` of `volume.cpp`: the `catch` clause (lines
292-297) turns every exception into the empty volume. -/
def load_mhd_volume (fs : Files) (mz : Miniz) (aFileName : String) : Volume :=
  match load_mhd_volume_body fs mz aFileName with
  | Except.ok v => v
  | Except.error _ => Volume.create 0 0 0

/-! #### Reading a header, in the words of the specification -/

/-- The value a header gives to a key: that of the last line that names it. -/
def headerValue (key : String) : List (String × String) → Option String
  | [] => none
  | (name, value) :: rest =>
      match headerValue key rest with
      | some v => some v
      | none => if name = key then some value else none

/-- The dimensionality a header declares: its `NDims` value, when that value
reads as a single integer. -/
def declaredNDims (lines : List (String × String)) : Option Int :=
  match headerValue "NDims" lines with
  | none => none
  | some v =>
      match sscanf_d_c v with
      | (1, some n) => some n
      | _ => none

/-- The three sizes a header declares: its `DimSize` value, when that value
reads as three integers. -/
def declaredDimSize (lines : List (String × String)) : Option (Int × Int × Int) :=
  match headerValue "DimSize" lines with
  | none => none
  | some v =>
      match sscanf_d_d_d_c v with
      | (3, [a, b, c]) => some (a, b, c)
      | _ => none

/-- The dimensionality a header declares, as the integer its numeral denotes:
the `NDims` value, when that value is a single numeral. -/
def numeralNDims (lines : List (String × String)) : Option Int :=
  match headerValue "NDims" lines with
  | none => none
  | some v =>
      match scanNumeral v.toList with
      | some (n, []) => some n
      | _ => none

/-- The three sizes a header declares, as the integers its numerals denote: the
`DimSize` value, when that value is three numerals separated by white space. -/
def numeralDimSize (lines : List (String × String)) : Option (Int × Int × Int) :=
  match headerValue "DimSize" lines with
  | none => none
  | some v =>
      match scanNumeral v.toList with
      | none => none
      | some (a, rest₁) =>
          match scanNumeral (rest₁.dropWhile isSpaceChar) with
          | none => none
          | some (b, rest₂) =>
              match scanNumeral (rest₂.dropWhile isSpaceChar) with
              | some (c, []) => some (a, b, c)
              | _ => none

/-- The element type that selects the reader instantiated at `T`. -/
def SampleType.mhdType : SampleType → MHDType
  | SampleType.uint8 => MHDType.u8
  | SampleType.int16 => MHDType.s16

/-- The payload delivers the declared `x*y*z` samples: a raw file holds at
least that many elements; a compressed file is inflated, with status `MZ_OK`
or `MZ_STREAM_END`, to exactly the bytes of that many elements. -/
def payloadDelivers (T : SampleType) (mz : Miniz) (info : MHDInfo) (data : List UInt8) :
    Prop :=
  if info.dataCompressed then
    mz.inflateInit = MzStatus.MZ_OK ∧
    ((inflateCall mz data ((info.x * info.y * info.z).toNat * T.sizeof)).status =
        MzStatus.MZ_OK ∨
      (inflateCall mz data ((info.x * info.y * info.z).toNat * T.sizeof)).status =
        MzStatus.MZ_STREAM_END) ∧
    (inflateCall mz data ((info.x * info.y * info.z).toNat * T.sizeof)).total_out =
      (info.x * info.y * info.z).toNat * T.sizeof
  else (info.x * info.y * info.z).toNat * T.sizeof ≤ data.length

/-! #### Example inputs -/

/-- A miniz whose every stream ends at once without output. -/
def emptyStreamMiniz : Miniz where
  inflateInit := MzStatus.MZ_OK
  inflate := fun _ _ => { status := MzStatus.MZ_STREAM_END, output := [] }

/-- The header of a raw `3 × 1 × 1` volume of `MET_SHORT` samples. -/
def shortHeader : List (String × String) :=
  [("ObjectType", "Image"), ("NDims", "3"), ("BinaryData", "True"),
   ("DimSize", "3 1 1"), ("ElementType", "MET_SHORT"), ("ElementDataFile", "short.raw")]

/-- The record `read_header` builds from `shortHeader`. -/
def shortInfo : MHDInfo :=
  { typeIsImage := true, dataIsBinary := true, ndims := 3, x := 3, y := 1, z := 1,
    elementType := MHDType.s16, dataFile := "short.raw" }

/-- The bytes of the three 16-bit samples `10, 20, 30`. -/
def shortPayload : List UInt8 := [10, 0, 20, 0, 30, 0]

/-- A directory holding `short.mhd` and its payload `short.raw`. -/
def shortFiles : Files where
  openHeader := fun name => if name = "short.mhd" then some shortHeader else none
  openData := fun name => if name = "short.raw" then some shortPayload else none

/-- The header of a raw `65536 × 32768 × 1` volume of `MET_UCHAR` samples. -/
def bigHeader : List (String × String) :=
  [("ObjectType", "Image"), ("NDims", "3"), ("BinaryData", "True"),
   ("DimSize", "65536 32768 1"), ("ElementType", "MET_UCHAR"), ("ElementDataFile", "big.raw")]

/-- The record `read_header` builds from `bigHeader`. -/
def bigInfo : MHDInfo :=
  { typeIsImage := true, dataIsBinary := true, ndims := 3, x := 65536, y := 32768, z := 1,
    elementType := MHDType.u8, dataFile := "big.raw" }

/-- A payload of `65536 * 32768 * 1` bytes. -/
def bigPayload : List UInt8 := List.replicate (65536 * 32768 * 1) 0

/-- A directory holding `big.mhd` and its payload `big.raw`. -/
def bigFiles : Files where
  openHeader := fun name => if name = "big.mhd" then some bigHeader else none
  openData := fun name => if name = "big.raw" then some bigPayload else none

/-- The header of a compressed `65536 × 65536 × 1` volume of `MET_UCHAR`
samples. -/
def wideHeader : List (String × String) :=
  [("ObjectType", "Image"), ("NDims", "3"), ("BinaryData", "True"),
   ("CompressedData", "True"), ("DimSize", "65536 65536 1"), ("ElementType", "MET_UCHAR"),
   ("ElementDataFile", "wide.zraw")]

/-- The record `read_header` builds from `wideHeader`. -/
def wideInfo : MHDInfo :=
  { typeIsImage := true, dataIsBinary := true, dataCompressed := true, ndims := 3,
    x := 65536, y := 65536, z := 1, elementType := MHDType.u8, dataFile := "wide.zraw" }

/-- The bytes of a zlib stream that holds no data. -/
def emptyStream : List UInt8 := [120, 156, 3, 0, 0, 0, 0, 1]

/-- A directory holding `wide.mhd` and the payload `wide.zraw`, a stream that
holds no data. -/
def wideFiles : Files where
  openHeader := fun name => if name = "wide.mhd" then some wideHeader else none
  openData := fun name => if name = "wide.zraw" then some emptyStream else none

/-- The header of a compressed `2 × 1 × 1` volume of `MET_UCHAR` samples. -/
def pairHeader : List (String × String) :=
  [("ObjectType", "Image"), ("NDims", "3"), ("BinaryData", "True"),
   ("CompressedData", "True"), ("DimSize", "2 1 1"), ("ElementType", "MET_UCHAR"),
   ("ElementDataFile", "pair.zraw")]

/-- The record `read_header` builds from `pairHeader`. -/
def pairInfo : MHDInfo :=
  { typeIsImage := true, dataIsBinary := true, dataCompressed := true, ndims := 3,
    x := 2, y := 1, z := 1, elementType := MHDType.u8, dataFile := "pair.zraw" }

/-- A directory holding `pair.mhd` and a payload `pair.zraw`. -/
def pairFiles : Files where
  openHeader := fun name => if name = "pair.mhd" then some pairHeader else none
  openData := fun name => if name = "pair.zraw" then some [120, 156] else none

/-- A miniz whose every stream ends after the two bytes `7, 9`. -/
def pairMiniz : Miniz where
  inflateInit := MzStatus.MZ_OK
  inflate := fun _ _ => { status := MzStatus.MZ_STREAM_END, output := [7, 9] }

/-- A header that declares `NDims = 4294967299`, which is `3 + 2^32`. -/
def wrappedDimsHeader : List (String × String) :=
  [("ObjectType", "Image"), ("NDims", "4294967299"), ("BinaryData", "True"),
   ("DimSize", "2 1 1"), ("ElementType", "MET_UCHAR"), ("ElementDataFile", "pair.raw")]

/-- A header whose first size is `-4294967294`, which is `2 - 2^32`. -/
def negativeSizeHeader : List (String × String) :=
  [("ObjectType", "Image"), ("NDims", "3"), ("BinaryData", "True"),
   ("DimSize", "-4294967294 1 1"), ("ElementType", "MET_UCHAR"),
   ("ElementDataFile", "pair.raw")]

/-- A header that declares `NDims = 2`. -/
def planarHeader : List (String × String) :=
  [("ObjectType", "Image"), ("NDims", "2"), ("BinaryData", "True"),
   ("DimSize", "2 1 1"), ("ElementType", "MET_UCHAR"), ("ElementDataFile", "pair.raw")]

/-- A header whose first size is 0. -/
def emptySizeHeader : List (String × String) :=
  [("ObjectType", "Image"), ("NDims", "3"), ("BinaryData", "True"),
   ("DimSize", "0 1 1"), ("ElementType", "MET_UCHAR"), ("ElementDataFile", "pair.raw")]

/-- The record `read_header` builds from `wrappedDimsHeader` and from
`negativeSizeHeader`. -/
def pairRawInfo : MHDInfo :=
  { typeIsImage := true, dataIsBinary := true, ndims := 3, x := 2, y := 1, z := 1,
    elementType := MHDType.u8, dataFile := "pair.raw" }

/-- A directory holding the headers `wrapped.mhd`, `negative.mhd`, `planar.mhd`
and `empty.mhd`, and the raw payload `pair.raw` of two bytes. -/
def numeralFiles : Files where
  openHeader := fun name =>
    if name = "wrapped.mhd" then some wrappedDimsHeader
    else if name = "negative.mhd" then some negativeSizeHeader
    else if name = "planar.mhd" then some planarHeader
    else if name = "empty.mhd" then some emptySizeHeader
    else none
  openData := fun name => if name = "pair.raw" then some [7, 9] else none

/-- A header without an `ObjectType` line. -/
def untypedHeader : List (String × String) :=
  [("NDims", "3"), ("BinaryData", "True"), ("DimSize", "2 1 1"),
   ("ElementType", "MET_UCHAR"), ("ElementDataFile", "pair.zraw")]

/-- A directory holding `untyped.mhd`. -/
def untypedFiles : Files where
  openHeader := fun name => if name = "untyped.mhd" then some untypedHeader else none
  openData := fun _ => some [7, 9]

/-! ### The sampling engine (`src/project.cpp`)

The engine works on global variables; the model collects them in one record,
`Globals`.  Positions, densities and region parameters are rational numbers;
a shaded colour, which needs a square root, is real. -/

/-- The traversal axes, `enum class AXIS`. -/
inductive AXIS where
  | X
  | Y
  | Z
  deriving DecidableEq

/-- The traversal directions, `enum class DIRECTION`. -/
inductive DIRECTION where
  | POS
  | NEG
  deriving DecidableEq

/-- The rule sets, `enum class TRANSFERTYPE`. -/
inductive TRANSFERTYPE where
  | BONSAI
  | BACKPACK
  deriving DecidableEq

/-- The region shapes, `enum class ESelectiveRegionType`. -/
inductive ESelectiveRegionType where
  | sphere
  | cube
  | slab
  deriving DecidableEq

/-- The vector class `Vec3D<tType>` of `vec3D.hpp`; `p0`, `p1`, `p2` are
`p[0]`, `p[1]`, `p[2]`. -/
structure Vec3D (α : Type) where
  p0 : α
  p1 : α
  p2 : α

/-- The component `v[axis == AXIS::X ? 0 : axis == AXIS::Y ? 1 : 2]`. -/
def Vec3D.component {α : Type} (v : Vec3D α) : AXIS → α
  | AXIS.X => v.p0
  | AXIS.Y => v.p1
  | AXIS.Z => v.p2

/-- The product `Vec3D::dotProduct` of `vec3D.inl`. -/
def Vec3D.dotProduct {α : Type} [Field α] (aU aV : Vec3D α) : α :=
  aU.p0 * aV.p0 + aU.p1 * aV.p1 + aU.p2 * aV.p2

/-- The product `Vec3D::crossProduct` of `vec3D.inl`. -/
def Vec3D.crossProduct {α : Type} [Field α] (aU aV : Vec3D α) : Vec3D α :=
  { p0 := aU.p1 * aV.p2 - aU.p2 * aV.p1,
    p1 := aU.p2 * aV.p0 - aU.p0 * aV.p2,
    p2 := aU.p0 * aV.p1 - aU.p1 * aV.p0 }

/-- The scaling `aU *= aX` of `vec3D.inl`. -/
def Vec3D.scale {α : Type} [Field α] (aU : Vec3D α) (aX : α) : Vec3D α :=
  { p0 := aU.p0 * aX, p1 := aU.p1 * aX, p2 := aU.p2 * aX }

/-- A vector of `float`s read as a vector of real numbers. -/
noncomputable def Vec3D.toReal (v : Vec3D ℚ) : Vec3D ℝ :=
  { p0 := (v.p0 : ℝ), p1 := (v.p1 : ℝ), p2 := (v.p2 : ℝ) }

/-- The length `Vec3D::getLength` of `vec3D.inl`. -/
noncomputable def Vec3D.getLength (v : Vec3D ℝ) : ℝ :=
  Real.sqrt (v.p0 * v.p0 + v.p1 * v.p1 + v.p2 * v.p2)

/-- The vector after `Vec3D::normalize` of `vec3D.inl`: a vector of length zero
is left as it is. -/
noncomputable def Vec3D.normalize (v : Vec3D ℝ) : Vec3D ℝ :=
  if 0 = v.getLength then v
  else { p0 := v.p0 / v.getLength, p1 := v.p1 / v.getLength, p2 := v.p2 / v.getLength }

/-- The distance `Vec3D::distance` of `vec3D.inl`. -/
noncomputable def Vec3D.distance (aU aV : Vec3D ℝ) : ℝ :=
  Vec3D.getLength { p0 := aU.p0 - aV.p0, p1 := aU.p1 - aV.p1, p2 := aU.p2 - aV.p2 }

/-- A grid index handed to `Volume::operator()`. -/
abbrev GridIndex : Type := Int × Int × Int

/-- An index lies inside a volume: `0 ≤ x < width`, `0 ≤ y < height`,
`0 ≤ z < depth`. -/
def Volume.inBounds (v : Volume) (idx : GridIndex) : Prop :=
  0 ≤ idx.1 ∧ idx.1 < (v.width : Int) ∧ 0 ≤ idx.2.1 ∧ idx.2.1 < (v.height : Int) ∧
    0 ≤ idx.2.2 ∧ idx.2.2 < (v.depth : Int)

instance (v : Volume) (idx : GridIndex) : Decidable (v.inBounds idx) := by
  unfold Volume.inBounds
  infer_instance

/-- Modelled from the spec: the place of the sample `(x, y, z)` in the array of
a volume, for `Volume::operator()` of `volume.hpp` (not among the sources).  The
spec gives "a contiguous array" "indexed by integer (x,y,z)" and no order; the
model lets `x` run fastest, as in the payload that fills the array. -/
def Volume.offset (v : Volume) (x y z : Nat) : Nat := x + v.width * (y + v.height * z)

/-- Modelled from the spec: reading `vol(x, y, z)` through `Volume::operator()`
of `volume.hpp` (not among the sources).  "Out-of-range indexing is undefined";
the model reads `0` there. -/
def Volume.sample (v : Volume) (x y z : Int) : ℚ :=
  if v.inBounds (x, y, z) then v.data.getD (v.offset x.toNat y.toNat z.toNat) 0 else 0

/-- Modelled from the spec: the assignment `vol(x, y, z) = a` through
`Volume::operator()` of `volume.hpp` (not among the sources).  Out of range the
C++ is undefined; the model leaves the volume as it is. -/
def Volume.assign (v : Volume) (x y z : Int) (a : ℚ) : Volume :=
  if v.inBounds (x, y, z) then
    { v with data := v.data.set (v.offset x.toNat y.toNat z.toNat) a }
  else v

/-- The global variables of `project.cpp` that the engine reads and writes
(lines 38-113).  The draw buffers of the array modes hold `float`s: colour
components and alpha in `gDrawColors`, coordinates in `gDrawPositions`. -/
structure Globals where
  gVolume : Volume
  gVolumeLargestDimension : Nat
  gLightPosition : Vec3D ℚ
  gLightChanged : Bool
  gSelectiveRegionType : ESelectiveRegionType
  global_ttype : TRANSFERTYPE
  global_position : Vec3D ℚ
  global_width : ℚ
  global_height : ℚ
  global_depth : ℚ
  global_radius : ℚ
  global_slab_axis : AXIS
  global_slab_length : ℚ
  vols : List Volume
  global_vols_idx : Int
  gDrawPositions : List ℚ
  gDrawColors : List FloatVal
  current_dir : DIRECTION

/-! #### Region predicates (lines 1202-1249) -/

/-- The sphere test, `checkSphereIntersection`. -/
def checkSphereIntersection (g : Globals) (X Y Z : ℚ) : Bool :=
  let CX := g.global_position.p0
  let CY := g.global_position.p1
  let CZ := g.global_position.p2
  let radius := g.global_radius
  decide ((X - CX) ^ 2 + (Y - CY) ^ 2 + (Z - CZ) ^ 2 < radius ^ 2)

/-- The cube test, `checkCubeIntersection`. -/
def checkCubeIntersection (g : Globals) (X Y Z : ℚ) : Bool :=
  let min : Vec3D ℚ := ⟨g.global_position.p0, g.global_position.p1, g.global_position.p2⟩
  let max : Vec3D ℚ := ⟨g.global_position.p0 + g.global_width,
    g.global_position.p1 + g.global_height, g.global_position.p2 + g.global_depth⟩
  if min.p0 ≤ X ∧ max.p0 ≥ X ∧ min.p1 ≤ Y ∧ max.p1 ≥ Y ∧ min.p2 ≤ Z ∧ max.p2 ≥ Z then true
  else false

/-- The slab test, `checkSlabIntersection`. -/
def checkSlabIntersection (g : Globals) (x y z : ℚ) : Bool :=
  match g.global_slab_axis with
  | AXIS.X =>
      decide (x ≥ g.global_position.p0 ∧ x ≤ g.global_position.p0 + g.global_slab_length)
  | AXIS.Y =>
      decide (y ≥ g.global_position.p1 ∧ y ≤ g.global_position.p1 + g.global_slab_length)
  | AXIS.Z =>
      decide (z ≥ g.global_position.p2 ∧ z ≤ g.global_position.p2 + g.global_slab_length)

/-- The test of the active region, `checkIntersection`. -/
def checkIntersection (g : Globals) (X Y Z : ℚ) : Bool :=
  match g.gSelectiveRegionType with
  | ESelectiveRegionType.sphere => checkSphereIntersection g X Y Z
  | ESelectiveRegionType.cube => checkCubeIntersection g X Y Z
  | ESelectiveRegionType.slab => checkSlabIntersection g X Y Z

/-! #### Material rules (lines 123-138 and the tables of each routine) -/

/-- The class `IsoSurface`: a density interval. -/
structure IsoSurface where
  low : ℚ
  high : ℚ

/-- The test `IsoSurface::hasAfter`. -/
def IsoSurface.hasAfter (s : IsoSurface) (density : ℚ) : Bool :=
  decide (density ≥ s.low)

/-- The test `IsoSurface::hasBetween`. -/
def IsoSurface.hasBetween (s : IsoSurface) (density : ℚ) : Bool :=
  decide (density ≥ s.low ∧ density ≤ s.high)

/-- The rule `trunk` of `performTransfer`, `IsoSurface(0.5f, 0.6f)`. -/
def trunkUnshaded : IsoSurface := ⟨1 / 2, 6 / 10⟩

/-- The rule `trunk` of the other four routines, `IsoSurface(0.5f, 0.9f)`. -/
def trunkShaded : IsoSurface := ⟨1 / 2, 9 / 10⟩

/-- The rule `leaves`, `IsoSurface(0.13f, 0.2f)`. -/
def leaves : IsoSurface := ⟨13 / 100, 2 / 10⟩

/-- The rule `lightgrey`, `IsoSurface(0.25f, 0.3f)`. -/
def lightgrey : IsoSurface := ⟨25 / 100, 3 / 10⟩

/-- The rule `darkgrey`, `IsoSurface(0.18f, 0.25)`. -/
def darkgrey : IsoSurface := ⟨18 / 100, 25 / 100⟩

/-- The rule `red`, `IsoSurface(0.9f, 1.0f)`. -/
def red : IsoSurface := ⟨9 / 10, 1⟩

/-- The rule `lightblue`, `IsoSurface(0.61f, 0.9f)`. -/
def lightblue : IsoSurface := ⟨61 / 100, 9 / 10⟩

/-- The rule `yellow`, `IsoSurface(0.4f, 0.55f)`. -/
def yellow : IsoSurface := ⟨4 / 10, 55 / 100⟩

/-- The `switch (global_ttype)` with its `if … else if …` chain, as every
routine writes it: the base colour of the first rule whose interval holds the
value, if there is one.  The rule `trunk` is the routine's own. -/
def classify (ttype : TRANSFERTYPE) (trunk : IsoSurface) (value : ℚ) : Option (Vec3D ℚ) :=
  match ttype with
  | TRANSFERTYPE.BONSAI =>
      if trunk.hasBetween value then some ⟨33 / 100, 21 / 100, 1 / 10⟩
      else if leaves.hasBetween value then some ⟨0, 1, 0⟩
      else none
  | TRANSFERTYPE.BACKPACK =>
      if lightgrey.hasBetween value then some ⟨85 / 100, 85 / 100, 85 / 100⟩
      else if darkgrey.hasBetween value then some ⟨66 / 100, 66 / 100, 66 / 100⟩
      else if red.hasBetween value then some ⟨1, 0, 0⟩
      else if lightblue.hasBetween value then some ⟨0, 1, 1⟩
      else if yellow.hasBetween value then some ⟨1, 1, 0⟩
      else none

/-! #### What a routine hands to the renderer -/

/-- One drawing action of a transfer routine: a point (`glColor4f` and
`glVertex3f`), a quad (`billboard`), or an entry appended to the two draw
buffers (four `push_back` on `gDrawColors`, three on `gDrawPositions`). -/
inductive Primitive where
  | point (color : Vec3D ℝ) (alpha : FloatVal) (vertex : Vec3D ℚ)
  | quad (color : Vec3D ℝ) (alpha : FloatVal) (leftbot rightbot rightup leftup : Vec3D ℚ)
  | entry (color : Vec3D ℝ) (alpha : FloatVal) (position : Vec3D ℚ)

/-- The effect of one call of a transfer routine: the indices at which it
reads `gVolume`, in order, and what it emits, in order. -/
structure Transfer where
  reads : List GridIndex
  emitted : List Primitive

/-- The quad of `billboard` (lines 143-166). -/
def billboard (right up center : Vec3D ℚ) (color : Vec3D ℝ) (alpha : FloatVal) (size : ℚ) :
    Primitive :=
  let leftbot : Vec3D ℚ := ⟨center.p0 - (right.p0 + up.p0) * size,
    center.p1 - (right.p1 + up.p1) * size, center.p2 - (right.p2 + up.p2) * size⟩
  let rightbot : Vec3D ℚ := ⟨center.p0 + (right.p0 - up.p0) * size,
    center.p1 + (right.p1 - up.p1) * size, center.p2 + (right.p2 - up.p2) * size⟩
  let rightup : Vec3D ℚ := ⟨center.p0 + (right.p0 + up.p0) * size,
    center.p1 + (right.p1 + up.p1) * size, center.p2 + (right.p2 + up.p2) * size⟩
  let leftup : Vec3D ℚ := ⟨center.p0 - (right.p0 - up.p0) * size,
    center.p1 - (right.p1 - up.p1) * size, center.p2 - (right.p2 - up.p2) * size⟩
  Primitive.quad color alpha leftbot rightbot rightup leftup

/-! #### The transfer routines (lines 202-1025) -/

/-- The opening of every transfer routine (lines 203-231 and its copies): the
normalised coordinates `XT, YT, ZT` and the grid index `x, y, z` of the loop
indices `i, j, k` under the axis remapping. -/
structure SamplePoint where
  XT : ℚ
  YT : ℚ
  ZT : ℚ
  x : Int
  y : Int
  z : Int

/-- The normalised coordinate `2.f*float(n) / gVolumeLargestDimension - 1.f`. -/
def normalizedCoordinate (g : Globals) (n : Int) : ℚ :=
  2 * (n : ℚ) / (g.gVolumeLargestDimension : ℚ) - 1

/-- The axis remapping at the head of every transfer routine. -/
def samplePoint (g : Globals) (axis : AXIS) (i j k : Int) : SamplePoint :=
  match axis with
  | AXIS.X =>
      { XT := normalizedCoordinate g k, YT := normalizedCoordinate g j,
        ZT := normalizedCoordinate g i, x := k, y := j, z := i }
  | AXIS.Y =>
      { XT := normalizedCoordinate g i, YT := normalizedCoordinate g k,
        ZT := normalizedCoordinate g j, x := i, y := k, z := j }
  | AXIS.Z =>
      { XT := normalizedCoordinate g j, YT := normalizedCoordinate g i,
        ZT := normalizedCoordinate g k, x := j, y := i, z := k }

/-- The test that sends a voxel to the shaded branch:
`k != 0 && j != 0 && i != 0 && k != p - 1 && j != q - 1 && i != r - 1`. -/
def isInterior (i j k p q r : Int) : Bool :=
  decide (k ≠ 0 ∧ j ≠ 0 ∧ i ≠ 0 ∧ k ≠ p - 1 ∧ j ≠ q - 1 ∧ i ≠ r - 1)

/-- The indices read for the three central differences, in the order of the
source. -/
def gradientReads (x y z : Int) : List GridIndex :=
  [(x + 1, y, z), (x - 1, y, z), (x, y + 1, z), (x, y - 1, z), (x, y, z + 1), (x, y, z - 1)]

/-- The indices read for the eight trilinear corners, in the order of the
source. -/
def cornerReads (x y z : Int) : List GridIndex :=
  [(x - 1, y - 1, z - 1), (x + 1, y - 1, z - 1), (x + 1, y + 1, z - 1), (x - 1, y + 1, z - 1),
   (x - 1, y - 1, z + 1), (x + 1, y - 1, z + 1), (x + 1, y + 1, z + 1), (x - 1, y + 1, z + 1)]

/-- The diffuse term `dot` of the shaded branch: the central differences, the
negated and normalised gradient, and its product with the light vector. -/
noncomputable def diffuseTerm (g : Globals) (x y z : Int) (lightdir : Vec3D ℚ) : ℝ :=
  let partDerX := (g.gVolume.sample (x + 1) y z - g.gVolume.sample (x - 1) y z) / 2
  let partDerY := (g.gVolume.sample x (y + 1) z - g.gVolume.sample x (y - 1) z) / 2
  let partDerZ := (g.gVolume.sample x y (z + 1) - g.gVolume.sample x y (z - 1)) / 2
  let normal := (Vec3D.toReal ⟨-partDerX, -partDerY, -partDerZ⟩).normalize
  Vec3D.dotProduct normal lightdir.toReal

/-- The alpha of a sample, `alpha` evaluated at its density. -/
noncomputable def alphaOf (density : ℚ) : FloatVal :=
  alpha (FloatVal.finite (density : ℝ))

/-- The colour `c *= density` of an unshaded sample. -/
noncomputable def unshadedColor (c : Vec3D ℚ) (density : ℚ) : Vec3D ℝ :=
  (c.scale density).toReal

/-- The colour `c *= density * dot` of a shaded sample. -/
noncomputable def shadedColor (c : Vec3D ℚ) (density : ℚ) (dot : ℝ) : Vec3D ℝ :=
  c.toReal.scale ((density : ℝ) * dot)

/-- The routine `performTransfer` (lines 202-308). -/
noncomputable def performTransfer (g : Globals) (axis : AXIS) (i j k : Int) : Transfer :=
  let s := samplePoint g axis i j k
  if !checkIntersection g s.XT s.YT s.ZT then { reads := [], emitted := [] }
  else
    let density := g.gVolume.sample s.x s.y s.z
    { reads := [(s.x, s.y, s.z)],
      emitted :=
        match classify g.global_ttype trunkUnshaded density with
        | some c =>
            [Primitive.point (unshadedColor c density) (alphaOf density) ⟨s.XT, s.YT, s.ZT⟩]
        | none => [] }

/-- The routine `performTransferWithLighting` (lines 310-437). -/
noncomputable def performTransferWithLighting (g : Globals) (axis : AXIS) (i j k p q r : Int)
    (lightdir : Vec3D ℚ) : Transfer :=
  let s := samplePoint g axis i j k
  if !checkIntersection g s.XT s.YT s.ZT then { reads := [], emitted := [] }
  else
    let density := g.gVolume.sample s.x s.y s.z
    if isInterior i j k p q r then
      let dot := diffuseTerm g s.x s.y s.z lightdir
      { reads := (s.x, s.y, s.z) :: gradientReads s.x s.y s.z,
        emitted :=
          match classify g.global_ttype trunkShaded density with
          | some c =>
              [Primitive.point (shadedColor c density dot) (alphaOf density)
                ⟨s.XT, s.YT, s.ZT⟩]
          | none => [] }
    else
      { reads := (s.x, s.y, s.z) :: (performTransfer g axis i j k).reads,
        emitted := (performTransfer g axis i j k).emitted }

/-- The routine `performTransferWithTrilinearInterpolation` (lines 439-630). -/
noncomputable def performTransferWithTrilinearInterpolation (g : Globals) (axis : AXIS)
    (i j k p q r : Int) (lightdir : Vec3D ℚ) (checkTrilinearInterpolation : Bool) : Transfer :=
  let s := samplePoint g axis i j k
  if !checkIntersection g s.XT s.YT s.ZT then { reads := [], emitted := [] }
  else
    let density := g.gVolume.sample s.x s.y s.z
    if isInterior i j k p q r then
      let trilin := trilinAtVoxel g.gVolume.sample s.x s.y s.z
      let dot := diffuseTerm g s.x s.y s.z lightdir
      { reads := (s.x, s.y, s.z) :: (cornerReads s.x s.y s.z ++ gradientReads s.x s.y s.z),
        emitted :=
          (match classify g.global_ttype trunkShaded density with
            | some c =>
                [Primitive.point (shadedColor c density dot) (alphaOf density)
                  ⟨s.XT, s.YT, s.ZT⟩]
            | none => []) ++
          (if checkTrilinearInterpolation then
            match classify g.global_ttype trunkShaded trilin with
            | some c =>
                [Primitive.point (shadedColor c density dot) (alphaOf density)
                  ⟨s.XT, s.YT, s.ZT⟩]
            | none => []
          else []) }
    else
      { reads := (s.x, s.y, s.z) :: (performTransfer g axis i j k).reads,
        emitted := (performTransfer g axis i j k).emitted }

/-- The routine `performTransferWithBillboards` (lines 632-856). -/
noncomputable def performTransferWithBillboards (g : Globals) (axis : AXIS) (i j k p q r : Int)
    (lightdir : Vec3D ℚ) (checkTrilinearInterpolation : Bool) (right up : Vec3D ℚ) (size : ℚ) :
    Transfer :=
  let s := samplePoint g axis i j k
  if !checkIntersection g s.XT s.YT s.ZT then { reads := [], emitted := [] }
  else
    let density := g.gVolume.sample s.x s.y s.z
    let center : Vec3D ℚ := ⟨s.XT, s.YT, s.ZT⟩
    if isInterior i j k p q r then
      let trilin := trilinAtVoxel g.gVolume.sample s.x s.y s.z
      let dot := diffuseTerm g s.x s.y s.z lightdir
      { reads := (s.x, s.y, s.z) :: (cornerReads s.x s.y s.z ++ gradientReads s.x s.y s.z),
        emitted :=
          (match classify g.global_ttype trunkShaded density with
            | some c =>
                [billboard right up center (shadedColor c density dot) (alphaOf density) size]
            | none => []) ++
          (if checkTrilinearInterpolation then
            match classify g.global_ttype trunkShaded trilin with
            | some c =>
                [billboard right up center (shadedColor c density dot) (alphaOf density) size]
            | none => []
          else []) }
    else
      { reads := [(s.x, s.y, s.z)],
        emitted :=
          match classify g.global_ttype trunkShaded density with
          | some c => [billboard right up center (unshadedColor c density) (alphaOf density) size]
          | none => [] }

/-- The routine `performTransferWithArrays` (lines 858-1025): it has no branch
for a voxel that is not interior. -/
noncomputable def performTransferWithArrays (g : Globals) (axis : AXIS) (i j k p q r : Int)
    (lightdir : Vec3D ℚ) : Transfer :=
  let s := samplePoint g axis i j k
  if !checkIntersection g s.XT s.YT s.ZT then { reads := [], emitted := [] }
  else
    let density := g.gVolume.sample s.x s.y s.z
    if isInterior i j k p q r then
      let dot := diffuseTerm g s.x s.y s.z lightdir
      { reads := (s.x, s.y, s.z) :: gradientReads s.x s.y s.z,
        emitted :=
          match classify g.global_ttype trunkShaded density with
          | some c =>
              [Primitive.entry (shadedColor c density dot) (alphaOf density)
                ⟨s.XT, s.YT, s.ZT⟩]
          | none => [] }
    else { reads := [(s.x, s.y, s.z)], emitted := [] }

/-! #### Traversal order and the visualisation modes (lines 1336-1930) -/

/-- The axis choice made at the head of every mode.  The calls `abs(...)` take
`float` arguments and return their absolute value. -/
def selectAxis (aCameraFwd : Vec3D ℚ) : AXIS :=
  if |aCameraFwd.p0| ≥ |aCameraFwd.p1| ∧ |aCameraFwd.p0| ≥ |aCameraFwd.p2| then AXIS.X
  else if |aCameraFwd.p1| ≥ |aCameraFwd.p0| ∧ |aCameraFwd.p1| ≥ |aCameraFwd.p2| then AXIS.Y
  else AXIS.Z

/-- The direction choice, `aCameraFwd[axis] > 0 ? POS : NEG`. -/
def selectDirection (aCameraFwd : Vec3D ℚ) (axis : AXIS) : DIRECTION :=
  if aCameraFwd.component axis > 0 then DIRECTION.POS else DIRECTION.NEG

/-- The bound `p` of the outer loop.  The dimensions of a volume are taken to
fit in an `int`, so that the conversion keeps their value. -/
def loopP (v : Volume) (axis : AXIS) : Int :=
  match axis with
  | AXIS.X => (v.width : Int)
  | AXIS.Y => (v.height : Int)
  | AXIS.Z => (v.depth : Int)

/-- The bound `q` of the middle loop. -/
def loopQ (v : Volume) (axis : AXIS) : Int :=
  match axis with
  | AXIS.X => (v.height : Int)
  | AXIS.Y => (v.depth : Int)
  | AXIS.Z => (v.width : Int)

/-- The bound `r` of the inner loop. -/
def loopR (v : Volume) (axis : AXIS) : Int :=
  match axis with
  | AXIS.X => (v.depth : Int)
  | AXIS.Y => (v.width : Int)
  | AXIS.Z => (v.height : Int)

/-- The values of the loop variable of `for (int k = 0; k < n; k += 1)`, in
order. -/
def forUp (n : Int) : List Int :=
  (List.range n.toNat).map (fun (m : Nat) => (m : Int))

/-- The values of the loop variable of `for (int k = n - 1; k >= 0; k -= 1)`,
in order. -/
def forDown (n : Int) : List Int :=
  (forUp n).reverse

/-- The triples `(i, j, k)` at which the three nested loops of a mode call the
transfer routine, in order: `k` outermost, `i` innermost, all three increasing
for `POS` and all three decreasing for `NEG`. -/
def traversal (dir : DIRECTION) (p q r : Int) : List (Int × Int × Int) :=
  match dir with
  | DIRECTION.POS =>
      (forUp p).flatMap (fun k => (forUp q).flatMap (fun j => (forUp r).map (fun i => (i, j, k))))
  | DIRECTION.NEG =>
      (forDown p).flatMap
        (fun k => (forDown q).flatMap (fun j => (forDown r).map (fun i => (i, j, k))))

/-- The calls of one frame: the traversal of the current volume chosen by the
camera forward vector. -/
def frameCalls (v : Volume) (aCameraFwd : Vec3D ℚ) : List (Int × Int × Int) :=
  traversal (selectDirection aCameraFwd (selectAxis aCameraFwd))
    (loopP v (selectAxis aCameraFwd)) (loopQ v (selectAxis aCameraFwd))
    (loopR v (selectAxis aCameraFwd))

/-- The slice of a call: the coordinate of its voxel along the traversal
axis. -/
def sliceOf (g : Globals) (axis : AXIS) (c : Int × Int × Int) : Int :=
  match axis with
  | AXIS.X => (samplePoint g axis c.1 c.2.1 c.2.2).x
  | AXIS.Y => (samplePoint g axis c.1 c.2.1 c.2.2).y
  | AXIS.Z => (samplePoint g axis c.1 c.2.1 c.2.2).z

/-- The distance of the camera from the centre `Vec3Df(0, 0, 0)`. -/
noncomputable def cameraDistance (aCameraPos : Vec3D ℚ) : ℝ :=
  Vec3D.distance (Vec3D.toReal ⟨0, 0, 0⟩) aCameraPos.toReal

/-- Mode `colorAlphaPoints` (lines 1556-1594). -/
noncomputable def draw_colorAlphaPoints (g : Globals) (aCameraFwd : Vec3D ℚ) : List Transfer :=
  (frameCalls g.gVolume aCameraFwd).map
    (fun c => performTransfer g (selectAxis aCameraFwd) c.1 c.2.1 c.2.2)

/-- Mode `phongPoints` (lines 1596-1634). -/
noncomputable def draw_phongPoints (g : Globals) (aCameraFwd : Vec3D ℚ) : List Transfer :=
  (frameCalls g.gVolume aCameraFwd).map
    (fun c => performTransferWithLighting g (selectAxis aCameraFwd) c.1 c.2.1 c.2.2
      (loopP g.gVolume (selectAxis aCameraFwd)) (loopQ g.gVolume (selectAxis aCameraFwd))
      (loopR g.gVolume (selectAxis aCameraFwd)) g.gLightPosition)

/-- Mode `enhanceSelectedPoints` (lines 1656-1699). -/
noncomputable def draw_enhanceSelectedPoints (g : Globals) (aCameraFwd aCameraPos : Vec3D ℚ) :
    List Transfer :=
  (frameCalls g.gVolume aCameraFwd).map
    (fun c => performTransferWithTrilinearInterpolation g (selectAxis aCameraFwd) c.1 c.2.1 c.2.2
      (loopP g.gVolume (selectAxis aCameraFwd)) (loopQ g.gVolume (selectAxis aCameraFwd))
      (loopR g.gVolume (selectAxis aCameraFwd)) g.gLightPosition
      (decide (cameraDistance aCameraPos < 2)))

/-- Mode `billboards` (lines 1701-1748). -/
noncomputable def draw_billboards (g : Globals) (aCameraFwd aCameraUp aCameraPos : Vec3D ℚ) :
    List Transfer :=
  (frameCalls g.gVolume aCameraFwd).map
    (fun c => performTransferWithBillboards g (selectAxis aCameraFwd) c.1 c.2.1 c.2.2
      (loopP g.gVolume (selectAxis aCameraFwd)) (loopQ g.gVolume (selectAxis aCameraFwd))
      (loopR g.gVolume (selectAxis aCameraFwd)) g.gLightPosition
      (decide (cameraDistance aCameraPos < 2)) (Vec3D.crossProduct aCameraUp aCameraFwd)
      aCameraUp (4 / 1000))

/-- The element `vols[n]` of the vector of volumes. -/
def volsAt (g : Globals) (n : Nat) : Volume :=
  g.vols.getD n (Volume.create 0 0 0)

/-- The level-of-detail switch of mode `billboardsWithLOD` (lines 1776-1786):
the globals after it, and the billboard size. -/
noncomputable def switchLOD (g : Globals) (distance : ℝ) (size : ℚ) : Globals × ℚ :=
  if distance > 8 ∧ g.global_vols_idx = 0 then
    ({ g with global_vols_idx := 1, gVolume := volsAt g 1 }, size * 2)
  else if distance < 8 ∧ g.global_vols_idx = 1 then
    ({ g with global_vols_idx := 0, gVolume := volsAt g 0 }, size / 2)
  else (g, size)

/-- Mode `billboardsWithLOD` (lines 1750-1806): the loop bounds and the
direction are taken before the switch, the routine runs after it.  The result
is the globals after the frame and the calls of the routine. -/
noncomputable def draw_billboardsWithLOD (g : Globals)
    (aCameraFwd aCameraUp aCameraPos : Vec3D ℚ) : Globals × List Transfer :=
  let calls := frameCalls g.gVolume aCameraFwd
  let p := loopP g.gVolume (selectAxis aCameraFwd)
  let q := loopQ g.gVolume (selectAxis aCameraFwd)
  let r := loopR g.gVolume (selectAxis aCameraFwd)
  let lightpos := g.gLightPosition
  let switched := switchLOD g (cameraDistance aCameraPos) (4 / 1000)
  (switched.1,
    calls.map (fun c => performTransferWithBillboards switched.1 (selectAxis aCameraFwd)
      c.1 c.2.1 c.2.2 p q r lightpos (decide (cameraDistance aCameraPos < 2))
      (Vec3D.crossProduct aCameraUp aCameraFwd) aCameraUp switched.2))

/-- The seven `push_back` of `performTransferWithArrays` for one entry. -/
noncomputable def pushEntry (g : Globals) : Primitive → Globals
  | Primitive.entry c a pos =>
      { g with
        gDrawColors := g.gDrawColors ++
          [FloatVal.finite c.p0, FloatVal.finite c.p1, FloatVal.finite c.p2, a],
        gDrawPositions := g.gDrawPositions ++ [pos.p0, pos.p1, pos.p2] }
  | _ => g

/-- The start of a rebuild of the draw buffers: `current_dir = dir`,
`gLightChanged = false`, and both buffers cleared. -/
def clearBuffers (g : Globals) (dir : DIRECTION) : Globals :=
  { g with current_dir := dir, gLightChanged := false, gDrawColors := [], gDrawPositions := [] }

/-- Mode `drawAsArray` (lines 1808-1860), and with the same code mode
`drawAsArrayFromVRAM`: the buffers are rebuilt when the light has changed or
the direction differs from the cached one, and kept otherwise.  The result is
the globals after the frame and the calls of the routine. -/
noncomputable def draw_drawAsArray (g : Globals) (aCameraFwd : Vec3D ℚ) :
    Globals × List Transfer :=
  let axis := selectAxis aCameraFwd
  let dir := selectDirection aCameraFwd axis
  if g.gLightChanged = true ∨ dir ≠ g.current_dir then
    let g1 := clearBuffers g dir
    let transfers := (frameCalls g.gVolume aCameraFwd).map
      (fun c => performTransferWithArrays g1 axis c.1 c.2.1 c.2.2 (loopP g.gVolume axis)
        (loopQ g.gVolume axis) (loopR g.gVolume axis) g.gLightPosition)
    (transfers.foldl (fun acc t => t.emitted.foldl pushEntry acc) g1, transfers)
  else (g, [])

/-! #### The reduced volume (lines 168-200) -/

/-- The values of the loop variable of `for (int x = 0; x < n; x += 2)`, in
order. -/
def evensBelow (n : Nat) : List Int :=
  (List.range ((n + 1) / 2)).map (fun (m : Nat) => 2 * (m : Int))

/-- The 27 indices `(hor, ver, dep)` of the averaging loops, in order. -/
def neighbourhood (x y z : Int) : List GridIndex :=
  [x - 1, x, x + 1].flatMap
    (fun hor => [y - 1, y, y + 1].flatMap (fun ver => [z - 1, z, z + 1].map (fun dep => (hor, ver, dep))))

/-- The body of the loops of `load_lod_volume` at the source voxel `(x, y, z)`:
the index of the result it assigns, `floor` of the halved coordinates, and the
value, the neighbourhood average `avg / total` or the sample itself.  The
average is exact here; `lodWriteWith` computes it in rounded arithmetic. -/
def lodWrite (vol : Volume) (x y z : Int) : GridIndex × ℚ :=
  let density := vol.sample x y z
  let target : GridIndex := (⌊(x : ℚ) / 2⌋, ⌊(y : ℚ) / 2⌋, ⌊(z : ℚ) / 2⌋)
  if x ≠ 0 ∧ y ≠ 0 ∧ z ≠ 0 ∧ x ≠ (vol.width : Int) - 1 ∧ y ≠ (vol.height : Int) - 1 ∧
      z ≠ (vol.depth : Int) - 1 then
    let avg := ((neighbourhood x y z).map (fun idx => vol.sample idx.1 idx.2.1 idx.2.2)).sum
    let total : ℚ := ((neighbourhood x y z).length : ℚ)
    (target, avg / total)
  else (target, density)

/-- The assignments of `load_lod_volume`, in the order of a sequential run:
`z` over the even indices of `vol`, `y` and `x` over the even indices of the
global `gVolume`.  The iterations of `parallel_for` assign different elements,
so every order gives the same result. -/
def load_lod_writes (gVolume vol : Volume) : List (GridIndex × ℚ) :=
  (evensBelow vol.depth).flatMap
    (fun z => (evensBelow gVolume.height).flatMap
      (fun y => (evensBelow gVolume.width).map (fun x => lodWrite vol x y z)))

/-- The function `load_lod_volume`; the global `gVolume` it reads is its first
argument here. -/
def load_lod_volume (gVolume vol : Volume) : Volume :=
  (load_lod_writes gVolume vol).foldl
    (fun res w => res.assign w.1.1 w.1.2.1 w.1.2.2 w.2)
    (Volume.create (vol.width / 2 + 1) (vol.height / 2 + 1) (vol.depth / 2 + 1))

/-- The averaging loops of `load_lod_volume` (lines 180-192) in the arithmetic
of a float format whose rounding is `fl`: `avg` and `total` start at 0, every
sample is added to `avg` (`avg += vol(hor, ver, dep)`) and counted (`total++`,
which is exact), and the result is `avg /= total`. -/
def lodAverage (fl : ℚ → ℚ) (samples : List ℚ) : ℚ :=
  fl (samples.foldl (fun avg s => fl (avg + s)) 0 / (samples.length : ℚ))

/-- The body of the loops of `load_lod_volume` at the source voxel `(x, y, z)`,
as `lodWrite`, with the average computed by `lodAverage` in the arithmetic of
rounding `fl`. -/
def lodWriteWith (fl : ℚ → ℚ) (vol : Volume) (x y z : Int) : GridIndex × ℚ :=
  let density := vol.sample x y z
  let target : GridIndex := (⌊(x : ℚ) / 2⌋, ⌊(y : ℚ) / 2⌋, ⌊(z : ℚ) / 2⌋)
  if x ≠ 0 ∧ y ≠ 0 ∧ z ≠ 0 ∧ x ≠ (vol.width : Int) - 1 ∧ y ≠ (vol.height : Int) - 1 ∧
      z ≠ (vol.depth : Int) - 1 then
    (target,
      lodAverage fl ((neighbourhood x y z).map (fun idx => vol.sample idx.1 idx.2.1 idx.2.2)))
  else (target, density)

/-- The assignments of `load_lod_volume` in the arithmetic of rounding `fl`, in
the order of `load_lod_writes`. -/
def load_lod_writesWith (fl : ℚ → ℚ) (gVolume vol : Volume) : List (GridIndex × ℚ) :=
  (evensBelow vol.depth).flatMap
    (fun z => (evensBelow gVolume.height).flatMap
      (fun y => (evensBelow gVolume.width).map (fun x => lodWriteWith fl vol x y z)))

/-- The function `load_lod_volume` in the arithmetic of rounding `fl`:
`roundBinary32` for the `float` of the engine, the identity for exact
arithmetic, which gives `load_lod_volume`. -/
def load_lod_volumeWith (fl : ℚ → ℚ) (gVolume vol : Volume) : Volume :=
  (load_lod_writesWith fl gVolume vol).foldl
    (fun res w => res.assign w.1.1 w.1.2.1 w.1.2.2 w.2)
    (Volume.create (vol.width / 2 + 1) (vol.height / 2 + 1) (vol.depth / 2 + 1))

/-! #### The state of the program at start, and example volumes -/

/-- Modelled from the spec: the invariant of `volume.hpp` (not among the
sources), "array length always equals width·height·depth". -/
def Volume.wellFormed (v : Volume) : Prop :=
  v.data.length = v.width * v.height * v.depth

/-- The globals as `project_initialize` leaves them (lines 38-113 and
1284-1330) when the volume it has loaded is `v`. -/
def initialGlobals (v : Volume) : Globals :=
  { gVolume := v,
    gVolumeLargestDimension := max v.width (max v.height v.depth),
    gLightPosition := ⟨2, 2, 0⟩,
    gLightChanged := true,
    gSelectiveRegionType := ESelectiveRegionType.cube,
    global_ttype := TRANSFERTYPE.BONSAI,
    global_position := ⟨0, 0, 0⟩,
    global_width := 1,
    global_height := 1,
    global_depth := 1,
    global_radius := 1,
    global_slab_axis := AXIS.X,
    global_slab_length := 1 / 2,
    vols := [v, load_lod_volume v v],
    global_vols_idx := 0,
    gDrawPositions := [],
    gDrawColors := [],
    current_dir := DIRECTION.POS }

/-- Mode `none` (lines 1362-1376), the mode the program starts in: it makes the
region the cube from `(-1, -1, -1)` that spans the volume. -/
def draw_none (g : Globals) : Globals :=
  let maxX : ℚ := 2 * (g.gVolume.width : ℚ) / (g.gVolumeLargestDimension : ℚ) - 1
  let maxY : ℚ := 2 * (g.gVolume.height : ℚ) / (g.gVolumeLargestDimension : ℚ) - 1
  let maxZ : ℚ := 2 * (g.gVolume.depth : ℚ) / (g.gVolumeLargestDimension : ℚ) - 1
  { g with
    global_width := maxX + 1, global_height := maxY + 1, global_depth := maxZ + 1,
    global_position := ⟨-1, -1, -1⟩, gSelectiveRegionType := ESelectiveRegionType.cube }

/-- A volume of 3 x 3 x 3 voxels whose densities run from 0 to 1: the volume the
decoder returns for the `MET_UCHAR` payload `0, 1, …, 26`. -/
def cubeVolume : Volume :=
  { width := 3, height := 3, depth := 3,
    data := (List.range 27).map (fun (n : Nat) => (n : ℚ) / 26) }

/-- A volume of 5 x 5 x 5 voxels in layers: density 1 in the layer `z = 1`,
density 1/2 in the layer `z = 3` and density 0 in the other three: the volume
the decoder returns for the `MET_UCHAR` payload whose layers hold 0, 2, 0, 1,
0. -/
def layerVolume : Volume :=
  { width := 5, height := 5, depth := 5,
    data := (List.range 125).map
      (fun (n : Nat) => if n / 25 = 1 then (1 : ℚ) else if n / 25 = 3 then 1 / 2 else 0) }

/-- A volume of 4 x 4 x 4 voxels whose densities run from 0 to 1: the volume the
decoder returns for the `MET_UCHAR` payload `0, 1, …, 63`. -/
def blockVolume : Volume :=
  { width := 4, height := 4, depth := 4,
    data := (List.range 64).map (fun (n : Nat) => (n : ℚ) / 63) }

/-! #### Vector comparison (`src/vec3D.inl`, lines 328-337) -/

/-- The comparison `operator==` of two vectors. -/
def Vec3D.operator_eq {α : Type} [DecidableEq α] (aU aV : Vec3D α) : Bool :=
  decide (aU.p0 = aV.p0) && decide (aU.p1 = aV.p1) && decide (aU.p2 = aV.p2)

/-- The comparison `operator!=` of two vectors. -/
def Vec3D.operator_ne {α : Type} [DecidableEq α] (aU aV : Vec3D α) : Bool :=
  decide (aU.p0 ≠ aV.p0) && decide (aU.p1 ≠ aV.p1) && decide (aU.p2 ≠ aV.p2)

/-! #### The reads of the reduced volume (lines 168-200) -/

/-- The indices at which the body of the loops of `load_lod_volume` reads `vol`
at the source voxel `(x, y, z)`, in order: the voxel itself and, behind the
test of the six coordinates, the 27 indices of the averaging loops. -/
def lodReads (vol : Volume) (x y z : Int) : List GridIndex :=
  if x ≠ 0 ∧ y ≠ 0 ∧ z ≠ 0 ∧ x ≠ (vol.width : Int) - 1 ∧ y ≠ (vol.height : Int) - 1 ∧
      z ≠ (vol.depth : Int) - 1 then
    (x, y, z) :: neighbourhood x y z
  else [(x, y, z)]

/-- The indices at which `load_lod_volume` reads `vol`, in the order of a
sequential run: `z` over the even indices of `vol`, `y` and `x` over the even
indices of the global `gVolume`. -/
def load_lod_reads (gVolume vol : Volume) : List GridIndex :=
  (evensBelow vol.depth).flatMap
    (fun z => (evensBelow gVolume.height).flatMap
      (fun y => (evensBelow gVolume.width).flatMap (fun x => lodReads vol x y z)))

/-! #### The rule sets, in the words of the specification -/

/-- In the words of the specification: the rules of a rule set in their fixed
priority order, each a density interval with a base colour (BONSAI: trunk,
leaves; BACKPACK: lightgrey, darkgrey, red, lightblue, yellow).  The interval
of `trunk` is the one the routine declares. -/
def ruleSet (ttype : TRANSFERTYPE) (trunk : IsoSurface) : List (IsoSurface × Vec3D ℚ) :=
  match ttype with
  | TRANSFERTYPE.BONSAI =>
      [(trunk, ⟨33 / 100, 21 / 100, 1 / 10⟩), (leaves, ⟨0, 1, 0⟩)]
  | TRANSFERTYPE.BACKPACK =>
      [(lightgrey, ⟨85 / 100, 85 / 100, 85 / 100⟩), (darkgrey, ⟨66 / 100, 66 / 100, 66 / 100⟩),
       (red, ⟨1, 0, 0⟩), (lightblue, ⟨0, 1, 1⟩), (yellow, ⟨1, 1, 0⟩)]

/-- In the words of the specification: "rules are tested in a fixed priority
order and the first match wins"; the result is the colour of the first rule
whose closed interval `[low, high]` contains the density, or no match. -/
def firstMatch : List (IsoSurface × Vec3D ℚ) → ℚ → Option (Vec3D ℚ)
  | [], _ => none
  | rule :: rest, density =>
      if rule.1.low ≤ density ∧ density ≤ rule.1.high then some rule.2
      else firstMatch rest density

/-- The four floats one entry adds to `gDrawColors`. -/
noncomputable def entryColors : Primitive → List FloatVal
  | Primitive.entry c a _ => [FloatVal.finite c.p0, FloatVal.finite c.p1, FloatVal.finite c.p2, a]
  | _ => []

/-- The three floats one entry adds to `gDrawPositions`. -/
def entryPositions : Primitive → List ℚ
  | Primitive.entry _ _ pos => [pos.p0, pos.p1, pos.p2]
  | _ => []

/-! #### Keys (`project_on_key_press`, lines 1933-2137) -/

/-- Key `b` of `project_on_key_press` (line 2003): the slab becomes the active
region. -/
def project_on_key_press_b (g : Globals) : Globals :=
  { g with gSelectiveRegionType := ESelectiveRegionType.slab }

/-! ## Theorems -/

/-! ### Interpolation -/

theorem linearInterPolation_left (x1 x2 q00 q01 : ℚ) (h : x1 ≠ x2) :
    linearInterPolation x1 x1 x2 q00 q01 = q00 := by
  have h' : x2 - x1 ≠ 0 := sub_ne_zero.mpr (Ne.symm h)
  simp [linearInterPolation, div_self h']

theorem linearInterPolation_right (x1 x2 q00 q01 : ℚ) (h : x1 ≠ x2) :
    linearInterPolation x2 x1 x2 q00 q01 = q01 := by
  have h' : x2 - x1 ≠ 0 := sub_ne_zero.mpr (Ne.symm h)
  simp [linearInterPolation, div_self h']

/-- The value of `biLinearInterplationp` at the four corners of a cell: each
corner `(x_a, y_b)` receives its own value `q_ab`. -/
theorem biLinearInterplationp_corners (q11 q12 q21 q22 x1 x2 y1 y2 : ℚ)
    (hx : x1 ≠ x2) (hy : y1 ≠ y2) :
    biLinearInterplationp x1 y1 q11 q12 q21 q22 x1 x2 y1 y2 = q11 ∧
    biLinearInterplationp x1 y2 q11 q12 q21 q22 x1 x2 y1 y2 = q12 ∧
    biLinearInterplationp x2 y1 q11 q12 q21 q22 x1 x2 y1 y2 = q21 ∧
    biLinearInterplationp x2 y2 q11 q12 q21 q22 x1 x2 y1 y2 = q22 := by
  simp only [biLinearInterplationp, linearInterPolation_left _ _ _ _ hx,
    linearInterPolation_right _ _ _ _ hx, linearInterPolation_left _ _ _ _ hy,
    linearInterPolation_right _ _ _ _ hy, and_self]

/-- What `triLinearInterpolation` returns at the eight corners of a cell: the
`y` weight is applied across the `z` pair and the `z` weight across the `y`
pair, so the corner `(x_a, y_b, z_c)` receives the value `p_acb`. -/
theorem triLinearInterpolation_corners
    (p000 p001 p010 p011 p100 p101 p110 p111 x1 x2 y1 y2 z1 z2 : ℚ)
    (hx : x1 ≠ x2) (hy : y1 ≠ y2) (hz : z1 ≠ z2) :
    triLinearInterpolation x1 y1 z1 p000 p001 p010 p011 p100 p101 p110 p111
        x1 x2 y1 y2 z1 z2 = p000 ∧
    triLinearInterpolation x1 y1 z2 p000 p001 p010 p011 p100 p101 p110 p111
        x1 x2 y1 y2 z1 z2 = p010 ∧
    triLinearInterpolation x1 y2 z1 p000 p001 p010 p011 p100 p101 p110 p111
        x1 x2 y1 y2 z1 z2 = p001 ∧
    triLinearInterpolation x1 y2 z2 p000 p001 p010 p011 p100 p101 p110 p111
        x1 x2 y1 y2 z1 z2 = p011 ∧
    triLinearInterpolation x2 y1 z1 p000 p001 p010 p011 p100 p101 p110 p111
        x1 x2 y1 y2 z1 z2 = p100 ∧
    triLinearInterpolation x2 y1 z2 p000 p001 p010 p011 p100 p101 p110 p111
        x1 x2 y1 y2 z1 z2 = p110 ∧
    triLinearInterpolation x2 y2 z1 p000 p001 p010 p011 p100 p101 p110 p111
        x1 x2 y1 y2 z1 z2 = p101 ∧
    triLinearInterpolation x2 y2 z2 p000 p001 p010 p011 p100 p101 p110 p111
        x1 x2 y1 y2 z1 z2 = p111 := by
  simp only [triLinearInterpolation, linearInterPolation_left _ _ _ _ hx,
    linearInterPolation_right _ _ _ _ hx, linearInterPolation_left _ _ _ _ hy,
    linearInterPolation_right _ _ _ _ hy, linearInterPolation_left _ _ _ _ hz,
    linearInterPolation_right _ _ _ _ hz, and_self]

/-- C7: on the unit cell with corner value `p001 = 1` (low `x`, low `y`, high
`z`) and every other corner `0`, `triLinearInterpolation` evaluated at that
corner, the point `(0, 0, 1)`, returns `0`, the value of the corner `p010`, and
not the stored value `1`; the stored value `1` is returned at the point
`(0, 1, 0)`, the corner of `p010`. -/
theorem triLinearInterpolation_corner_001 :
    triLinearInterpolation 0 0 1 0 1 0 0 0 0 0 0 0 1 0 1 0 1 = 0 ∧
    triLinearInterpolation 0 1 0 0 1 0 0 0 0 0 0 0 1 0 1 0 1 = 1 := by
  constructor
  · norm_num [triLinearInterpolation, linearInterPolation]
  · norm_num [triLinearInterpolation, linearInterPolation]

theorem roundTiesToEven_eq {α : Type} [LinearOrderedField α] [FloorRing α] (y : α) (n : Int) (h : |y - n| ≤ 1 / 2)
    (he : |y - n| = 1 / 2 → n % 2 = 0) : roundTiesToEven y = n := by
  rw [abs_le] at h
  obtain ⟨h1, h2⟩ := h
  unfold roundTiesToEven
  rcases lt_trichotomy y (n : α) with hlt | heq | hgt
  · -- floor is n - 1
    have hfl : ⌊y⌋ = n - 1 := by
      rw [Int.floor_eq_iff]
      push_cast
      constructor <;> linarith
    have hfr : Int.fract y = y - n + 1 := by
      rw [Int.fract, hfl]; push_cast; ring
    rw [hfr, hfl]
    by_cases hh : y - n = -(1 / 2)
    · have habs : |y - (n : α)| = 1 / 2 := by
        rw [hh, abs_neg, abs_of_pos (by norm_num)]
      have hev := he habs
      rw [if_neg (by rw [hh]; norm_num), if_neg (by rw [hh]; norm_num), if_neg (by omega)]
      omega
    · have hne : -(1 / 2) < y - n := lt_of_le_of_ne h1 (Ne.symm hh)
      rw [if_neg (by linarith), if_pos (by linarith)]
      omega
  · have hfl : ⌊y⌋ = n := by rw [heq, Int.floor_intCast]
    have hfr : Int.fract y = 0 := by rw [heq, Int.fract_intCast]
    rw [hfr, hfl, if_pos (by norm_num)]
  · have hfl : ⌊y⌋ = n := by
      rw [Int.floor_eq_iff]
      constructor <;> linarith
    have hfr : Int.fract y = y - n := by
      rw [Int.fract, hfl]
    rw [hfr, hfl]
    by_cases hh : y - n = 1 / 2
    · have habs : |y - (n : α)| = 1 / 2 := by
        rw [hh, abs_of_pos (by norm_num)]
      have hev := he habs
      rw [if_neg (by rw [hh]; norm_num), if_neg (by rw [hh]; norm_num), if_pos hev]
    · have hne : y - n < 1 / 2 := lt_of_le_of_ne h2 hh
      rw [if_pos hne]

theorem binade32_eq {α : Type} [LinearOrderedField α] [FloorRing α] (x : α) (e : Int) (he : -126 ≤ e) (h1 : (2 : α) ^ e ≤ |x|)
    (h2 : |x| < (2 : α) ^ (e + 1)) : binade32 x = e := by
  have hpos : (0 : α) < |x| := lt_of_lt_of_le (zpow_pos (by norm_num) e) h1
  have hlog : Int.log 2 |x| = e := by
    apply le_antisymm
    · have := (Int.lt_zpow_iff_log_lt (b := 2) (by norm_num) hpos (x := e + 1)).mp
        (by exact_mod_cast h2)
      omega
    · exact (Int.zpow_le_iff_le_log (b := 2) (by norm_num) hpos).mp (by exact_mod_cast h1)
  unfold binade32
  rw [hlog]
  exact max_eq_left he

theorem roundBinary32_eq {α : Type} [LinearOrderedField α] [FloorRing α] (x : α) (e n : Int) (he : -126 ≤ e) (h1 : (2 : α) ^ e ≤ |x|)
    (h2 : |x| < (2 : α) ^ (e + 1)) (hn : |x / 2 ^ (e - 23) - n| ≤ 1 / 2)
    (hev : |x / 2 ^ (e - 23) - n| = 1 / 2 → n % 2 = 0) :
    roundBinary32 x = (n : α) * 2 ^ (e - 23) := by
  unfold roundBinary32
  rw [binade32_eq x e he h1 h2, roundTiesToEven_eq _ n hn hev]

theorem binade32_ge {α : Type} [LinearOrderedField α] [FloorRing α] (x : α) : -126 ≤ binade32 x := le_max_right _ _

theorem roundBinary32_eq_pos {α : Type} [LinearOrderedField α] [FloorRing α] (x : α) (e n : Int) (he : -126 ≤ e) (h1 : (2 : α) ^ e ≤ x)
    (h2 : x < (2 : α) ^ (e + 1)) (hn1 : (n : α) - 1 / 2 < x / 2 ^ (e - 23))
    (hn2 : x / 2 ^ (e - 23) < (n : α) + 1 / 2) :
    roundBinary32 x = (n : α) * 2 ^ (e - 23) := by
  have hpos : (0 : α) < x := lt_of_lt_of_le (zpow_pos (by norm_num) e) h1
  have habs : |x| = x := abs_of_pos hpos
  have hlt : |x / 2 ^ (e - 23) - (n : α)| < 1 / 2 := by
    rw [abs_lt]
    constructor <;> linarith
  exact roundBinary32_eq x e n he (by rw [habs]; exact h1) (by rw [habs]; exact h2) hlt.le
    (fun h => absurd h hlt.ne)

/-- C10 (as stated, refuted): the end points are not handled apart.  At density
1 the divisor `1.0f - density` is zero and the quotient
`density / (1.0f - density)` is `+∞`; at density 0 the power is taken at base 0
and is `+∞`. -/
theorem alpha_endpoints_divide_by_zero :
    FloatVal.sub (FloatVal.finite 1) (FloatVal.finite 1) = FloatVal.finite 0 ∧
    alphaQuotient (FloatVal.finite 1) = FloatVal.posInf ∧
    alphaQuotient (FloatVal.finite 0) = FloatVal.finite 0 ∧
    FloatVal.powNegThreeHalves (alphaQuotient (FloatVal.finite 0)) = FloatVal.posInf := by
  simp [alphaQuotient, FloatVal.sub, FloatVal.div, FloatVal.powNegThreeHalves]

/-- C10 (amended): in IEEE-754 arithmetic the alpha computed for density 0 is 0
and the alpha computed for density 1 is 1; both are reached through an
infinity: `1 / (1 + ∞)` at density 0, and the power of the quotient `1 / 0 = +∞`
at density 1. -/
theorem alpha_endpoints :
    alpha (FloatVal.finite 0) = FloatVal.finite 0 ∧
    alpha (FloatVal.finite 1) = FloatVal.finite 1 ∧
    alpha (FloatVal.finite 0) =
      FloatVal.div (FloatVal.finite 1) (FloatVal.add (FloatVal.finite 1) FloatVal.posInf) ∧
    alpha (FloatVal.finite 1) =
      FloatVal.div (FloatVal.finite 1)
        (FloatVal.add (FloatVal.finite 1) (FloatVal.powNegThreeHalves FloatVal.posInf)) := by
  simp [alpha, alphaQuotient, FloatVal.sub, FloatVal.div, FloatVal.powNegThreeHalves,
    FloatVal.add]

/-! ### The decoder -/

theorem wrapInt32_of_range (v : Int) (h1 : -2 ^ 31 ≤ v) (h2 : v < 2 ^ 31) : wrapInt32 v = v := by
  unfold wrapInt32
  omega

theorem sampleCount_eq (info : MHDInfo) (hx : 0 < info.x) (hy : 0 < info.y) (hz : 0 < info.z)
    (h : info.x * info.y * info.z ≤ INT_MAX) : sampleCount info = info.x * info.y * info.z := by
  unfold INT_MAX at h
  have hxy : 0 < info.x * info.y := Int.mul_pos hx hy
  have h1 : info.x * info.y ≤ info.x * info.y * info.z := by nlinarith
  unfold sampleCount intMul
  rw [wrapInt32_of_range (info.x * info.y) (by omega) (by omega)]
  have hpos : 0 < info.x * info.y * info.z := Int.mul_pos hxy hz
  exact wrapInt32_of_range _ (by omega) (by omega)

theorem decodeSamples_int16_length : ∀ (n : Nat) (bs : List UInt8), bs.length ≤ n →
    (decodeSamples SampleType.int16 bs).length = bs.length / 2
  | 0, bs, h => by
      have : bs = [] := List.length_eq_zero.mp (Nat.le_zero.mp h)
      subst this; simp [decodeSamples]
  | n + 1, [], _ => by simp [decodeSamples]
  | n + 1, [_], _ => by simp [decodeSamples]
  | n + 1, lo :: hi :: rest, h => by
      have ih := decodeSamples_int16_length n rest (by simp at h; omega)
      simp [decodeSamples, ih]
      omega

theorem decodeSamples_length (T : SampleType) (bs : List UInt8) :
    (decodeSamples T bs).length = bs.length / T.sizeof := by
  cases T
  · simp [decodeSamples, SampleType.sizeof]
  · simpa [SampleType.sizeof] using decodeSamples_int16_length bs.length bs (le_refl _)

theorem sizeof_pos (T : SampleType) : 0 < T.sizeof := by
  cases T <;> simp [SampleType.sizeof]

theorem normalize_length (T : SampleType) (buffer : List Int) :
    (normalize T buffer).length = buffer.length := by
  simp [normalize]

theorem transformInto_create (results : List ℚ) (w h d : Nat)
    (hlen : results.length = w * h * d) :
    transformInto results (Volume.create w h d) =
      { width := w, height := h, depth := d, data := results } := by
  simp [transformInto, Volume.create, hlen]

theorem fread_full (T : SampleType) (n : Nat) (aFile : List UInt8)
    (hlen : n * T.sizeof ≤ aFile.length) :
    fread T (List.replicate n 0) aFile = (decodeSamples T (aFile.take (n * T.sizeof)), n) := by
  have hn : n ≤ aFile.length / T.sizeof := (Nat.le_div_iff_mul_le (sizeof_pos T)).mpr hlen
  simp [fread, Nat.min_def, hn]

theorem payload_length (T : SampleType) (n : Nat) (aFile : List UInt8)
    (hlen : n * T.sizeof ≤ aFile.length) :
    (decodeSamples T (aFile.take (n * T.sizeof))).length = n := by
  rw [decodeSamples_length, List.length_take, Nat.min_eq_left hlen]
  exact Nat.mul_div_cancel _ (sizeof_pos T)

theorem load_data_raw_ok (T : SampleType) (aFile : List UInt8) (aInfo : MHDInfo) (n : Nat)
    (hcount : sampleCount aInfo = (n : Int)) (hlen : n * T.sizeof ≤ aFile.length) :
    load_data_raw_ T aFile aInfo =
      Except.ok (transformInto (normalize T (decodeSamples T (aFile.take (n * T.sizeof))))
        (Volume.create aInfo.x.toNat aInfo.y.toNat aInfo.z.toNat)) := by
  unfold load_data_raw_
  simp only [hcount, Int.toNat_ofNat, fread_full T n aFile hlen, payload_length T n aFile hlen]
  simp

theorem load_data_raw_negative (T : SampleType) (aFile : List UInt8) (aInfo : MHDInfo)
    (hcount : sampleCount aInfo < 0) :
    load_data_raw_ T aFile aInfo = Except.error "vector: length_error" := by
  unfold load_data_raw_
  simp [hcount]

theorem load_data_compressed_negative (T : SampleType) (mz : Miniz) (aFile : List UInt8) (aInfo : MHDInfo)
    (hcount : sampleCount aInfo < 0) :
    load_data_compressed_ T mz aFile aInfo = Except.error "vector: length_error" := by
  unfold load_data_compressed_
  simp [hcount]

theorem load_data_compressed_ok (T : SampleType) (mz : Miniz) (aFile : List UInt8) (aInfo : MHDInfo) (n : Nat)
    (hcount : sampleCount aInfo = (n : Int)) (hinit : mz.inflateInit = MzStatus.MZ_OK)
    (hstatus : (inflateCall mz aFile (n * T.sizeof)).status = MzStatus.MZ_OK ∨
      ((inflateCall mz aFile (n * T.sizeof)).status = MzStatus.MZ_STREAM_END ∧
       (inflateCall mz aFile (n * T.sizeof)).total_out = n * T.sizeof)) :
    load_data_compressed_ T mz aFile aInfo =
      Except.ok (transformInto (normalize T (decodeSamples T
        (((inflateCall mz aFile (n * T.sizeof)).output ++
          List.replicate (n * T.sizeof - (inflateCall mz aFile (n * T.sizeof)).output.length) 0).take (n * T.sizeof))))
        (Volume.create aInfo.x.toNat aInfo.y.toNat aInfo.z.toNat)) := by
  unfold load_data_compressed_
  have hneg : ¬ ((n : Int) < 0) := by omega
  simp only [hcount, Int.toNat_ofNat, hinit, hneg, if_false, ne_eq, not_true_eq_false]
  rw [if_neg]
  intro h
  rcases hstatus with h1 | h2
  · exact h.1 h1
  · exact h.2 h2

theorem load_data_compressed_rejected (T : SampleType) (mz : Miniz) (aFile : List UInt8) (aInfo : MHDInfo) (n : Nat)
    (hcount : sampleCount aInfo = (n : Int)) (hinit : mz.inflateInit = MzStatus.MZ_OK)
    (hnot : (inflateCall mz aFile (n * T.sizeof)).status ≠ MzStatus.MZ_OK)
    (hend : ¬ ((inflateCall mz aFile (n * T.sizeof)).status = MzStatus.MZ_STREAM_END ∧
       (inflateCall mz aFile (n * T.sizeof)).total_out = n * T.sizeof)) :
    load_data_compressed_ T mz aFile aInfo = Except.error "miniz: decompression failed" := by
  unfold load_data_compressed_
  have hneg : ¬ ((n : Int) < 0) := by omega
  simp only [hcount, Int.toNat_ofNat, hinit, hneg, if_false, ne_eq, not_true_eq_false]
  rw [if_pos]
  exact ⟨hnot, hend⟩

/-- What one header line does to the record. -/
theorem header_line_effect (info0 info1 : MHDInfo) (n v : String)
    (h : header_line info0 n v = Except.ok info1) :
    (info1.typeIsImage = if n = "ObjectType" then decide (v = "Image") else info0.typeIsImage) ∧
    (info1.dataIsBinary = if n = "BinaryData" then decide (v = "True") else info0.dataIsBinary) ∧
    (if n = "ElementType" then
        (v = "MET_UCHAR" ∧ info1.elementType = MHDType.u8) ∨
        (v = "MET_SHORT" ∧ info1.elementType = MHDType.s16)
      else info1.elementType = info0.elementType) ∧
    (if n = "NDims" then sscanf_d_c v = (1, some info1.ndims)
      else info1.ndims = info0.ndims) ∧
    (if n = "DimSize" then sscanf_d_d_d_c v = (3, [info1.x, info1.y, info1.z])
      else info1.x = info0.x ∧ info1.y = info0.y ∧ info1.z = info0.z) := by
  unfold header_line at h
  split_ifs at h with h1 h2 h3 h4 h5 h6 h7 h8 h9
  · injection h with h; subst h; subst_vars; simp
  · injection h with h; subst h; subst_vars; simp
  · injection h with h; subst h; subst_vars; simp
  · split at h
    · injection h with h; subst h; subst_vars; simp [*]
    · exact absurd h (by simp)
  · split at h
    · injection h with h; subst h; subst_vars; simp [*]
    · exact absurd h (by simp)
  · injection h with h; subst h; subst_vars; simp
  · injection h with h; subst h; subst_vars; simp
  · injection h with h; subst h; subst_vars; simp
  · injection h with h; subst h; simp [*]

/-- What the header loop leaves in the record, in terms of the values the
header gives to the keys. -/
theorem read_header_effect : ∀ (lines : List (String × String)) (info0 info : MHDInfo),
    read_header lines info0 = Except.ok info →
    (info.typeIsImage = match headerValue "ObjectType" lines with
      | some v => decide (v = "Image")
      | none => info0.typeIsImage) ∧
    (info.dataIsBinary = match headerValue "BinaryData" lines with
      | some v => decide (v = "True")
      | none => info0.dataIsBinary) ∧
    (match headerValue "ElementType" lines with
      | some v => (v = "MET_UCHAR" ∧ info.elementType = MHDType.u8) ∨
          (v = "MET_SHORT" ∧ info.elementType = MHDType.s16)
      | none => info.elementType = info0.elementType) ∧
    (match headerValue "NDims" lines with
      | some v => sscanf_d_c v = (1, some info.ndims)
      | none => info.ndims = info0.ndims) ∧
    (match headerValue "DimSize" lines with
      | some v => sscanf_d_d_d_c v = (3, [info.x, info.y, info.z])
      | none => info.x = info0.x ∧ info.y = info0.y ∧ info.z = info0.z)
  | [], info0, info, h => by
      simp only [read_header, Except.ok.injEq] at h
      subst h
      simp [headerValue]
  | (n, v) :: rest, info0, info, h => by
      simp only [read_header] at h
      split at h
      · rename_i info1 h1
        have ih := read_header_effect rest info1 info h
        have hl := header_line_effect info0 info1 n v h1
        obtain ⟨i1, i2, i3, i4, i5⟩ := ih
        obtain ⟨l1, l2, l3, l4, l5⟩ := hl
        refine ⟨?_, ?_, ?_, ?_, ?_⟩
        · simp only [headerValue]
          cases hv : headerValue "ObjectType" rest with
          | some w => simpa [hv] using i1
          | none =>
              simp only [hv] at i1 ⊢
              rw [i1, l1]
              split_ifs <;> rfl
        · simp only [headerValue]
          cases hv : headerValue "BinaryData" rest with
          | some w => simpa [hv] using i2
          | none =>
              simp only [hv] at i2 ⊢
              rw [i2, l2]
              split_ifs <;> rfl
        · simp only [headerValue]
          cases hv : headerValue "ElementType" rest with
          | some w => simpa [hv] using i3
          | none =>
              simp only [hv] at i3 ⊢
              split_ifs at l3 ⊢ with hn
              · simpa [i3] using l3
              · simp only [i3, l3]
        · simp only [headerValue]
          cases hv : headerValue "NDims" rest with
          | some w => simpa [hv] using i4
          | none =>
              simp only [hv] at i4 ⊢
              split_ifs at l4 ⊢ with hn
              · simpa [i4] using l4
              · simp only [i4, l4]
        · simp only [headerValue]
          cases hv : headerValue "DimSize" rest with
          | some w => simpa [hv] using i5
          | none =>
              simp only [hv] at i5 ⊢
              split_ifs at l5 ⊢ with hn
              · simpa [i5.1, i5.2.1, i5.2.2] using l5
              · simp only [i5.1, i5.2.1, i5.2.2, l5, and_self]
      · exact absurd h (by simp)


theorem verify_header_ok (info : MHDInfo) (himage : info.typeIsImage = true)
    (hbinary : info.dataIsBinary = true) (htype : info.elementType ≠ MHDType.unknown)
    (hndims : info.ndims = 3) (hx : 0 < info.x) (hy : 0 < info.y) (hz : 0 < info.z) :
    verify_header info = Except.ok () := by
  unfold verify_header
  simp [himage, hbinary, htype, hndims, not_le.mpr hx, not_le.mpr hy, not_le.mpr hz]

theorem verify_header_error (info : MHDInfo)
    (h : info.typeIsImage = false ∨ info.dataIsBinary = false ∨
      info.elementType = MHDType.unknown ∨ info.ndims ≠ 3 ∨
      info.x ≤ 0 ∨ info.y ≤ 0 ∨ info.z ≤ 0) :
    ∃ e, verify_header info = Except.error e := by
  unfold verify_header
  split_ifs with h1 h2 h3 h4 h5
  · exact ⟨_, rfl⟩
  · exact ⟨_, rfl⟩
  · exact ⟨_, rfl⟩
  · exact ⟨_, rfl⟩
  · exact ⟨_, rfl⟩
  · exfalso
    rcases h with h | h | h | h | h
    · simp [h] at h1
    · simp [h] at h2
    · exact h3 h
    · exact h4 h
    · exact h5 h

theorem mhdType_ne_unknown (T : SampleType) : T.mhdType ≠ MHDType.unknown := by
  cases T <;> simp [SampleType.mhdType]

/-- The decoder on a header that passes the checks: the reader selected by the
compression flag and the element type decides the result. -/
theorem load_mhd_volume_body_eq (fs : Files) (mz : Miniz) (aFileName : String)
    (lines : List (String × String)) (info : MHDInfo) (data : List UInt8) (T : SampleType)
    (hopen : fs.openHeader aFileName = some lines)
    (hread : read_header lines {} = Except.ok info)
    (hverify : verify_header info = Except.ok ())
    (htype : info.elementType = T.mhdType)
    (hdata : fs.openData (dataPath aFileName info.dataFile) = some data) :
    load_mhd_volume_body fs mz aFileName =
      if info.dataCompressed then load_data_compressed_ T mz data info
      else load_data_raw_ T data info := by
  unfold load_mhd_volume_body
  simp only [hopen, hread, hverify, hdata, htype]
  cases T <;> cases info.dataCompressed <;> simp [SampleType.mhdType]

theorem toNat_mul3 (x y z : Int) (hx : 0 < x) (hy : 0 < y) (hz : 0 < z) :
    x.toNat * y.toNat * z.toNat = (x * y * z).toNat := by
  have h1 : (x.toNat : Int) = x := Int.toNat_of_nonneg hx.le
  have h2 : (y.toNat : Int) = y := Int.toNat_of_nonneg hy.le
  have h3 : (z.toNat : Int) = z := Int.toNat_of_nonneg hz.le
  have : ((x.toNat * y.toNat * z.toNat : Nat) : Int) = x * y * z := by
    push_cast
    rw [h1, h2, h3]
  omega



/-- C1: for the 8-bit buffer `1, 2` (true minimum 1, true maximum 2) the raw
reader stores the densities `254/253, 1`: the scan leaves `minf` at 255, so the
minimum sample is not mapped to 0 and the order of the two samples is
reversed.  For the grid `0, 32, 64, 96, 128, 160, 192, 255` of the
specification the densities are `v / 255`. -/
theorem load_data_raw_min_first :
    load_data_raw_ SampleType.uint8 [1, 2] { x := 2, y := 1, z := 1 } =
      Except.ok { width := 2, height := 1, depth := 1, data := [254 / 253, 1] } ∧
    load_data_raw_ SampleType.uint8 [0, 32, 64, 96, 128, 160, 192, 255]
        { x := 2, y := 2, z := 2 } =
      Except.ok { width := 2, height := 2, depth := 2,
                  data := [0, 32 / 255, 64 / 255, 96 / 255, 128 / 255, 160 / 255,
                           192 / 255, 1] } := by
  constructor
  · rw [load_data_raw_ok SampleType.uint8 _ _ 2 (by decide) (by decide)]
    simp [SampleType.sizeof, decodeSamples, normalize, minmaxScan, minmaxStep,
      SampleType.max, SampleType.min, transformInto, Volume.create]
    norm_num
  · rw [load_data_raw_ok SampleType.uint8 _ _ 8 (by decide) (by decide)]
    simp [SampleType.sizeof, decodeSamples, normalize, minmaxScan, minmaxStep,
      SampleType.max, SampleType.min, transformInto, Volume.create]
    norm_num

theorem shortHeader_read : read_header shortHeader {} = Except.ok shortInfo := by rfl

/-- C2: the volume decoded from the raw 16-bit payload `10, 20, 30` with declared
size `3 × 1 × 1` holds three densities, and the first of them, `32757/32737`,
is greater than 1. -/
theorem load_mhd_volume_density_above_one :
    (load_mhd_volume shortFiles emptyStreamMiniz "short.mhd").data =
      [32757 / 32737, 32747 / 32737, 1] ∧
    (1 : ℚ) < 32757 / 32737 := by
  constructor
  · have hbody := load_mhd_volume_body_eq shortFiles emptyStreamMiniz "short.mhd" shortHeader
      shortInfo shortPayload SampleType.int16 (by rfl) shortHeader_read (by rfl) (by rfl) (by rfl)
    unfold load_mhd_volume
    rw [hbody]
    have hraw := load_data_raw_ok SampleType.int16 shortPayload shortInfo 3 (by decide) (by decide)
    simp only [shortInfo, Bool.false_eq_true, if_false] at hraw ⊢
    rw [hraw]
    simp [SampleType.sizeof, shortPayload, decodeSamples, toInt16, normalize, minmaxScan,
      minmaxStep, SampleType.max, SampleType.min, transformInto, Volume.create]
    norm_num
  · norm_num



theorem bigHeader_read : read_header bigHeader {} = Except.ok bigInfo := by rfl

/-- C3 (as stated, refuted): the header `bigHeader` declares `ObjectType =
Image`, `BinaryData = True`, `NDims = 3`, `ElementType = MET_UCHAR` and
`DimSize = 65536 32768 1`, and its payload holds `65536 * 32768 * 1` samples;
the element count computed in `int` is negative, the buffer cannot be
allocated, and the decoder returns the empty volume. -/
theorem load_mhd_volume_big_empty :
    read_header bigHeader {} = Except.ok bigInfo ∧
    verify_header bigInfo = Except.ok () ∧
    bigPayload.length = 65536 * 32768 * 1 ∧
    load_mhd_volume bigFiles emptyStreamMiniz "big.mhd" = Volume.create 0 0 0 := by
  refine ⟨bigHeader_read, by rfl, by rw [bigPayload, List.length_replicate], ?_⟩
  have hbody := load_mhd_volume_body_eq bigFiles emptyStreamMiniz "big.mhd" bigHeader
    bigInfo bigPayload SampleType.uint8 (by rfl) bigHeader_read (by rfl) (by rfl) (by rfl)
  unfold load_mhd_volume
  rw [hbody]
  rw [if_neg (by decide), load_data_raw_negative SampleType.uint8 bigPayload bigInfo (by decide)]

/-- C3 (amended): for a header that reads without error into a record with
`ObjectType = Image`, `BinaryData = True`, `NDims = 3`, positive sizes `x y z`
whose product does not exceed `INT_MAX`, and a recognised element type, and
whose payload delivers `x*y*z` samples, the decoder returns a volume of width
`x`, height `y`, depth `z` that holds `x*y*z` samples, a nonzero number. -/
theorem load_mhd_volume_dimensions (fs : Files) (mz : Miniz) (aFileName : String)
    (lines : List (String × String)) (info : MHDInfo) (data : List UInt8) (T : SampleType)
    (hopen : fs.openHeader aFileName = some lines)
    (hread : read_header lines {} = Except.ok info)
    (himage : info.typeIsImage = true) (hbinary : info.dataIsBinary = true)
    (hndims : info.ndims = 3)
    (hx : 0 < info.x) (hy : 0 < info.y) (hz : 0 < info.z)
    (htype : info.elementType = T.mhdType)
    (hrange : info.x * info.y * info.z ≤ INT_MAX)
    (hdata : fs.openData (dataPath aFileName info.dataFile) = some data)
    (hpayload : payloadDelivers T mz info data) :
    ((load_mhd_volume fs mz aFileName).width : Int) = info.x ∧
    ((load_mhd_volume fs mz aFileName).height : Int) = info.y ∧
    ((load_mhd_volume fs mz aFileName).depth : Int) = info.z ∧
    ((load_mhd_volume fs mz aFileName).total_element_count : Int) =
      info.x * info.y * info.z ∧
    (load_mhd_volume fs mz aFileName).total_element_count ≠ 0 := by
  have hverify : verify_header info = Except.ok () :=
    verify_header_ok info himage hbinary (htype ▸ mhdType_ne_unknown T) hndims hx hy hz
  have hbody := load_mhd_volume_body_eq fs mz aFileName lines info data T hopen hread hverify
    htype hdata
  have hpos : 0 < info.x * info.y * info.z := Int.mul_pos (Int.mul_pos hx hy) hz
  have hcount : sampleCount info = ((info.x * info.y * info.z).toNat : Int) := by
    rw [sampleCount_eq info hx hy hz hrange, Int.toNat_of_nonneg hpos.le]
  have hdims := toNat_mul3 info.x info.y info.z hx hy hz
  have hresult : ∃ results : List ℚ, results.length = (info.x * info.y * info.z).toNat ∧
      load_mhd_volume fs mz aFileName =
        { width := info.x.toNat, height := info.y.toNat, depth := info.z.toNat,
          data := results } := by
    unfold load_mhd_volume
    rw [hbody]
    unfold payloadDelivers at hpayload
    cases hc : info.dataCompressed with
    | false =>
        simp only [hc, Bool.false_eq_true, if_false] at hpayload ⊢
        rw [load_data_raw_ok T data info _ hcount hpayload]
        refine ⟨_, ?_, transformInto_create _ _ _ _ ?_⟩
        · rw [normalize_length, payload_length T _ data hpayload]
        · rw [normalize_length, payload_length T _ data hpayload, hdims]
    | true =>
        simp only [hc, if_true] at hpayload ⊢
        obtain ⟨hinit, hstatus, htotal⟩ := hpayload
        have hacc : (inflateCall mz data ((info.x * info.y * info.z).toNat * T.sizeof)).status =
                MzStatus.MZ_OK ∨
            ((inflateCall mz data ((info.x * info.y * info.z).toNat * T.sizeof)).status =
                MzStatus.MZ_STREAM_END ∧
             (inflateCall mz data ((info.x * info.y * info.z).toNat * T.sizeof)).total_out =
                (info.x * info.y * info.z).toNat * T.sizeof) := by
          rcases hstatus with h | h
          · exact Or.inl h
          · exact Or.inr ⟨h, htotal⟩
        rw [load_data_compressed_ok T mz data info _ hcount hinit hacc]
        have hlen : (decodeSamples T
            (((inflateCall mz data ((info.x * info.y * info.z).toNat * T.sizeof)).output ++
              List.replicate ((info.x * info.y * info.z).toNat * T.sizeof -
                (inflateCall mz data ((info.x * info.y * info.z).toNat * T.sizeof)).output.length)
                0).take ((info.x * info.y * info.z).toNat * T.sizeof))).length =
            (info.x * info.y * info.z).toNat := by
          rw [decodeSamples_length]
          unfold InflateResult.total_out at htotal
          simp only [htotal, Nat.sub_self, List.replicate_zero, List.append_nil,
            List.length_take, Nat.min_self]
          exact Nat.mul_div_cancel _ (sizeof_pos T)
        refine ⟨_, ?_, transformInto_create _ _ _ _ ?_⟩
        · rw [normalize_length, hlen]
        · rw [normalize_length, hlen, hdims]
  obtain ⟨results, hlen, hvol⟩ := hresult
  rw [hvol]
  simp only [Volume.total_element_count, hlen]
  refine ⟨Int.toNat_of_nonneg hx.le, Int.toNat_of_nonneg hy.le, Int.toNat_of_nonneg hz.le,
    Int.toNat_of_nonneg hpos.le, ?_⟩
  omega

/-- The amended C3 at the header `shortHeader` and its payload of three 16-bit
samples. -/
theorem load_mhd_volume_dimensions_witness :
    ((load_mhd_volume shortFiles emptyStreamMiniz "short.mhd").width : Int) = 3 ∧
    ((load_mhd_volume shortFiles emptyStreamMiniz "short.mhd").height : Int) = 1 ∧
    ((load_mhd_volume shortFiles emptyStreamMiniz "short.mhd").depth : Int) = 1 ∧
    ((load_mhd_volume shortFiles emptyStreamMiniz "short.mhd").total_element_count : Int) =
      3 * 1 * 1 ∧
    (load_mhd_volume shortFiles emptyStreamMiniz "short.mhd").total_element_count ≠ 0 :=
  load_mhd_volume_dimensions shortFiles emptyStreamMiniz "short.mhd" shortHeader shortInfo
    shortPayload SampleType.int16 (by rfl) shortHeader_read (by rfl) (by rfl) (by rfl)
    (by decide) (by decide) (by decide) (by rfl) (by decide) (by rfl)
    (by simp [payloadDelivers, shortInfo, shortPayload, SampleType.sizeof])



/-- The decoder rejects a header by what the header loop stores: the `int`
stored for `NDims` is not 3, or one of the three `int`s stored for `DimSize` is
not positive, or one of the three textual keys is missing or wrong. -/
theorem load_mhd_volume_rejects_stored (fs : Files) (mz : Miniz) (aFileName : String)
    (lines : List (String × String)) (hopen : fs.openHeader aFileName = some lines)
    (hbad : headerValue "ObjectType" lines ≠ some "Image" ∨
      headerValue "BinaryData" lines ≠ some "True" ∨
      (headerValue "ElementType" lines ≠ some "MET_UCHAR" ∧
        headerValue "ElementType" lines ≠ some "MET_SHORT") ∨
      declaredNDims lines ≠ some 3 ∨
      (∀ a b c : Int, declaredDimSize lines = some (a, b, c) → a ≤ 0 ∨ b ≤ 0 ∨ c ≤ 0)) :
    load_mhd_volume fs mz aFileName = Volume.create 0 0 0 := by
  unfold load_mhd_volume load_mhd_volume_body
  simp only [hopen]
  cases hread : read_header lines {} with
  | error e => rfl
  | ok info =>
      obtain ⟨e1, e2, e3, e4, e5⟩ := read_header_effect lines {} info hread
      have hfail : ∃ e, verify_header info = Except.error e := by
        apply verify_header_error
        rcases hbad with h | h | h | h | h
        · left
          cases hv : headerValue "ObjectType" lines with
          | none => simpa [hv] using e1
          | some v =>
              have hne : v ≠ "Image" := fun heq => h (by rw [hv, heq])
              simpa [hv, hne] using e1
        · right; left
          cases hv : headerValue "BinaryData" lines with
          | none => simpa [hv] using e2
          | some v =>
              have hne : v ≠ "True" := fun heq => h (by rw [hv, heq])
              simpa [hv, hne] using e2
        · right; right; left
          cases hv : headerValue "ElementType" lines with
          | none => simpa [hv] using e3
          | some v =>
              rw [hv] at h
              simp only [hv] at e3
              rcases e3 with ⟨hu, _⟩ | ⟨hs, _⟩
              · exact absurd (by rw [hu]) h.1
              · exact absurd (by rw [hs]) h.2
        · right; right; right; left
          cases hv : headerValue "NDims" lines with
          | none =>
              simp only [hv] at e4
              rw [e4]
              decide
          | some v =>
              simp only [hv] at e4
              intro h3
              apply h
              simp only [declaredNDims, hv, e4, h3]
        · right; right; right; right
          cases hv : headerValue "DimSize" lines with
          | none =>
              simp only [hv] at e5
              left
              rw [e5.1]
              decide
          | some v =>
              simp only [hv] at e5
              exact h info.x info.y info.z (by simp only [declaredDimSize, hv, e5])
      obtain ⟨e, he⟩ := hfail
      simp only [he]

theorem storedInt_of_range (v : Int) (h1 : -2 ^ 31 ≤ v) (h2 : v < 2 ^ 31) : storedInt v = v := by
  unfold storedInt
  rw [min_eq_left (by omega), max_eq_right (by omega)]
  exact wrapInt32_of_range v h1 h2

theorem declaredNDims_eq (lines : List (String × String)) :
    declaredNDims lines = (numeralNDims lines).map storedInt := by
  unfold declaredNDims numeralNDims
  cases headerValue "NDims" lines with
  | none => rfl
  | some v =>
      simp only [sscanf_d_c, scanInt]
      cases scanNumeral v.toList with
      | none =>
          simp only [Option.map_none']
          split_ifs <;> rfl
      | some p =>
          obtain ⟨n, rest⟩ := p
          cases rest <;> rfl

theorem declaredDimSize_eq (lines : List (String × String)) :
    declaredDimSize lines =
      (numeralDimSize lines).map (fun t => (storedInt t.1, storedInt t.2.1, storedInt t.2.2)) := by
  unfold declaredDimSize numeralDimSize
  cases headerValue "DimSize" lines with
  | none => rfl
  | some v =>
      simp only [sscanf_d_d_d_c, scanInt]
      cases scanNumeral v.toList with
      | none =>
          simp only [Option.map_none']
          split_ifs <;> rfl
      | some p =>
          obtain ⟨a, rest₁⟩ := p
          simp only [Option.map_some']
          cases scanNumeral (rest₁.dropWhile isSpaceChar) with
          | none => rfl
          | some p₂ =>
              obtain ⟨b, rest₂⟩ := p₂
              simp only [Option.map_some']
              cases scanNumeral (rest₂.dropWhile isSpaceChar) with
              | none => rfl
              | some p₃ =>
                  obtain ⟨c, rest₃⟩ := p₃
                  cases rest₃ <;> rfl

theorem wrappedDimsHeader_read : read_header wrappedDimsHeader {} = Except.ok pairRawInfo := by
  rfl

theorem negativeSizeHeader_read :
    read_header negativeSizeHeader {} = Except.ok pairRawInfo := by
  rfl

/-- C4 (as stated, refuted): the header `wrappedDimsHeader` declares
`NDims = 4294967299`, which is not 3, and the header `negativeSizeHeader`
declares the first size `-4294967294`, which is not positive.  The `int`s
stored for them are 3 and 2, both headers pass the checks, and the decoder
returns a volume of 2 x 1 x 1 samples for each, not the empty volume. -/
theorem load_mhd_volume_wrapped_accepted :
    numeralNDims wrappedDimsHeader = some 4294967299 ∧
    numeralDimSize negativeSizeHeader = some (-4294967294, 1, 1) ∧
    declaredNDims wrappedDimsHeader = some 3 ∧
    declaredDimSize negativeSizeHeader = some (2, 1, 1) ∧
    (load_mhd_volume numeralFiles emptyStreamMiniz "wrapped.mhd").width = 2 ∧
    (load_mhd_volume numeralFiles emptyStreamMiniz "wrapped.mhd").total_element_count = 2 ∧
    load_mhd_volume numeralFiles emptyStreamMiniz "wrapped.mhd" ≠ Volume.create 0 0 0 ∧
    (load_mhd_volume numeralFiles emptyStreamMiniz "negative.mhd").width = 2 ∧
    (load_mhd_volume numeralFiles emptyStreamMiniz "negative.mhd").total_element_count = 2 ∧
    load_mhd_volume numeralFiles emptyStreamMiniz "negative.mhd" ≠ Volume.create 0 0 0 := by
  have hload := load_data_raw_ok SampleType.uint8 [7, 9] pairRawInfo 2 (by decide) (by decide)
  have hw : load_mhd_volume numeralFiles emptyStreamMiniz "wrapped.mhd" =
      transformInto (normalize SampleType.uint8 (decodeSamples SampleType.uint8
        (List.take (2 * SampleType.uint8.sizeof) [7, 9])))
        (Volume.create pairRawInfo.x.toNat pairRawInfo.y.toNat pairRawInfo.z.toNat) := by
    have hbody := load_mhd_volume_body_eq numeralFiles emptyStreamMiniz "wrapped.mhd"
      wrappedDimsHeader pairRawInfo [7, 9] SampleType.uint8 (by rfl) wrappedDimsHeader_read
      (by rfl) (by rfl) (by rfl)
    unfold load_mhd_volume
    rw [hbody, if_neg (by decide), hload]
  have hn : load_mhd_volume numeralFiles emptyStreamMiniz "negative.mhd" =
      transformInto (normalize SampleType.uint8 (decodeSamples SampleType.uint8
        (List.take (2 * SampleType.uint8.sizeof) [7, 9])))
        (Volume.create pairRawInfo.x.toNat pairRawInfo.y.toNat pairRawInfo.z.toNat) := by
    have hbody := load_mhd_volume_body_eq numeralFiles emptyStreamMiniz "negative.mhd"
      negativeSizeHeader pairRawInfo [7, 9] SampleType.uint8 (by rfl) negativeSizeHeader_read
      (by rfl) (by rfl) (by rfl)
    unfold load_mhd_volume
    rw [hbody, if_neg (by decide), hload]
  have hwidth : (transformInto (normalize SampleType.uint8 (decodeSamples SampleType.uint8
        (List.take (2 * SampleType.uint8.sizeof) [7, 9])))
        (Volume.create pairRawInfo.x.toNat pairRawInfo.y.toNat pairRawInfo.z.toNat)).width =
      2 := rfl
  have hcount : (transformInto (normalize SampleType.uint8 (decodeSamples SampleType.uint8
        (List.take (2 * SampleType.uint8.sizeof) [7, 9])))
        (Volume.create pairRawInfo.x.toNat pairRawInfo.y.toNat pairRawInfo.z.toNat)).total_element_count =
      2 := by
    simp [Volume.total_element_count, transformInto, normalize, decodeSamples,
      SampleType.sizeof, Volume.create, pairRawInfo]
  have hne : ∀ v : Volume, v.width = 2 → v ≠ Volume.create 0 0 0 := by
    intro v hv he
    rw [he] at hv
    exact absurd hv (by decide)
  rw [hw, hn]
  exact ⟨by rfl, by rfl, by rfl, by rfl, hwidth, hcount, hne _ hwidth, hwidth, hcount,
    hne _ hwidth⟩

/-- C4 (amended): when the header opens and the value it gives to `ObjectType`
is not `Image` (or it gives none), or the value of `BinaryData` is not `True`, or
the value of `ElementType` is neither `MET_UCHAR` nor `MET_SHORT`, or the numeral
of `NDims` lies in the range of `int` and is not 3, or one of the three numerals
of `DimSize` lies in the range of `int` and is not positive (a missing or
malformed `NDims` or `DimSize` included), the decoder returns the empty
`0 × 0 × 0` volume, for every payload and every behaviour of the decompressor. -/
theorem load_mhd_volume_rejects (fs : Files) (mz : Miniz) (aFileName : String)
    (lines : List (String × String)) (hopen : fs.openHeader aFileName = some lines)
    (hbad : headerValue "ObjectType" lines ≠ some "Image" ∨
      headerValue "BinaryData" lines ≠ some "True" ∨
      (headerValue "ElementType" lines ≠ some "MET_UCHAR" ∧
        headerValue "ElementType" lines ≠ some "MET_SHORT") ∨
      (∀ n : Int, numeralNDims lines = some n → n ≠ 3 ∧ -2 ^ 31 ≤ n ∧ n < 2 ^ 31) ∨
      (∀ a b c : Int, numeralDimSize lines = some (a, b, c) →
        (-2 ^ 31 ≤ a ∧ a ≤ 0) ∨ (-2 ^ 31 ≤ b ∧ b ≤ 0) ∨ (-2 ^ 31 ≤ c ∧ c ≤ 0))) :
    load_mhd_volume fs mz aFileName = Volume.create 0 0 0 := by
  apply load_mhd_volume_rejects_stored fs mz aFileName lines hopen
  rcases hbad with h | h | h | h | h
  · exact Or.inl h
  · exact Or.inr (Or.inl h)
  · exact Or.inr (Or.inr (Or.inl h))
  · refine Or.inr (Or.inr (Or.inr (Or.inl ?_)))
    rw [declaredNDims_eq]
    cases hv : numeralNDims lines with
    | none => simp
    | some n =>
        obtain ⟨h3, hlo, hhi⟩ := h n hv
        rw [Option.map_some', storedInt_of_range n hlo hhi]
        intro he
        exact h3 (Option.some.inj he)
  · refine Or.inr (Or.inr (Or.inr (Or.inr ?_)))
    intro a b c hd
    rw [declaredDimSize_eq] at hd
    cases hv : numeralDimSize lines with
    | none => rw [hv] at hd; exact absurd hd (by simp)
    | some t =>
        obtain ⟨a', b', c'⟩ := t
        rw [hv, Option.map_some'] at hd
        have hd' := Option.some.inj hd
        simp only [Prod.mk.injEq] at hd'
        obtain ⟨ea, eb, ec⟩ := hd'
        rcases h a' b' c' hv with ⟨hlo, hle⟩ | ⟨hlo, hle⟩ | ⟨hlo, hle⟩
        · left
          rw [← ea, storedInt_of_range a' hlo (by omega)]
          exact hle
        · right; left
          rw [← eb, storedInt_of_range b' hlo (by omega)]
          exact hle
        · right; right
          rw [← ec, storedInt_of_range c' hlo (by omega)]
          exact hle

/-- The amended C4 at the header `planarHeader`, which declares `NDims = 2`, at
the header `emptySizeHeader`, whose first size is 0, and at the header
`untypedHeader`, which has no `ObjectType` line. -/
theorem load_mhd_volume_rejects_witness :
    numeralFiles.openHeader "planar.mhd" = some planarHeader ∧
    numeralNDims planarHeader = some 2 ∧
    load_mhd_volume numeralFiles pairMiniz "planar.mhd" = Volume.create 0 0 0 ∧
    numeralFiles.openHeader "empty.mhd" = some emptySizeHeader ∧
    numeralDimSize emptySizeHeader = some (0, 1, 1) ∧
    load_mhd_volume numeralFiles pairMiniz "empty.mhd" = Volume.create 0 0 0 ∧
    untypedFiles.openHeader "untyped.mhd" = some untypedHeader ∧
    headerValue "ObjectType" untypedHeader ≠ some "Image" ∧
    load_mhd_volume untypedFiles pairMiniz "untyped.mhd" = Volume.create 0 0 0 :=
  ⟨by rfl, by rfl,
    load_mhd_volume_rejects numeralFiles pairMiniz "planar.mhd" planarHeader (by rfl)
      (Or.inr (Or.inr (Or.inr (Or.inl (fun n hn => by
        have h2 : numeralNDims planarHeader = some 2 := by rfl
        rw [h2] at hn
        have := Option.some.inj hn
        subst this
        decide))))),
    by rfl, by rfl,
    load_mhd_volume_rejects numeralFiles pairMiniz "empty.mhd" emptySizeHeader (by rfl)
      (Or.inr (Or.inr (Or.inr (Or.inr (fun a b c hd => by
        have h0 : numeralDimSize emptySizeHeader = some (0, 1, 1) := by rfl
        rw [h0] at hd
        have := Option.some.inj hd
        simp only [Prod.mk.injEq] at this
        obtain ⟨rfl, rfl, rfl⟩ := this
        exact Or.inl (by decide)))))),
    by rfl, by decide,
    load_mhd_volume_rejects untypedFiles pairMiniz "untyped.mhd" untypedHeader (by rfl)
      (Or.inl (by decide))⟩



/-- C5: when the compressed stream inflates, with status `MZ_OK` or
`MZ_STREAM_END`, to the bytes the raw reader reads from a raw payload, the
compressed reader and the raw reader return the same result; and when the
element count is not negative that result is the volume holding
`normalize` of the one sample buffer. -/
theorem load_data_compressed_eq_raw (T : SampleType) (mz : Miniz) (aInfo : MHDInfo)
    (rawFile compressedFile : List UInt8)
    (hinit : mz.inflateInit = MzStatus.MZ_OK)
    (hraw : (sampleCount aInfo).toNat * T.sizeof ≤ rawFile.length)
    (hstatus :
      (inflateCall mz compressedFile ((sampleCount aInfo).toNat * T.sizeof)).status = MzStatus.MZ_OK ∨
      (inflateCall mz compressedFile ((sampleCount aInfo).toNat * T.sizeof)).status = MzStatus.MZ_STREAM_END)
    (houtput :
      (inflateCall mz compressedFile ((sampleCount aInfo).toNat * T.sizeof)).output =
      rawFile.take ((sampleCount aInfo).toNat * T.sizeof)) :
    load_data_compressed_ T mz compressedFile aInfo = load_data_raw_ T rawFile aInfo ∧
    (0 ≤ sampleCount aInfo →
      load_data_raw_ T rawFile aInfo =
        Except.ok (transformInto
          (normalize T (decodeSamples T (rawFile.take ((sampleCount aInfo).toNat * T.sizeof))))
          (Volume.create aInfo.x.toNat aInfo.y.toNat aInfo.z.toNat))) := by
  by_cases hneg : sampleCount aInfo < 0
  · refine ⟨?_, fun h => absurd h (not_le.mpr hneg)⟩
    rw [load_data_compressed_negative T mz compressedFile aInfo hneg,
      load_data_raw_negative T rawFile aInfo hneg]
  · have hcount : sampleCount aInfo = ((sampleCount aInfo).toNat : Int) :=
      (Int.toNat_of_nonneg (not_lt.mp hneg)).symm
    have hrawok := load_data_raw_ok T rawFile aInfo _ hcount hraw
    refine ⟨?_, fun _ => hrawok⟩
    have hlen : (inflateCall mz compressedFile ((sampleCount aInfo).toNat * T.sizeof)).output.length =
        (sampleCount aInfo).toNat * T.sizeof := by
      rw [houtput, List.length_take, Nat.min_eq_left hraw]
    have hacc : (inflateCall mz compressedFile ((sampleCount aInfo).toNat * T.sizeof)).status = MzStatus.MZ_OK ∨
        ((inflateCall mz compressedFile ((sampleCount aInfo).toNat * T.sizeof)).status = MzStatus.MZ_STREAM_END ∧
         (inflateCall mz compressedFile ((sampleCount aInfo).toNat * T.sizeof)).total_out =
            (sampleCount aInfo).toNat * T.sizeof) := by
      rcases hstatus with h | h
      · exact Or.inl h
      · exact Or.inr ⟨h, hlen⟩
    rw [load_data_compressed_ok T mz compressedFile aInfo _ hcount hinit hacc, hrawok, hlen,
      houtput]
    simp only [Nat.sub_self, List.replicate_zero, List.append_nil, List.take_take,
      Nat.min_self]

/-- C5 at the declared size `2 × 1 × 1`: a stream inflating to the bytes `7, 9`
and the raw payload `7, 9`. -/
theorem load_data_compressed_eq_raw_witness :
    load_data_compressed_ SampleType.uint8 pairMiniz [120, 156] pairInfo =
      load_data_raw_ SampleType.uint8 [7, 9] pairInfo ∧
    (0 ≤ sampleCount pairInfo →
      load_data_raw_ SampleType.uint8 [7, 9] pairInfo =
        Except.ok (transformInto
          (normalize SampleType.uint8 (decodeSamples SampleType.uint8
            (List.take ((sampleCount pairInfo).toNat * SampleType.uint8.sizeof) [7, 9])))
          (Volume.create pairInfo.x.toNat pairInfo.y.toNat pairInfo.z.toNat))) :=
  load_data_compressed_eq_raw SampleType.uint8 pairMiniz pairInfo [7, 9] [120, 156]
    (by rfl) (by decide) (Or.inr (by rfl)) (by rfl)

theorem wideHeader_read : read_header wideHeader {} = Except.ok wideInfo := by rfl

/-- C6 (as stated, refuted): for the compressed header `wideHeader`, of declared
size `65536 × 65536 × 1` in 8-bit samples, and a stream that ends at once with
no output, the inflate status is "stream end" and the number of bytes output,
0, differs from `x*y*z*sizeof(element) = 4294967296`; the element count
computed in `int` is 0, the status is accepted, and the decoder returns a
volume of width 65536, not the empty volume. -/
theorem load_mhd_volume_wide_accepted :
    read_header wideHeader {} = Except.ok wideInfo ∧
    verify_header wideInfo = Except.ok () ∧
    (inflateCall emptyStreamMiniz emptyStream 0).status = MzStatus.MZ_STREAM_END ∧
    (inflateCall emptyStreamMiniz emptyStream 0).total_out ≠ 65536 * 65536 * 1 * SampleType.uint8.sizeof ∧
    (load_mhd_volume wideFiles emptyStreamMiniz "wide.mhd").width = 65536 ∧
    load_mhd_volume wideFiles emptyStreamMiniz "wide.mhd" ≠ Volume.create 0 0 0 := by
  have hbody := load_mhd_volume_body_eq wideFiles emptyStreamMiniz "wide.mhd" wideHeader
    wideInfo emptyStream SampleType.uint8 (by rfl) wideHeader_read (by rfl) (by rfl) (by rfl)
  have hload := load_data_compressed_ok SampleType.uint8 emptyStreamMiniz emptyStream wideInfo 0
    (by decide) (by rfl) (Or.inr ⟨by rfl, by rfl⟩)
  have hwidth : (load_mhd_volume wideFiles emptyStreamMiniz "wide.mhd").width = 65536 := by
    unfold load_mhd_volume
    rw [hbody, if_pos (by rfl), hload]
    rfl
  refine ⟨wideHeader_read, by rfl, by rfl, by decide, hwidth, ?_⟩
  intro h
  rw [h] at hwidth
  exact absurd hwidth (by decide)



theorem pairHeader_read : read_header pairHeader {} = Except.ok pairInfo := by rfl

/-- C6 (amended): in the compressed path, for a header that passes the checks
with sizes whose product does not exceed `INT_MAX`, and an initialised
decompressor: an inflate status of "stream end" with `x*y*z*sizeof(element)`
bytes output is a success (no exception is thrown); a "stream end" with any
other number of bytes output, and every status other than `MZ_OK` and "stream
end", makes the load fail, and the decoder returns the empty volume. -/
theorem load_mhd_volume_inflate_status (fs : Files) (mz : Miniz) (aFileName : String)
    (lines : List (String × String)) (info : MHDInfo) (data : List UInt8) (T : SampleType)
    (hopen : fs.openHeader aFileName = some lines)
    (hread : read_header lines {} = Except.ok info)
    (hverify : verify_header info = Except.ok ())
    (htype : info.elementType = T.mhdType)
    (hcompressed : info.dataCompressed = true)
    (hrange : info.x * info.y * info.z ≤ INT_MAX)
    (hdata : fs.openData (dataPath aFileName info.dataFile) = some data)
    (hinit : mz.inflateInit = MzStatus.MZ_OK) :
    ((inflateCall mz data ((info.x * info.y * info.z).toNat * T.sizeof)).status =
        MzStatus.MZ_STREAM_END →
      (inflateCall mz data ((info.x * info.y * info.z).toNat * T.sizeof)).total_out =
        (info.x * info.y * info.z).toNat * T.sizeof →
      ∃ v, load_mhd_volume_body fs mz aFileName = Except.ok v) ∧
    ((inflateCall mz data ((info.x * info.y * info.z).toNat * T.sizeof)).status =
        MzStatus.MZ_STREAM_END →
      (inflateCall mz data ((info.x * info.y * info.z).toNat * T.sizeof)).total_out ≠
        (info.x * info.y * info.z).toNat * T.sizeof →
      (∃ e, load_mhd_volume_body fs mz aFileName = Except.error e) ∧
        load_mhd_volume fs mz aFileName = Volume.create 0 0 0) ∧
    ((inflateCall mz data ((info.x * info.y * info.z).toNat * T.sizeof)).status ≠
        MzStatus.MZ_OK →
      (inflateCall mz data ((info.x * info.y * info.z).toNat * T.sizeof)).status ≠
        MzStatus.MZ_STREAM_END →
      (∃ e, load_mhd_volume_body fs mz aFileName = Except.error e) ∧
        load_mhd_volume fs mz aFileName = Volume.create 0 0 0) := by
  have hbody := load_mhd_volume_body_eq fs mz aFileName lines info data T hopen hread hverify
    htype hdata
  rw [if_pos hcompressed] at hbody
  have hpositive : 0 < info.x ∧ 0 < info.y ∧ 0 < info.z := by
    unfold verify_header at hverify
    split_ifs at hverify with h1 h2 h3 h4 h5
    push_neg at h5
    exact h5
  obtain ⟨hx, hy, hz⟩ := hpositive
  have hpos : 0 < info.x * info.y * info.z := Int.mul_pos (Int.mul_pos hx hy) hz
  have hcount : sampleCount info = ((info.x * info.y * info.z).toNat : Int) := by
    rw [sampleCount_eq info hx hy hz hrange, Int.toNat_of_nonneg hpos.le]
  refine ⟨fun hs ht => ?_, fun hs ht => ?_, fun hs ht => ?_⟩
  · rw [hbody, load_data_compressed_ok T mz data info _ hcount hinit (Or.inr ⟨hs, ht⟩)]
    exact ⟨_, rfl⟩
  · have hfail := load_data_compressed_rejected T mz data info _ hcount hinit
      (by rw [hs]; decide) (fun h => ht h.2)
    unfold load_mhd_volume
    rw [hbody, hfail]
    exact ⟨⟨_, rfl⟩, rfl⟩
  · have hfail := load_data_compressed_rejected T mz data info _ hcount hinit hs
      (fun h => ht h.1)
    unfold load_mhd_volume
    rw [hbody, hfail]
    exact ⟨⟨_, rfl⟩, rfl⟩

/-- The amended C6 at the compressed header `pairHeader`, of declared size
`2 × 1 × 1`. -/
theorem load_mhd_volume_inflate_status_witness :
    pairInfo.x * pairInfo.y * pairInfo.z ≤ INT_MAX ∧
    (inflateCall pairMiniz [120, 156] 2).status = MzStatus.MZ_STREAM_END ∧
    (inflateCall pairMiniz [120, 156] 2).total_out = 2 ∧
    ∃ v, load_mhd_volume_body pairFiles pairMiniz "pair.mhd" = Except.ok v :=
  ⟨by decide, by rfl, by rfl,
    (load_mhd_volume_inflate_status pairFiles pairMiniz "pair.mhd" pairHeader pairInfo
      [120, 156] SampleType.uint8 (by rfl) pairHeader_read (by rfl) (by rfl) (by rfl)
      (by decide) (by rfl) (by rfl)).1 (by rfl) (by rfl)⟩

/-! ### The sampling engine -/

theorem samplePoint_normalized (g : Globals) (axis : AXIS) (i j k : Int) :
    (samplePoint g axis i j k).XT = normalizedCoordinate g (samplePoint g axis i j k).x ∧
    (samplePoint g axis i j k).YT = normalizedCoordinate g (samplePoint g axis i j k).y ∧
    (samplePoint g axis i j k).ZT = normalizedCoordinate g (samplePoint g axis i j k).z := by
  cases axis <;> simp [samplePoint]

/-- C11: the traversal axis chosen for a forward vector `f` has the largest
absolute component, `|f[b]| ≤ |f[a]|` for every axis `b`; ties go to X before Y
before Z: X is chosen exactly when `|f[0]|` is at least both others, Y exactly
when `|f[1]|` exceeds `|f[0]|` and is at least `|f[2]|`, Z exactly when `|f[2]|`
exceeds both others. -/
theorem selectAxis_dominant (f : Vec3D ℚ) :
    (∀ b : AXIS, |f.component b| ≤ |f.component (selectAxis f)|) ∧
    (selectAxis f = AXIS.X ↔ |f.p1| ≤ |f.p0| ∧ |f.p2| ≤ |f.p0|) ∧
    (selectAxis f = AXIS.Y ↔ |f.p0| < |f.p1| ∧ |f.p2| ≤ |f.p1|) ∧
    (selectAxis f = AXIS.Z ↔ |f.p0| < |f.p2| ∧ |f.p1| < |f.p2|) := by
  unfold selectAxis
  refine ⟨?_, ?_, ?_, ?_⟩
  · intro b
    split_ifs with h1 h2
    · cases b <;> simp [Vec3D.component, h1.1, h1.2]
    · cases b <;> simp [Vec3D.component, h2.1, h2.2]
    · simp only [ge_iff_le, not_and_or, not_le] at h1 h2
      cases b <;> simp only [Vec3D.component] <;>
        rcases h1 with h1 | h1 <;> rcases h2 with h2 | h2 <;> linarith
  · split_ifs with h1 h2
    · simp [h1.1, h1.2]
    · simp only [ge_iff_le] at h1; simp; intro h; by_contra h'; exact h1 ⟨h, le_of_not_lt h'⟩
    · simp only [ge_iff_le] at h1; simp; intro h; by_contra h'; exact h1 ⟨h, le_of_not_lt h'⟩
  · split_ifs with h1 h2
    · simp; intro h; linarith [h1.1]
    · simp only [ge_iff_le, not_and_or, not_le] at h1
      simp only [true_iff]
      refine ⟨?_, h2.2⟩
      rcases h1 with h1 | h1
      · exact h1
      · exact lt_of_lt_of_le h1 h2.2
    · simp only [ge_iff_le] at h2; simp; intro h; by_contra h'; exact h2 ⟨le_of_lt h, le_of_not_lt h'⟩
  · split_ifs with h1 h2
    · simp; intro h; linarith [h1.2]
    · simp; intro h; linarith [h2.2]
    · simp only [ge_iff_le, not_and_or, not_le] at h1 h2
      simp only [true_iff]
      rcases h1 with h1 | h1 <;> rcases h2 with h2 | h2 <;> constructor <;> linarith

/-- C18: in each of the five transfer routines, for every axis remapping and
every index triple, when the region predicate is false at the normalised
coordinates `2 * index / gVolumeLargestDimension - 1` of the voxel, the routine
emits nothing: no point, no quad, no array entry. -/
theorem transfer_outside_region (g : Globals) (axis : AXIS) (i j k p q r : Int)
    (lightdir right up : Vec3D ℚ) (size : ℚ) (checkTrilinearInterpolation : Bool)
    (h : checkIntersection g
      (normalizedCoordinate g (samplePoint g axis i j k).x)
      (normalizedCoordinate g (samplePoint g axis i j k).y)
      (normalizedCoordinate g (samplePoint g axis i j k).z) = false) :
    (performTransfer g axis i j k).emitted = [] ∧
    (performTransferWithLighting g axis i j k p q r lightdir).emitted = [] ∧
    (performTransferWithTrilinearInterpolation g axis i j k p q r lightdir
      checkTrilinearInterpolation).emitted = [] ∧
    (performTransferWithBillboards g axis i j k p q r lightdir checkTrilinearInterpolation
      right up size).emitted = [] ∧
    (performTransferWithArrays g axis i j k p q r lightdir).emitted = [] := by
  obtain ⟨hx, hy, hz⟩ := samplePoint_normalized g axis i j k
  rw [← hx, ← hy, ← hz] at h
  refine ⟨?_, ?_, ?_, ?_, ?_⟩
  · simp [performTransfer, h]
  · simp [performTransferWithLighting, h]
  · simp [performTransferWithTrilinearInterpolation, h]
  · simp [performTransferWithBillboards, h]
  · simp [performTransferWithArrays, h]


theorem sliceOf_eq (g : Globals) (axis : AXIS) (i j k : Int) :
    sliceOf g axis (i, j, k) = k := by
  cases axis <;> rfl

theorem forUp_toNat (n : Nat) : forUp (n : Int) = (List.range n).map (fun (m : Nat) => (m : Int)) := by
  simp [forUp]

theorem forUp_length (n : Int) : (forUp n).length = n.toNat := by
  simp [forUp]

theorem forDown_length (n : Int) : (forDown n).length = n.toNat := by
  simp [forDown, forUp]

theorem slab_slices (g : Globals) (axis : AXIS) (k : Int) (js is : List Int) :
    (js.flatMap (fun j => is.map (fun i => (i, j, k)))).map (sliceOf g axis) =
      List.replicate (js.length * is.length) k := by
  induction js with
  | nil => simp
  | cons j js ihj =>
    simp only [List.flatMap_cons, List.map_append, ihj, List.length_cons, List.map_map]
    rw [Nat.succ_mul, Nat.add_comm, List.replicate_add]
    congr 1
    rw [List.eq_replicate_iff]
    simp [sliceOf_eq]

theorem flatMap_const_slices (g : Globals) (axis : AXIS) (ks js is : List Int) :
    (ks.flatMap (fun k => js.flatMap (fun j => is.map (fun i => (i, j, k))))).map
      (sliceOf g axis) =
    ks.flatMap (fun k => List.replicate (js.length * is.length) k) := by
  induction ks with
  | nil => rfl
  | cons k ks ih =>
    simp only [List.flatMap_cons, List.map_append, ih, slab_slices]

theorem traversal_slices (g : Globals) (axis : AXIS) (dir : DIRECTION) (p q r : Int) :
    (traversal dir p q r).map (sliceOf g axis) =
      match dir with
      | DIRECTION.POS => (forUp p).flatMap (fun k => List.replicate (q.toNat * r.toNat) k)
      | DIRECTION.NEG => (forDown p).flatMap (fun k => List.replicate (q.toNat * r.toNat) k) := by
  cases dir
  · simp only [traversal, flatMap_const_slices, forUp_length]
  · simp only [traversal, flatMap_const_slices, forDown_length]

theorem frameCalls_slices (g : Globals) (aCameraFwd : Vec3D ℚ) :
    (frameCalls g.gVolume aCameraFwd).map (sliceOf g (selectAxis aCameraFwd)) =
      if 0 < aCameraFwd.component (selectAxis aCameraFwd) then
        ((List.range (loopP g.gVolume (selectAxis aCameraFwd)).toNat).map
          (fun (m : Nat) => (m : Int))).flatMap
          (fun k => List.replicate
            ((loopQ g.gVolume (selectAxis aCameraFwd)).toNat *
              (loopR g.gVolume (selectAxis aCameraFwd)).toNat) k)
      else
        ((List.range (loopP g.gVolume (selectAxis aCameraFwd)).toNat).reverse.map
          (fun (m : Nat) => (m : Int))).flatMap
          (fun k => List.replicate
            ((loopQ g.gVolume (selectAxis aCameraFwd)).toNat *
              (loopR g.gVolume (selectAxis aCameraFwd)).toNat) k) := by
  rw [frameCalls, traversal_slices, selectDirection]
  by_cases h : 0 < aCameraFwd.component (selectAxis aCameraFwd)
  · simp only [gt_iff_lt, h, if_true, forUp]
  · simp only [gt_iff_lt, h, if_false, forDown, forUp, List.map_reverse]


/-- C12: the calls of a frame visit the slices along the dominant axis in
index order.  When the dominant component of the forward vector is positive
the slices are visited in increasing order `0, 1, …, p - 1`, and when it is zero
or negative in decreasing order `p - 1, …, 1, 0`, every slice with its `q * r`
voxels in one run; `p` is the dimension of the volume along the dominant axis,
and the slice of a call is the coordinate of its voxel along that axis under
the remapping of the transfer routines. -/
theorem frameCalls_slice_order (g : Globals) (aCameraFwd : Vec3D ℚ) :
    (loopP g.gVolume (selectAxis aCameraFwd)).toNat =
      (match selectAxis aCameraFwd with
        | AXIS.X => g.gVolume.width
        | AXIS.Y => g.gVolume.height
        | AXIS.Z => g.gVolume.depth) ∧
    (frameCalls g.gVolume aCameraFwd).map (sliceOf g (selectAxis aCameraFwd)) =
      if 0 < aCameraFwd.component (selectAxis aCameraFwd) then
        ((List.range (loopP g.gVolume (selectAxis aCameraFwd)).toNat).map
          (fun (m : Nat) => (m : Int))).flatMap
          (fun k => List.replicate
            ((loopQ g.gVolume (selectAxis aCameraFwd)).toNat *
              (loopR g.gVolume (selectAxis aCameraFwd)).toNat) k)
      else
        ((List.range (loopP g.gVolume (selectAxis aCameraFwd)).toNat).reverse.map
          (fun (m : Nat) => (m : Int))).flatMap
          (fun k => List.replicate
            ((loopQ g.gVolume (selectAxis aCameraFwd)).toNat *
              (loopR g.gVolume (selectAxis aCameraFwd)).toNat) k) := by
  refine ⟨?_, frameCalls_slices g aCameraFwd⟩
  cases selectAxis aCameraFwd <;> simp [loopP]

theorem flatMap_replicate_head (m : Nat) (hm : 0 < m) (l : List Int) :
    (l.flatMap (fun k => List.replicate m k)).head? = l.head? := by
  cases l with
  | nil => rfl
  | cons a t =>
    obtain ⟨m', rfl⟩ := Nat.exists_eq_succ_of_ne_zero (Nat.pos_iff_ne_zero.mp hm)
    simp [List.flatMap_cons, List.replicate_succ]

theorem flatMap_replicate_getLast (m : Nat) (hm : 0 < m) (l : List Int) :
    (l.flatMap (fun k => List.replicate m k)).getLast? = l.getLast? := by
  induction l with
  | nil => rfl
  | cons a t ih =>
    rw [List.flatMap_cons, List.getLast?_append, ih]
    cases t with
    | nil =>
      obtain ⟨m', rfl⟩ := Nat.exists_eq_succ_of_ne_zero (Nat.pos_iff_ne_zero.mp hm)
      simp [List.getLast?_replicate]
    | cons b t => simp [List.getLast?_cons_cons, List.getLast?_eq_getLast, Option.or]

theorem range_cast_head (n : Nat) (hn : 0 < n) :
    ((List.range n).map (fun (m : Nat) => (m : Int))).head? = some 0 := by
  obtain ⟨n', rfl⟩ := Nat.exists_eq_succ_of_ne_zero (Nat.pos_iff_ne_zero.mp hn)
  simp [List.range_succ_eq_map]

theorem range_cast_getLast (n : Nat) (hn : 0 < n) :
    ((List.range n).map (fun (m : Nat) => (m : Int))).getLast? = some ((n : Int) - 1) := by
  obtain ⟨n', rfl⟩ := Nat.exists_eq_succ_of_ne_zero (Nat.pos_iff_ne_zero.mp hn)
  simp [List.range_succ]

theorem loop_bounds_pos (v : Volume) (axis : AXIS) (hw : 0 < v.width) (hh : 0 < v.height)
    (hd : 0 < v.depth) :
    0 < (loopP v axis).toNat ∧ 0 < (loopQ v axis).toNat ∧ 0 < (loopR v axis).toNat ∧
      (((loopP v axis).toNat : Nat) : Int) = loopP v axis := by
  cases axis <;> simp [loopP, loopQ, loopR, hw, hh, hd]

/-- C13 (amended): for a volume of positive dimensions, the first slice visited
is slice 0 when the dominant component of the forward vector is positive and
slice `p - 1` otherwise, and the last slice visited is slice `p - 1` when it is
positive and slice 0 otherwise: the slices are visited in the order of
increasing position along the forward vector. -/
theorem frameCalls_first_last (g : Globals) (aCameraFwd : Vec3D ℚ)
    (hw : 0 < g.gVolume.width) (hh : 0 < g.gVolume.height) (hd : 0 < g.gVolume.depth) :
    ((frameCalls g.gVolume aCameraFwd).map (sliceOf g (selectAxis aCameraFwd))).head? =
      some (if 0 < aCameraFwd.component (selectAxis aCameraFwd) then 0
        else loopP g.gVolume (selectAxis aCameraFwd) - 1) ∧
    ((frameCalls g.gVolume aCameraFwd).map (sliceOf g (selectAxis aCameraFwd))).getLast? =
      some (if 0 < aCameraFwd.component (selectAxis aCameraFwd)
        then loopP g.gVolume (selectAxis aCameraFwd) - 1 else 0) := by
  obtain ⟨hp, hq, hr, hcast⟩ := loop_bounds_pos g.gVolume (selectAxis aCameraFwd) hw hh hd
  have hm : 0 < (loopQ g.gVolume (selectAxis aCameraFwd)).toNat *
      (loopR g.gVolume (selectAxis aCameraFwd)).toNat := Nat.mul_pos hq hr
  rw [frameCalls_slices]
  by_cases h : 0 < aCameraFwd.component (selectAxis aCameraFwd)
  · simp only [h, if_true]
    rw [flatMap_replicate_head _ hm, flatMap_replicate_getLast _ hm, range_cast_head _ hp,
      range_cast_getLast _ hp, hcast]
    exact ⟨rfl, rfl⟩
  · simp only [h, if_false]
    rw [flatMap_replicate_head _ hm, flatMap_replicate_getLast _ hm, List.map_reverse,
      List.head?_reverse, List.getLast?_reverse, range_cast_head _ hp,
      range_cast_getLast _ hp, hcast]
    exact ⟨rfl, rfl⟩

theorem mem_forUp (n k : Int) : k ∈ forUp n ↔ 0 ≤ k ∧ k < n := by
  simp only [forUp, List.mem_map, List.mem_range]
  constructor
  · rintro ⟨m, hm, rfl⟩
    omega
  · rintro ⟨h0, hn⟩
    exact ⟨k.toNat, by omega, by omega⟩

theorem mem_forDown (n k : Int) : k ∈ forDown n ↔ 0 ≤ k ∧ k < n := by
  simp [forDown, mem_forUp]

theorem mem_traversal (dir : DIRECTION) (p q r : Int) (c : Int × Int × Int) :
    c ∈ traversal dir p q r ↔
      (0 ≤ c.1 ∧ c.1 < r) ∧ (0 ≤ c.2.1 ∧ c.2.1 < q) ∧ (0 ≤ c.2.2 ∧ c.2.2 < p) := by
  obtain ⟨i, j, k⟩ := c
  cases dir
  · simp only [traversal, List.mem_flatMap, List.mem_map, mem_forUp, Prod.mk.injEq]
    constructor
    · rintro ⟨k', hk, j', hj, i', hi, rfl, rfl, rfl⟩
      exact ⟨hi, hj, hk⟩
    · rintro ⟨hi, hj, hk⟩
      exact ⟨k, hk, j, hj, i, hi, rfl, rfl, rfl⟩
  · simp only [traversal, List.mem_flatMap, List.mem_map, mem_forDown, Prod.mk.injEq]
    constructor
    · rintro ⟨k', hk, j', hj, i', hi, rfl, rfl, rfl⟩
      exact ⟨hi, hj, hk⟩
    · rintro ⟨hi, hj, hk⟩
      exact ⟨k, hk, j, hj, i, hi, rfl, rfl, rfl⟩

theorem voxel_reads (g : Globals) (axis : AXIS) (i j k : Int)
    (hi : 0 ≤ i ∧ i < loopR g.gVolume axis) (hj : 0 ≤ j ∧ j < loopQ g.gVolume axis)
    (hk : 0 ≤ k ∧ k < loopP g.gVolume axis) :
    g.gVolume.inBounds ((samplePoint g axis i j k).x, (samplePoint g axis i j k).y,
      (samplePoint g axis i j k).z) := by
  cases axis <;> simp only [samplePoint, Volume.inBounds, loopP, loopQ, loopR] at * <;> omega

theorem neighbour_reads (g : Globals) (axis : AXIS) (i j k : Int)
    (hi : 0 ≤ i ∧ i < loopR g.gVolume axis) (hj : 0 ≤ j ∧ j < loopQ g.gVolume axis)
    (hk : 0 ≤ k ∧ k < loopP g.gVolume axis)
    (hint : isInterior i j k (loopP g.gVolume axis) (loopQ g.gVolume axis)
      (loopR g.gVolume axis) = true) :
    (∀ idx ∈ gradientReads (samplePoint g axis i j k).x (samplePoint g axis i j k).y
        (samplePoint g axis i j k).z, g.gVolume.inBounds idx) ∧
    (∀ idx ∈ cornerReads (samplePoint g axis i j k).x (samplePoint g axis i j k).y
        (samplePoint g axis i j k).z, g.gVolume.inBounds idx) := by
  simp only [isInterior, decide_eq_true_eq] at hint
  constructor
  · intro idx hidx
    simp only [gradientReads, List.mem_cons, List.mem_singleton, List.not_mem_nil,
      or_false] at hidx
    cases axis <;> simp only [samplePoint, loopP, loopQ, loopR] at * <;>
      rcases hidx with h | h | h | h | h | h <;> subst h <;>
      simp only [Volume.inBounds] <;> omega
  · intro idx hidx
    simp only [cornerReads, List.mem_cons, List.mem_singleton, List.not_mem_nil,
      or_false] at hidx
    cases axis <;> simp only [samplePoint, loopP, loopQ, loopR] at * <;>
      rcases hidx with h | h | h | h | h | h | h | h <;> subst h <;>
      simp only [Volume.inBounds] <;> omega

theorem performTransfer_reads (g : Globals) (axis : AXIS) (i j k : Int)
    (hi : 0 ≤ i ∧ i < loopR g.gVolume axis) (hj : 0 ≤ j ∧ j < loopQ g.gVolume axis)
    (hk : 0 ≤ k ∧ k < loopP g.gVolume axis) :
    ∀ idx ∈ (performTransfer g axis i j k).reads, g.gVolume.inBounds idx := by
  intro idx hidx
  unfold performTransfer at hidx
  simp only [] at hidx
  split_ifs at hidx with h
  · simp at hidx
  · simp only [List.mem_singleton] at hidx
    subst hidx
    exact voxel_reads g axis i j k hi hj hk

theorem performTransferWithLighting_reads (g : Globals) (axis : AXIS) (i j k p q r : Int)
    (lightdir : Vec3D ℚ) :
    (performTransferWithLighting g axis i j k p q r lightdir).reads =
      if checkIntersection g (samplePoint g axis i j k).XT (samplePoint g axis i j k).YT
          (samplePoint g axis i j k).ZT = false then []
      else if isInterior i j k p q r = true then
        ((samplePoint g axis i j k).x, (samplePoint g axis i j k).y,
          (samplePoint g axis i j k).z) ::
          gradientReads (samplePoint g axis i j k).x (samplePoint g axis i j k).y
            (samplePoint g axis i j k).z
      else
        ((samplePoint g axis i j k).x, (samplePoint g axis i j k).y,
          (samplePoint g axis i j k).z) :: (performTransfer g axis i j k).reads := by
  unfold performTransferWithLighting
  by_cases h : checkIntersection g (samplePoint g axis i j k).XT (samplePoint g axis i j k).YT
      (samplePoint g axis i j k).ZT = false
  · simp [h]
  · by_cases hint : isInterior i j k p q r = true
    · simp [h, hint]
    · simp [h, hint]

theorem performTransferWithTrilinearInterpolation_reads (g : Globals) (axis : AXIS)
    (i j k p q r : Int) (lightdir : Vec3D ℚ) (checkTrilinearInterpolation : Bool) :
    (performTransferWithTrilinearInterpolation g axis i j k p q r lightdir
        checkTrilinearInterpolation).reads =
      if checkIntersection g (samplePoint g axis i j k).XT (samplePoint g axis i j k).YT
          (samplePoint g axis i j k).ZT = false then []
      else if isInterior i j k p q r = true then
        ((samplePoint g axis i j k).x, (samplePoint g axis i j k).y,
          (samplePoint g axis i j k).z) ::
          (cornerReads (samplePoint g axis i j k).x (samplePoint g axis i j k).y
            (samplePoint g axis i j k).z ++
           gradientReads (samplePoint g axis i j k).x (samplePoint g axis i j k).y
            (samplePoint g axis i j k).z)
      else
        ((samplePoint g axis i j k).x, (samplePoint g axis i j k).y,
          (samplePoint g axis i j k).z) :: (performTransfer g axis i j k).reads := by
  unfold performTransferWithTrilinearInterpolation
  by_cases h : checkIntersection g (samplePoint g axis i j k).XT (samplePoint g axis i j k).YT
      (samplePoint g axis i j k).ZT = false
  · simp [h]
  · by_cases hint : isInterior i j k p q r = true
    · simp [h, hint]
    · simp [h, hint]

theorem performTransferWithBillboards_reads (g : Globals) (axis : AXIS)
    (i j k p q r : Int) (lightdir : Vec3D ℚ) (checkTrilinearInterpolation : Bool)
    (right up : Vec3D ℚ) (size : ℚ) :
    (performTransferWithBillboards g axis i j k p q r lightdir checkTrilinearInterpolation
        right up size).reads =
      if checkIntersection g (samplePoint g axis i j k).XT (samplePoint g axis i j k).YT
          (samplePoint g axis i j k).ZT = false then []
      else if isInterior i j k p q r = true then
        ((samplePoint g axis i j k).x, (samplePoint g axis i j k).y,
          (samplePoint g axis i j k).z) ::
          (cornerReads (samplePoint g axis i j k).x (samplePoint g axis i j k).y
            (samplePoint g axis i j k).z ++
           gradientReads (samplePoint g axis i j k).x (samplePoint g axis i j k).y
            (samplePoint g axis i j k).z)
      else
        [((samplePoint g axis i j k).x, (samplePoint g axis i j k).y,
          (samplePoint g axis i j k).z)] := by
  unfold performTransferWithBillboards
  by_cases h : checkIntersection g (samplePoint g axis i j k).XT (samplePoint g axis i j k).YT
      (samplePoint g axis i j k).ZT = false
  · simp [h]
  · by_cases hint : isInterior i j k p q r = true
    · simp [h, hint]
    · simp [h, hint]

theorem performTransferWithArrays_reads (g : Globals) (axis : AXIS) (i j k p q r : Int)
    (lightdir : Vec3D ℚ) :
    (performTransferWithArrays g axis i j k p q r lightdir).reads =
      if checkIntersection g (samplePoint g axis i j k).XT (samplePoint g axis i j k).YT
          (samplePoint g axis i j k).ZT = false then []
      else if isInterior i j k p q r = true then
        ((samplePoint g axis i j k).x, (samplePoint g axis i j k).y,
          (samplePoint g axis i j k).z) ::
          gradientReads (samplePoint g axis i j k).x (samplePoint g axis i j k).y
            (samplePoint g axis i j k).z
      else
        [((samplePoint g axis i j k).x, (samplePoint g axis i j k).y,
          (samplePoint g axis i j k).z)] := by
  unfold performTransferWithArrays
  by_cases h : checkIntersection g (samplePoint g axis i j k).XT (samplePoint g axis i j k).YT
      (samplePoint g axis i j k).ZT = false
  · simp [h]
  · by_cases hint : isInterior i j k p q r = true
    · simp [h, hint]
    · simp [h, hint]

theorem shaded_reads (g : Globals) (axis : AXIS) (i j k : Int) (lightdir right up : Vec3D ℚ)
    (size : ℚ) (checkTrilinearInterpolation : Bool)
    (hi : 0 ≤ i ∧ i < loopR g.gVolume axis) (hj : 0 ≤ j ∧ j < loopQ g.gVolume axis)
    (hk : 0 ≤ k ∧ k < loopP g.gVolume axis) :
    (∀ idx ∈ (performTransferWithLighting g axis i j k (loopP g.gVolume axis)
        (loopQ g.gVolume axis) (loopR g.gVolume axis) lightdir).reads,
      g.gVolume.inBounds idx) ∧
    (∀ idx ∈ (performTransferWithTrilinearInterpolation g axis i j k (loopP g.gVolume axis)
        (loopQ g.gVolume axis) (loopR g.gVolume axis) lightdir
        checkTrilinearInterpolation).reads,
      g.gVolume.inBounds idx) ∧
    (∀ idx ∈ (performTransferWithBillboards g axis i j k (loopP g.gVolume axis)
        (loopQ g.gVolume axis) (loopR g.gVolume axis) lightdir checkTrilinearInterpolation
        right up size).reads,
      g.gVolume.inBounds idx) ∧
    (∀ idx ∈ (performTransferWithArrays g axis i j k (loopP g.gVolume axis)
        (loopQ g.gVolume axis) (loopR g.gVolume axis) lightdir).reads,
      g.gVolume.inBounds idx) := by
  have hv := voxel_reads g axis i j k hi hj hk
  have hu := performTransfer_reads g axis i j k hi hj hk
  have hn := neighbour_reads g axis i j k hi hj hk
  rw [performTransferWithLighting_reads, performTransferWithTrilinearInterpolation_reads,
    performTransferWithBillboards_reads, performTransferWithArrays_reads]
  refine ⟨?_, ?_, ?_, ?_⟩
  · intro idx hidx
    split_ifs at hidx with h hint
    · simp at hidx
    · rcases List.mem_cons.mp hidx with h1 | h1
      · rw [h1]; exact hv
      · exact (hn hint).1 idx h1
    · rcases List.mem_cons.mp hidx with h1 | h1
      · rw [h1]; exact hv
      · exact hu idx h1
  · intro idx hidx
    split_ifs at hidx with h hint
    · simp at hidx
    · rcases List.mem_cons.mp hidx with h1 | h1
      · rw [h1]; exact hv
      · rcases List.mem_append.mp h1 with h2 | h2
        · exact (hn hint).2 idx h2
        · exact (hn hint).1 idx h2
    · rcases List.mem_cons.mp hidx with h1 | h1
      · rw [h1]; exact hv
      · exact hu idx h1
  · intro idx hidx
    split_ifs at hidx with h hint
    · simp at hidx
    · rcases List.mem_cons.mp hidx with h1 | h1
      · rw [h1]; exact hv
      · rcases List.mem_append.mp h1 with h2 | h2
        · exact (hn hint).2 idx h2
        · exact (hn hint).1 idx h2
    · rw [List.mem_singleton.mp hidx]; exact hv
  · intro idx hidx
    split_ifs at hidx with h hint
    · simp at hidx
    · rcases List.mem_cons.mp hidx with h1 | h1
      · rw [h1]; exact hv
      · exact (hn hint).1 idx h1
    · rw [List.mem_singleton.mp hidx]; exact hv

theorem mem_frameCalls (v : Volume) (aCameraFwd : Vec3D ℚ) (c : Int × Int × Int)
    (hc : c ∈ frameCalls v aCameraFwd) :
    (0 ≤ c.1 ∧ c.1 < loopR v (selectAxis aCameraFwd)) ∧
    (0 ≤ c.2.1 ∧ c.2.1 < loopQ v (selectAxis aCameraFwd)) ∧
    (0 ≤ c.2.2 ∧ c.2.2 < loopP v (selectAxis aCameraFwd)) :=
  (mem_traversal _ _ _ _ c).mp hc

theorem pushEntry_gVolume (g : Globals) (e : Primitive) : (pushEntry g e).gVolume = g.gVolume := by
  cases e <;> rfl

theorem foldl_pushEntry_gVolume (es : List Primitive) (g : Globals) :
    (es.foldl pushEntry g).gVolume = g.gVolume := by
  induction es generalizing g with
  | nil => rfl
  | cons e es ih => rw [List.foldl_cons, ih, pushEntry_gVolume]

theorem foldl_transfers_gVolume (ts : List Transfer) (g : Globals) :
    (ts.foldl (fun acc t => t.emitted.foldl pushEntry acc) g).gVolume = g.gVolume := by
  induction ts generalizing g with
  | nil => rfl
  | cons t ts ih => rw [List.foldl_cons, ih, foldl_pushEntry_gVolume]

theorem draw_drawAsArray_gVolume (g : Globals) (aCameraFwd : Vec3D ℚ) :
    (draw_drawAsArray g aCameraFwd).1.gVolume = g.gVolume := by
  unfold draw_drawAsArray
  simp only []
  split_ifs with h
  · rw [foldl_transfers_gVolume]
    rfl
  · rfl

theorem draw_drawAsArray_reads (g : Globals) (aCameraFwd : Vec3D ℚ) :
    ∀ t ∈ (draw_drawAsArray g aCameraFwd).2, ∀ idx ∈ t.reads, g.gVolume.inBounds idx := by
  unfold draw_drawAsArray
  simp only []
  split_ifs with h
  · intro t ht
    obtain ⟨c, hc, rfl⟩ := List.mem_map.mp ht
    obtain ⟨hi, hj, hk⟩ := mem_frameCalls _ _ c hc
    exact (shaded_reads (clearBuffers g (selectDirection aCameraFwd (selectAxis aCameraFwd)))
      _ _ _ _ g.gLightPosition ⟨0, 0, 0⟩ ⟨0, 0, 0⟩ 0 false hi hj hk).2.2.2
  · intro t ht
    simp at ht

/-- C14: for every volume and every camera, in the modes `colorAlphaPoints`,
`phongPoints`, `enhanceSelectedPoints`, `billboards` and `drawAsArray` every
grid index a transfer routine reads lies inside the bounds of the current
volume: the index of the voxel under each axis remapping, and the neighbours
`x ± 1`, `y ± 1`, `z ± 1` read for the gradient and for the trilinear corners of
an interior voxel. -/
theorem modes_reads_in_bounds (g : Globals) (aCameraFwd aCameraUp aCameraPos : Vec3D ℚ) :
    (∀ t ∈ draw_colorAlphaPoints g aCameraFwd, ∀ idx ∈ t.reads, g.gVolume.inBounds idx) ∧
    (∀ t ∈ draw_phongPoints g aCameraFwd, ∀ idx ∈ t.reads, g.gVolume.inBounds idx) ∧
    (∀ t ∈ draw_enhanceSelectedPoints g aCameraFwd aCameraPos, ∀ idx ∈ t.reads,
      g.gVolume.inBounds idx) ∧
    (∀ t ∈ draw_billboards g aCameraFwd aCameraUp aCameraPos, ∀ idx ∈ t.reads,
      g.gVolume.inBounds idx) ∧
    (∀ t ∈ (draw_drawAsArray g aCameraFwd).2, ∀ idx ∈ t.reads,
      (draw_drawAsArray g aCameraFwd).1.gVolume.inBounds idx) := by
  refine ⟨?_, ?_, ?_, ?_, ?_⟩
  · intro t ht
    obtain ⟨c, hc, rfl⟩ := List.mem_map.mp ht
    obtain ⟨hi, hj, hk⟩ := mem_frameCalls _ _ c hc
    exact performTransfer_reads g _ _ _ _ hi hj hk
  · intro t ht
    obtain ⟨c, hc, rfl⟩ := List.mem_map.mp ht
    obtain ⟨hi, hj, hk⟩ := mem_frameCalls _ _ c hc
    exact (shaded_reads g _ _ _ _ g.gLightPosition ⟨0, 0, 0⟩ ⟨0, 0, 0⟩ 0 false hi hj hk).1
  · intro t ht
    obtain ⟨c, hc, rfl⟩ := List.mem_map.mp ht
    obtain ⟨hi, hj, hk⟩ := mem_frameCalls _ _ c hc
    exact (shaded_reads g _ _ _ _ g.gLightPosition ⟨0, 0, 0⟩ ⟨0, 0, 0⟩ 0 _ hi hj hk).2.1
  · intro t ht
    obtain ⟨c, hc, rfl⟩ := List.mem_map.mp ht
    obtain ⟨hi, hj, hk⟩ := mem_frameCalls _ _ c hc
    exact (shaded_reads g _ _ _ _ g.gLightPosition _ _ _ _ hi hj hk).2.2.1
  · rw [draw_drawAsArray_gVolume]
    exact draw_drawAsArray_reads g aCameraFwd



/-! ### The reduced volume -/

theorem Volume.create_wellFormed (w h d : Nat) : (Volume.create w h d).wellFormed := by
  simp [Volume.wellFormed, Volume.create]

theorem Volume.offset_lt (v : Volume) (x y z : Nat) (hx : x < v.width) (hy : y < v.height)
    (hz : z < v.depth) : v.offset x y z < v.width * v.height * v.depth := by
  unfold Volume.offset
  have h1 : y + v.height * z + 1 ≤ v.height * v.depth := by
    have : v.height * (z + 1) ≤ v.height * v.depth := Nat.mul_le_mul_left _ hz
    rw [Nat.mul_add, Nat.mul_one] at this
    omega
  have h2 : v.width * (y + v.height * z + 1) ≤ v.width * (v.height * v.depth) :=
    Nat.mul_le_mul_left _ h1
  rw [Nat.mul_add, Nat.mul_one] at h2
  rw [Nat.mul_assoc]
  omega

theorem Volume.offset_inj (v : Volume) (x y z x' y' z' : Nat) (hx : x < v.width)
    (hy : y < v.height) (hx' : x' < v.width) (hy' : y' < v.height)
    (h : v.offset x y z = v.offset x' y' z') : x = x' ∧ y = y' ∧ z = z' := by
  unfold Volume.offset at h
  have hw : 0 < v.width := by omega
  have hh : 0 < v.height := by omega
  have e1 : x = x' := by
    have := congrArg (· % v.width) h
    simp only [Nat.add_mul_mod_self_left] at this
    rwa [Nat.mod_eq_of_lt hx, Nat.mod_eq_of_lt hx'] at this
  subst e1
  have e2 : y + v.height * z = y' + v.height * z' := by
    have := Nat.add_left_cancel h
    exact Nat.eq_of_mul_eq_mul_left hw this
  have e3 : y = y' := by
    have := congrArg (· % v.height) e2
    simp only [Nat.add_mul_mod_self_left] at this
    rwa [Nat.mod_eq_of_lt hy, Nat.mod_eq_of_lt hy'] at this
  subst e3
  have e4 : z = z' := Nat.eq_of_mul_eq_mul_left hh (Nat.add_left_cancel e2)
  exact ⟨rfl, rfl, e4⟩

theorem Volume.assign_dims (v : Volume) (x y z : Int) (a : ℚ) :
    (v.assign x y z a).width = v.width ∧ (v.assign x y z a).height = v.height ∧
      (v.assign x y z a).depth = v.depth := by
  unfold Volume.assign
  split_ifs <;> exact ⟨rfl, rfl, rfl⟩

theorem Volume.assign_inBounds (v : Volume) (x y z : Int) (a : ℚ) (idx : GridIndex) :
    (v.assign x y z a).inBounds idx ↔ v.inBounds idx := by
  obtain ⟨h1, h2, h3⟩ := v.assign_dims x y z a
  simp only [Volume.inBounds, h1, h2, h3]

theorem Volume.assign_wellFormed (v : Volume) (x y z : Int) (a : ℚ) (h : v.wellFormed) :
    (v.assign x y z a).wellFormed := by
  unfold Volume.assign
  split_ifs
  · simpa [Volume.wellFormed] using h
  · exact h

theorem Volume.sample_assign_same (v : Volume) (x y z : Int) (a : ℚ) (h : v.wellFormed)
    (hb : v.inBounds (x, y, z)) : (v.assign x y z a).sample x y z = a := by
  have hb' := (v.assign_inBounds x y z a (x, y, z)).mpr hb
  unfold Volume.sample
  rw [if_pos hb']
  unfold Volume.assign
  rw [if_pos hb]
  have hlt : v.offset x.toNat y.toNat z.toNat < v.data.length := by
    rw [h]
    simp only [Volume.inBounds] at hb
    exact v.offset_lt _ _ _ (by omega) (by omega) (by omega)
  simp [Volume.offset, List.getD_eq_getElem?_getD] at hlt ⊢
  simp [hlt]

theorem Volume.sample_assign_other (v : Volume) (x y z : Int) (a : ℚ) (idx : GridIndex)
    (hne : idx ≠ (x, y, z)) :
    (v.assign x y z a).sample idx.1 idx.2.1 idx.2.2 = v.sample idx.1 idx.2.1 idx.2.2 := by
  obtain ⟨i, j, k⟩ := idx
  by_cases hb : v.inBounds (x, y, z)
  · by_cases hi : v.inBounds (i, j, k)
    · have hi' := (v.assign_inBounds x y z a (i, j, k)).mpr hi
      unfold Volume.sample
      rw [if_pos hi', if_pos hi]
      unfold Volume.assign
      rw [if_pos hb]
      have hoff : v.offset x.toNat y.toNat z.toNat ≠ v.offset i.toNat j.toNat k.toNat := by
        intro he
        simp only [Volume.inBounds] at hb hi
        obtain ⟨e1, e2, e3⟩ := v.offset_inj _ _ _ _ _ _ (by omega) (by omega) (by omega)
          (by omega) he
        apply hne
        simp only [Prod.mk.injEq]
        omega
      simp only [Volume.offset] at hoff ⊢
      simp [List.getD_eq_getElem?_getD, List.getElem?_set_ne hoff]
    · have hi' : ¬ (v.assign x y z a).inBounds (i, j, k) :=
        fun hc => hi ((v.assign_inBounds x y z a (i, j, k)).mp hc)
      unfold Volume.sample
      rw [if_neg hi', if_neg hi]
  · unfold Volume.assign
    rw [if_neg hb]

theorem foldl_assign_dims (ws : List (GridIndex × ℚ)) (v : Volume) :
    (ws.foldl (fun res w => res.assign w.1.1 w.1.2.1 w.1.2.2 w.2) v).width = v.width ∧
    (ws.foldl (fun res w => res.assign w.1.1 w.1.2.1 w.1.2.2 w.2) v).height = v.height ∧
    (ws.foldl (fun res w => res.assign w.1.1 w.1.2.1 w.1.2.2 w.2) v).depth = v.depth := by
  induction ws generalizing v with
  | nil => exact ⟨rfl, rfl, rfl⟩
  | cons w ws ih =>
    obtain ⟨h1, h2, h3⟩ := ih (v.assign w.1.1 w.1.2.1 w.1.2.2 w.2)
    obtain ⟨e1, e2, e3⟩ := v.assign_dims w.1.1 w.1.2.1 w.1.2.2 w.2
    exact ⟨h1.trans e1, h2.trans e2, h3.trans e3⟩

theorem foldl_assign_untouched (ws : List (GridIndex × ℚ)) (v : Volume) (idx : GridIndex)
    (h : idx ∉ ws.map Prod.fst) :
    (ws.foldl (fun res w => res.assign w.1.1 w.1.2.1 w.1.2.2 w.2) v).sample
      idx.1 idx.2.1 idx.2.2 = v.sample idx.1 idx.2.1 idx.2.2 := by
  induction ws generalizing v with
  | nil => rfl
  | cons w ws ih =>
    simp only [List.map_cons, List.mem_cons, not_or] at h
    rw [List.foldl_cons, ih _ h.2]
    exact v.sample_assign_other _ _ _ _ idx h.1

theorem foldl_assign_written (ws : List (GridIndex × ℚ)) (v : Volume) (hwf : v.wellFormed)
    (hb : ∀ w ∈ ws, v.inBounds w.1) (hnd : (ws.map Prod.fst).Nodup)
    (w : GridIndex × ℚ) (hw : w ∈ ws) :
    (ws.foldl (fun res w => res.assign w.1.1 w.1.2.1 w.1.2.2 w.2) v).sample
      w.1.1 w.1.2.1 w.1.2.2 = w.2 := by
  induction ws generalizing v with
  | nil => simp at hw
  | cons a ws ih =>
    rw [List.map_cons, List.nodup_cons] at hnd
    rw [List.foldl_cons]
    rcases List.mem_cons.mp hw with rfl | hw'
    · rw [foldl_assign_untouched ws _ w.1 hnd.1]
      exact v.sample_assign_same _ _ _ _ hwf (hb w (List.mem_cons_self _ _))
    · apply ih _ (v.assign_wellFormed _ _ _ _ hwf) _ hnd.2 hw'
      intro w' hw''
      exact (v.assign_inBounds _ _ _ _ _).mpr (hb w' (List.mem_cons_of_mem _ hw''))

theorem load_lod_volume_dims (gVolume vol : Volume) :
    (load_lod_volume gVolume vol).width = vol.width / 2 + 1 ∧
    (load_lod_volume gVolume vol).height = vol.height / 2 + 1 ∧
    (load_lod_volume gVolume vol).depth = vol.depth / 2 + 1 :=
  foldl_assign_dims _ _

theorem lodWrite_target (vol : Volume) (x y z : Int) :
    (lodWrite vol x y z).1 = (⌊(x : ℚ) / 2⌋, ⌊(y : ℚ) / 2⌋, ⌊(z : ℚ) / 2⌋) := by
  unfold lodWrite
  simp only []
  split_ifs <;> rfl

theorem mem_evensBelow (n : Nat) (x : Int) :
    x ∈ evensBelow n ↔ ∃ m : Nat, 2 * m < n ∧ x = 2 * (m : Int) := by
  simp only [evensBelow, List.mem_map, List.mem_range]
  constructor
  · rintro ⟨m, hm, rfl⟩
    exact ⟨m, by omega, rfl⟩
  · rintro ⟨m, hm, rfl⟩
    exact ⟨m, by omega, rfl⟩

theorem evensBelow_nodup (n : Nat) : (evensBelow n).Nodup := by
  unfold evensBelow
  apply List.Nodup.map _ (List.nodup_range _)
  intro a b h
  simp only at h
  omega

theorem floor_half_even (m : Nat) : ⌊((2 * (m : Int) : Int) : ℚ) / 2⌋ = (m : Int) := by
  have : ((2 * (m : Int) : Int) : ℚ) / 2 = ((m : Int) : ℚ) := by
    push_cast
    ring
  rw [this, Int.floor_intCast]

theorem grid_nodup {α β γ : Type} (zs : List γ) (ys : List β) (xs : List α) (hz : zs.Nodup)
    (hy : ys.Nodup) (hx : xs.Nodup) :
    (zs.flatMap (fun z => ys.flatMap (fun y => xs.map (fun x => (x, y, z))))).Nodup := by
  rw [List.nodup_flatMap]
  constructor
  · intro z _
    rw [List.nodup_flatMap]
    constructor
    · intro y _
      exact List.Nodup.map (fun a b h => (Prod.mk.inj h).1) hx
    · refine List.Pairwise.imp ?_ hy
      intro a b hab
      simp only [Function.onFun, List.disjoint_left, List.mem_map]
      rintro c ⟨x, _, rfl⟩ ⟨x', _, h⟩
      exact hab (Prod.mk.inj (Prod.mk.inj h).2).1.symm
  · refine List.Pairwise.imp ?_ hz
    intro a b hab
    simp only [Function.onFun, List.disjoint_left, List.mem_flatMap, List.mem_map]
    rintro c ⟨y, _, x, _, rfl⟩ ⟨y', _, x', _, h⟩
    exact hab (Prod.mk.inj (Prod.mk.inj h).2).2.symm

theorem load_lod_writes_targets (gVolume vol : Volume) :
    (load_lod_writes gVolume vol).map Prod.fst =
      ((evensBelow vol.depth).flatMap (fun z => (evensBelow gVolume.height).flatMap
        (fun y => (evensBelow gVolume.width).map (fun x => (x, y, z))))).map
        (fun s => ((⌊(s.1 : ℚ) / 2⌋, ⌊(s.2.1 : ℚ) / 2⌋, ⌊(s.2.2 : ℚ) / 2⌋) : GridIndex)) := by
  simp only [load_lod_writes, List.map_flatMap, List.map_map, Function.comp_def,
    lodWrite_target]

theorem mem_load_lod_targets (gVolume vol : Volume) (idx : GridIndex) :
    idx ∈ (load_lod_writes gVolume vol).map Prod.fst ↔
      ∃ a b c : Nat, 2 * a < gVolume.width ∧ 2 * b < gVolume.height ∧ 2 * c < vol.depth ∧
        idx = ((a : Int), (b : Int), (c : Int)) := by
  rw [load_lod_writes_targets]
  simp only [List.mem_map, List.mem_flatMap, mem_evensBelow]
  constructor
  · rintro ⟨s, ⟨z, ⟨c, hc, rfl⟩, y, ⟨b, hb, rfl⟩, x, ⟨a, ha, rfl⟩, rfl⟩, rfl⟩
    exact ⟨a, b, c, ha, hb, hc, by simp only [floor_half_even]⟩
  · rintro ⟨a, b, c, ha, hb, hc, rfl⟩
    exact ⟨(2 * (a : Int), 2 * (b : Int), 2 * (c : Int)),
      ⟨_, ⟨c, hc, rfl⟩, _, ⟨b, hb, rfl⟩, _, ⟨a, ha, rfl⟩, rfl⟩, by simp only [floor_half_even]⟩

theorem load_lod_writes_nodup (gVolume vol : Volume) :
    ((load_lod_writes gVolume vol).map Prod.fst).Nodup := by
  rw [load_lod_writes_targets]
  apply List.Nodup.map_on _ (grid_nodup _ _ _ (evensBelow_nodup _) (evensBelow_nodup _)
    (evensBelow_nodup _))
  intro s hs t ht hst
  simp only [List.mem_flatMap, List.mem_map, mem_evensBelow] at hs ht
  obtain ⟨z, ⟨c, _, rfl⟩, y, ⟨b, _, rfl⟩, x, ⟨a, _, rfl⟩, rfl⟩ := hs
  obtain ⟨z', ⟨c', _, rfl⟩, y', ⟨b', _, rfl⟩, x', ⟨a', _, rfl⟩, rfl⟩ := ht
  simp only [floor_half_even, Prod.mk.injEq] at hst ⊢
  omega

theorem mem_load_lod_writes (gVolume vol : Volume) (a b c : Nat) (ha : 2 * a < gVolume.width)
    (hb : 2 * b < gVolume.height) (hc : 2 * c < vol.depth) :
    lodWrite vol (2 * (a : Int)) (2 * (b : Int)) (2 * (c : Int)) ∈ load_lod_writes gVolume vol := by
  simp only [load_lod_writes, List.mem_flatMap, List.mem_map, mem_evensBelow]
  exact ⟨_, ⟨c, hc, rfl⟩, _, ⟨b, hb, rfl⟩, _, ⟨a, ha, rfl⟩, rfl⟩

theorem load_lod_volume_written (gVolume vol : Volume) (hW : gVolume.width = vol.width)
    (hH : gVolume.height = vol.height) (a b c : Nat) (ha : 2 * a < vol.width)
    (hb : 2 * b < vol.height) (hc : 2 * c < vol.depth) :
    (load_lod_volume gVolume vol).sample (a : Int) (b : Int) (c : Int) =
      (lodWrite vol (2 * (a : Int)) (2 * (b : Int)) (2 * (c : Int))).2 := by
  have hmem := mem_load_lod_writes gVolume vol a b c (hW ▸ ha) (hH ▸ hb) hc
  have key := foldl_assign_written (load_lod_writes gVolume vol)
    (Volume.create (vol.width / 2 + 1) (vol.height / 2 + 1) (vol.depth / 2 + 1))
    (Volume.create_wellFormed _ _ _) ?_ (load_lod_writes_nodup gVolume vol) _ hmem
  · rw [lodWrite_target] at key
    simp only [floor_half_even] at key
    exact key
  · intro w hw
    have hw' : w.1 ∈ (load_lod_writes gVolume vol).map Prod.fst := List.mem_map_of_mem _ hw
    obtain ⟨a', b', c', ha', hb', hc', he⟩ := (mem_load_lod_targets gVolume vol w.1).mp hw'
    rw [he]
    simp only [Volume.inBounds, Volume.create]
    omega


theorem lodWrite_value (vol : Volume) (x y z : Nat) :
    (lodWrite vol (x : Int) (y : Int) (z : Int)).2 =
      if x ≠ 0 ∧ y ≠ 0 ∧ z ≠ 0 ∧ x + 1 ≠ vol.width ∧ y + 1 ≠ vol.height ∧ z + 1 ≠ vol.depth then
        (∑ i ∈ Finset.range 3, ∑ j ∈ Finset.range 3, ∑ k ∈ Finset.range 3,
          vol.sample ((x : Int) + (i : Int) - 1) ((y : Int) + (j : Int) - 1)
            ((z : Int) + (k : Int) - 1)) / 27
      else vol.sample (x : Int) (y : Int) (z : Int) := by
  unfold lodWrite
  simp only []
  by_cases h : x ≠ 0 ∧ y ≠ 0 ∧ z ≠ 0 ∧ x + 1 ≠ vol.width ∧ y + 1 ≠ vol.height ∧
      z + 1 ≠ vol.depth
  · have h' : (x : Int) ≠ 0 ∧ (y : Int) ≠ 0 ∧ (z : Int) ≠ 0 ∧ (x : Int) ≠ (vol.width : Int) - 1 ∧
        (y : Int) ≠ (vol.height : Int) - 1 ∧ (z : Int) ≠ (vol.depth : Int) - 1 := by omega
    rw [if_pos h', if_pos h]
    simp only [neighbourhood, List.flatMap_cons, List.flatMap_nil, List.map_cons, List.map_nil,
      List.append_nil, List.cons_append, List.nil_append, List.sum_cons, List.sum_nil,
      List.length_cons, List.length_nil, Finset.sum_range_succ, Finset.sum_range_zero]
    norm_num
    ring_nf
  · have h' : ¬ ((x : Int) ≠ 0 ∧ (y : Int) ≠ 0 ∧ (z : Int) ≠ 0 ∧
        (x : Int) ≠ (vol.width : Int) - 1 ∧
        (y : Int) ≠ (vol.height : Int) - 1 ∧ (z : Int) ≠ (vol.depth : Int) - 1) := by omega
    rw [if_neg h', if_neg h]

theorem foldl_add_eq_sum (l : List ℚ) (a : ℚ) :
    l.foldl (fun avg s => avg + s) a = a + l.sum := by
  induction l generalizing a with
  | nil => simp
  | cons x xs ih =>
    simp only [List.foldl_cons, List.sum_cons]
    rw [ih]
    ring

theorem lodWriteWith_id (vol : Volume) (x y z : Int) :
    lodWriteWith id vol x y z = lodWrite vol x y z := by
  unfold lodWriteWith lodWrite lodAverage
  simp only [id, foldl_add_eq_sum, zero_add, List.length_map]

theorem load_lod_volumeWith_id (gVolume vol : Volume) :
    load_lod_volumeWith id gVolume vol = load_lod_volume gVolume vol := by
  unfold load_lod_volumeWith load_lod_volume load_lod_writesWith load_lod_writes
  simp only [lodWriteWith_id]

theorem lodWriteWith_target (fl : ℚ → ℚ) (vol : Volume) (x y z : Int) :
    (lodWriteWith fl vol x y z).1 = (lodWrite vol x y z).1 := by
  unfold lodWriteWith lodWrite
  simp only []
  split_ifs <;> rfl

theorem load_lod_writesWith_targets (fl : ℚ → ℚ) (gVolume vol : Volume) :
    (load_lod_writesWith fl gVolume vol).map Prod.fst =
      (load_lod_writes gVolume vol).map Prod.fst := by
  simp only [load_lod_writesWith, load_lod_writes, List.map_flatMap, List.map_map,
    Function.comp_def, lodWriteWith_target]

theorem load_lod_volumeWith_dims (fl : ℚ → ℚ) (gVolume vol : Volume) :
    (load_lod_volumeWith fl gVolume vol).width = vol.width / 2 + 1 ∧
    (load_lod_volumeWith fl gVolume vol).height = vol.height / 2 + 1 ∧
    (load_lod_volumeWith fl gVolume vol).depth = vol.depth / 2 + 1 :=
  foldl_assign_dims _ _

theorem mem_load_lod_writesWith (fl : ℚ → ℚ) (gVolume vol : Volume) (a b c : Nat)
    (ha : 2 * a < gVolume.width) (hb : 2 * b < gVolume.height) (hc : 2 * c < vol.depth) :
    lodWriteWith fl vol (2 * (a : Int)) (2 * (b : Int)) (2 * (c : Int)) ∈
      load_lod_writesWith fl gVolume vol := by
  simp only [load_lod_writesWith, List.mem_flatMap, List.mem_map, mem_evensBelow]
  exact ⟨_, ⟨c, hc, rfl⟩, _, ⟨b, hb, rfl⟩, _, ⟨a, ha, rfl⟩, rfl⟩

theorem load_lod_volumeWith_written (fl : ℚ → ℚ) (gVolume vol : Volume)
    (hW : gVolume.width = vol.width) (hH : gVolume.height = vol.height) (a b c : Nat)
    (ha : 2 * a < vol.width) (hb : 2 * b < vol.height) (hc : 2 * c < vol.depth) :
    (load_lod_volumeWith fl gVolume vol).sample (a : Int) (b : Int) (c : Int) =
      (lodWriteWith fl vol (2 * (a : Int)) (2 * (b : Int)) (2 * (c : Int))).2 := by
  have hmem := mem_load_lod_writesWith fl gVolume vol a b c (hW ▸ ha) (hH ▸ hb) hc
  have key := foldl_assign_written (load_lod_writesWith fl gVolume vol)
    (Volume.create (vol.width / 2 + 1) (vol.height / 2 + 1) (vol.depth / 2 + 1))
    (Volume.create_wellFormed _ _ _) ?_
    (by rw [load_lod_writesWith_targets]; exact load_lod_writes_nodup gVolume vol) _ hmem
  · rw [lodWriteWith_target, lodWrite_target] at key
    simp only [floor_half_even] at key
    exact key
  · intro w hw
    have hw' : w.1 ∈ (load_lod_writesWith fl gVolume vol).map Prod.fst :=
      List.mem_map_of_mem _ hw
    rw [load_lod_writesWith_targets] at hw'
    obtain ⟨a', b', c', ha', hb', hc', he⟩ := (mem_load_lod_targets gVolume vol w.1).mp hw'
    rw [he]
    simp only [Volume.inBounds, Volume.create]
    omega

theorem lodWriteWith_value (fl : ℚ → ℚ) (vol : Volume) (x y z : Nat) :
    (lodWriteWith fl vol (x : Int) (y : Int) (z : Int)).2 =
      if x ≠ 0 ∧ y ≠ 0 ∧ z ≠ 0 ∧ x + 1 ≠ vol.width ∧ y + 1 ≠ vol.height ∧ z + 1 ≠ vol.depth then
        fl ((([-1, 0, 1] : List Int).flatMap (fun i => ([-1, 0, 1] : List Int).flatMap
          (fun j => ([-1, 0, 1] : List Int).map
            (fun k => vol.sample ((x : Int) + i) ((y : Int) + j) ((z : Int) + k))))).foldl
          (fun avg s => fl (avg + s)) 0 / 27)
      else vol.sample (x : Int) (y : Int) (z : Int) := by
  unfold lodWriteWith lodAverage
  simp only []
  by_cases h : x ≠ 0 ∧ y ≠ 0 ∧ z ≠ 0 ∧ x + 1 ≠ vol.width ∧ y + 1 ≠ vol.height ∧
      z + 1 ≠ vol.depth
  · have h' : (x : Int) ≠ 0 ∧ (y : Int) ≠ 0 ∧ (z : Int) ≠ 0 ∧ (x : Int) ≠ (vol.width : Int) - 1 ∧
        (y : Int) ≠ (vol.height : Int) - 1 ∧ (z : Int) ≠ (vol.depth : Int) - 1 := by omega
    rw [if_pos h', if_pos h]
    have hlen : (((neighbourhood (x : Int) (y : Int) (z : Int)).map
        (fun idx => vol.sample idx.1 idx.2.1 idx.2.2)).length : ℚ) = 27 := by
      rw [List.length_map]
      have : (neighbourhood (x : Int) (y : Int) (z : Int)).length = 27 := rfl
      rw [this]
      norm_num
    rw [hlen]
    rfl
  · have h' : ¬ ((x : Int) ≠ 0 ∧ (y : Int) ≠ 0 ∧ (z : Int) ≠ 0 ∧
        (x : Int) ≠ (vol.width : Int) - 1 ∧
        (y : Int) ≠ (vol.height : Int) - 1 ∧ (z : Int) ≠ (vol.depth : Int) - 1) := by omega
    rw [if_neg h', if_neg h]

theorem lodAverage_layers :
    roundBinary32 (([1, 0, 1 / 2, 1, 0, 1 / 2, 1, 0, 1 / 2, 1, 0, 1 / 2, 1, 0, 1 / 2, 1, 0, 1 / 2,
      1, 0, 1 / 2, 1, 0, 1 / 2, 1, 0, 1 / 2] : List ℚ).foldl
      (fun avg s => roundBinary32 (avg + s)) 0 / 27) = 1 / 2 := by
  have h1 : roundBinary32 (0 + 1 : ℚ) = 1 := by
    rw [roundBinary32_eq_pos _ (0) 8388608 (by norm_num) (by norm_num) (by norm_num)
      (by norm_num) (by norm_num)]
    norm_num
  have h2 : roundBinary32 (1 + 0 : ℚ) = 1 := by
    rw [roundBinary32_eq_pos _ (0) 8388608 (by norm_num) (by norm_num) (by norm_num)
      (by norm_num) (by norm_num)]
    norm_num
  have h3 : roundBinary32 (1 + 1 / 2 : ℚ) = 3 / 2 := by
    rw [roundBinary32_eq_pos _ (0) 12582912 (by norm_num) (by norm_num) (by norm_num)
      (by norm_num) (by norm_num)]
    norm_num
  have h4 : roundBinary32 (3 / 2 + 1 : ℚ) = 5 / 2 := by
    rw [roundBinary32_eq_pos _ (1) 10485760 (by norm_num) (by norm_num) (by norm_num)
      (by norm_num) (by norm_num)]
    norm_num
  have h5 : roundBinary32 (5 / 2 + 0 : ℚ) = 5 / 2 := by
    rw [roundBinary32_eq_pos _ (1) 10485760 (by norm_num) (by norm_num) (by norm_num)
      (by norm_num) (by norm_num)]
    norm_num
  have h6 : roundBinary32 (5 / 2 + 1 / 2 : ℚ) = 3 := by
    rw [roundBinary32_eq_pos _ (1) 12582912 (by norm_num) (by norm_num) (by norm_num)
      (by norm_num) (by norm_num)]
    norm_num
  have h7 : roundBinary32 (3 + 1 : ℚ) = 4 := by
    rw [roundBinary32_eq_pos _ (2) 8388608 (by norm_num) (by norm_num) (by norm_num)
      (by norm_num) (by norm_num)]
    norm_num
  have h8 : roundBinary32 (4 + 0 : ℚ) = 4 := by
    rw [roundBinary32_eq_pos _ (2) 8388608 (by norm_num) (by norm_num) (by norm_num)
      (by norm_num) (by norm_num)]
    norm_num
  have h9 : roundBinary32 (4 + 1 / 2 : ℚ) = 9 / 2 := by
    rw [roundBinary32_eq_pos _ (2) 9437184 (by norm_num) (by norm_num) (by norm_num)
      (by norm_num) (by norm_num)]
    norm_num
  have h10 : roundBinary32 (9 / 2 + 1 : ℚ) = 11 / 2 := by
    rw [roundBinary32_eq_pos _ (2) 11534336 (by norm_num) (by norm_num) (by norm_num)
      (by norm_num) (by norm_num)]
    norm_num
  have h11 : roundBinary32 (11 / 2 + 0 : ℚ) = 11 / 2 := by
    rw [roundBinary32_eq_pos _ (2) 11534336 (by norm_num) (by norm_num) (by norm_num)
      (by norm_num) (by norm_num)]
    norm_num
  have h12 : roundBinary32 (11 / 2 + 1 / 2 : ℚ) = 6 := by
    rw [roundBinary32_eq_pos _ (2) 12582912 (by norm_num) (by norm_num) (by norm_num)
      (by norm_num) (by norm_num)]
    norm_num
  have h13 : roundBinary32 (6 + 1 : ℚ) = 7 := by
    rw [roundBinary32_eq_pos _ (2) 14680064 (by norm_num) (by norm_num) (by norm_num)
      (by norm_num) (by norm_num)]
    norm_num
  have h14 : roundBinary32 (7 + 0 : ℚ) = 7 := by
    rw [roundBinary32_eq_pos _ (2) 14680064 (by norm_num) (by norm_num) (by norm_num)
      (by norm_num) (by norm_num)]
    norm_num
  have h15 : roundBinary32 (7 + 1 / 2 : ℚ) = 15 / 2 := by
    rw [roundBinary32_eq_pos _ (2) 15728640 (by norm_num) (by norm_num) (by norm_num)
      (by norm_num) (by norm_num)]
    norm_num
  have h16 : roundBinary32 (15 / 2 + 1 : ℚ) = 17 / 2 := by
    rw [roundBinary32_eq_pos _ (3) 8912896 (by norm_num) (by norm_num) (by norm_num)
      (by norm_num) (by norm_num)]
    norm_num
  have h17 : roundBinary32 (17 / 2 + 0 : ℚ) = 17 / 2 := by
    rw [roundBinary32_eq_pos _ (3) 8912896 (by norm_num) (by norm_num) (by norm_num)
      (by norm_num) (by norm_num)]
    norm_num
  have h18 : roundBinary32 (17 / 2 + 1 / 2 : ℚ) = 9 := by
    rw [roundBinary32_eq_pos _ (3) 9437184 (by norm_num) (by norm_num) (by norm_num)
      (by norm_num) (by norm_num)]
    norm_num
  have h19 : roundBinary32 (9 + 1 : ℚ) = 10 := by
    rw [roundBinary32_eq_pos _ (3) 10485760 (by norm_num) (by norm_num) (by norm_num)
      (by norm_num) (by norm_num)]
    norm_num
  have h20 : roundBinary32 (10 + 0 : ℚ) = 10 := by
    rw [roundBinary32_eq_pos _ (3) 10485760 (by norm_num) (by norm_num) (by norm_num)
      (by norm_num) (by norm_num)]
    norm_num
  have h21 : roundBinary32 (10 + 1 / 2 : ℚ) = 21 / 2 := by
    rw [roundBinary32_eq_pos _ (3) 11010048 (by norm_num) (by norm_num) (by norm_num)
      (by norm_num) (by norm_num)]
    norm_num
  have h22 : roundBinary32 (21 / 2 + 1 : ℚ) = 23 / 2 := by
    rw [roundBinary32_eq_pos _ (3) 12058624 (by norm_num) (by norm_num) (by norm_num)
      (by norm_num) (by norm_num)]
    norm_num
  have h23 : roundBinary32 (23 / 2 + 0 : ℚ) = 23 / 2 := by
    rw [roundBinary32_eq_pos _ (3) 12058624 (by norm_num) (by norm_num) (by norm_num)
      (by norm_num) (by norm_num)]
    norm_num
  have h24 : roundBinary32 (23 / 2 + 1 / 2 : ℚ) = 12 := by
    rw [roundBinary32_eq_pos _ (3) 12582912 (by norm_num) (by norm_num) (by norm_num)
      (by norm_num) (by norm_num)]
    norm_num
  have h25 : roundBinary32 (12 + 1 : ℚ) = 13 := by
    rw [roundBinary32_eq_pos _ (3) 13631488 (by norm_num) (by norm_num) (by norm_num)
      (by norm_num) (by norm_num)]
    norm_num
  have h26 : roundBinary32 (13 + 0 : ℚ) = 13 := by
    rw [roundBinary32_eq_pos _ (3) 13631488 (by norm_num) (by norm_num) (by norm_num)
      (by norm_num) (by norm_num)]
    norm_num
  have h27 : roundBinary32 (13 + 1 / 2 : ℚ) = 27 / 2 := by
    rw [roundBinary32_eq_pos _ (3) 14155776 (by norm_num) (by norm_num) (by norm_num)
      (by norm_num) (by norm_num)]
    norm_num
  have hq : roundBinary32 (27 / 2 / 27 : ℚ) = 1 / 2 := by
    rw [roundBinary32_eq_pos _ (-1) 8388608 (by norm_num) (by norm_num) (by norm_num)
      (by norm_num) (by norm_num)]
    norm_num
  simp only [List.foldl_cons, List.foldl_nil]
  rw [h1, h2, h3, h4, h5, h6, h7, h8, h9, h10, h11, h12, h13, h14, h15, h16, h17, h18, h19, h20, h21, h22, h23, h24, h25, h26, h27, hq]

set_option maxRecDepth 100000 in
theorem layerVolume_loaded :
    load_data_raw_ SampleType.uint8
      ((List.range 125).map
        (fun (n : Nat) => if n / 25 = 1 then (2 : UInt8) else if n / 25 = 3 then 1 else 0))
      { x := 5, y := 5, z := 5 } = Except.ok layerVolume := by
  rw [load_data_raw_ok SampleType.uint8 _ _ 125 (by decide) (by decide)]
  simp [SampleType.sizeof, decodeSamples, normalize, minmaxScan, minmaxStep,
    SampleType.max, SampleType.min, transformInto, Volume.create, layerVolume, List.range,
    List.range.loop]
  norm_num

theorem layerVolume_sample (x y z : Int) (hx : 0 ≤ x ∧ x < 5) (hy : 0 ≤ y ∧ y < 5)
    (hz : 0 ≤ z ∧ z < 5) :
    layerVolume.sample x y z = if z = 1 then 1 else if z = 3 then 1 / 2 else 0 := by
  have hb : layerVolume.inBounds (x, y, z) := by
    simp only [Volume.inBounds, layerVolume]
    omega
  unfold Volume.sample
  rw [if_pos hb]
  have hlt : x.toNat + 5 * (y.toNat + 5 * z.toNat) < 125 := by omega
  have hdiv : (x.toNat + 5 * (y.toNat + 5 * z.toNat)) / 25 = z.toNat := by omega
  simp only [Volume.offset, layerVolume, List.getD_eq_getElem?_getD, List.getElem?_map,
    List.getElem?_range hlt, Option.map_some', Option.getD_some, hdiv]
  have h1 : z.toNat = 1 ↔ z = 1 := by omega
  have h3 : z.toNat = 3 ↔ z = 3 := by omega
  simp only [h1, h3]

/-- C17 (amended): when the global current volume has the width and height of
the argument, as at the call `load_lod_volume(gVolume)` of `project_initialize`,
`load_lod_volume` returns a volume of dimensions `(w/2+1, h/2+1, d/2+1)`
(integer division) in which, for every source voxel `(x, y, z)` with `x`, `y`,
`z` all even, the sample at `(x/2, y/2, z/2)` is the source sample at
`(x, y, z)` when a coordinate is 0 or the last index of its axis, and otherwise
the 27 source samples of the 3 x 3 x 3 neighbourhood, added to 0 one after the
other (`x` outermost, `z` innermost) and divided by 27, in the arithmetic of any
rounding `fl`.  In exact arithmetic that is their arithmetic mean. -/
theorem load_lod_volume_samples (fl : ℚ → ℚ) (gVolume vol : Volume)
    (hW : gVolume.width = vol.width) (hH : gVolume.height = vol.height) :
    ((load_lod_volumeWith fl gVolume vol).width = vol.width / 2 + 1 ∧
      (load_lod_volumeWith fl gVolume vol).height = vol.height / 2 + 1 ∧
      (load_lod_volumeWith fl gVolume vol).depth = vol.depth / 2 + 1) ∧
    (∀ x y z : Nat, x < vol.width → y < vol.height → z < vol.depth →
      x % 2 = 0 → y % 2 = 0 → z % 2 = 0 →
      (load_lod_volumeWith fl gVolume vol).sample ((x / 2 : Nat) : Int) ((y / 2 : Nat) : Int)
          ((z / 2 : Nat) : Int) =
        if x ≠ 0 ∧ y ≠ 0 ∧ z ≠ 0 ∧ x + 1 ≠ vol.width ∧ y + 1 ≠ vol.height ∧
            z + 1 ≠ vol.depth then
          fl ((([-1, 0, 1] : List Int).flatMap (fun i => ([-1, 0, 1] : List Int).flatMap
            (fun j => ([-1, 0, 1] : List Int).map
              (fun k => vol.sample ((x : Int) + i) ((y : Int) + j) ((z : Int) + k))))).foldl
            (fun avg s => fl (avg + s)) 0 / 27)
        else vol.sample (x : Int) (y : Int) (z : Int)) ∧
    (∀ x y z : Nat, x < vol.width → y < vol.height → z < vol.depth →
      x % 2 = 0 → y % 2 = 0 → z % 2 = 0 →
      (load_lod_volumeWith id gVolume vol).sample ((x / 2 : Nat) : Int) ((y / 2 : Nat) : Int)
          ((z / 2 : Nat) : Int) =
        if x ≠ 0 ∧ y ≠ 0 ∧ z ≠ 0 ∧ x + 1 ≠ vol.width ∧ y + 1 ≠ vol.height ∧
            z + 1 ≠ vol.depth then
          (∑ i ∈ Finset.range 3, ∑ j ∈ Finset.range 3, ∑ k ∈ Finset.range 3,
            vol.sample ((x : Int) + (i : Int) - 1) ((y : Int) + (j : Int) - 1)
              ((z : Int) + (k : Int) - 1)) / 27
        else vol.sample (x : Int) (y : Int) (z : Int)) := by
  have key : ∀ (f : ℚ → ℚ) (x y z : Nat), x < vol.width → y < vol.height → z < vol.depth →
      x % 2 = 0 → y % 2 = 0 → z % 2 = 0 →
      (load_lod_volumeWith f gVolume vol).sample ((x / 2 : Nat) : Int) ((y / 2 : Nat) : Int)
          ((z / 2 : Nat) : Int) = (lodWriteWith f vol (x : Int) (y : Int) (z : Int)).2 := by
    intro f x y z hx hy hz ex ey ez
    rw [load_lod_volumeWith_written f gVolume vol hW hH (x / 2) (y / 2) (z / 2) (by omega)
      (by omega) (by omega)]
    have c1 : 2 * ((x / 2 : Nat) : Int) = ((x : Nat) : Int) := by omega
    have c2 : 2 * ((y / 2 : Nat) : Int) = ((y : Nat) : Int) := by omega
    have c3 : 2 * ((z / 2 : Nat) : Int) = ((z : Nat) : Int) := by omega
    rw [c1, c2, c3]
  refine ⟨load_lod_volumeWith_dims fl gVolume vol, ?_, ?_⟩
  · intro x y z hx hy hz ex ey ez
    rw [key fl x y z hx hy hz ex ey ez]
    exact lodWriteWith_value fl vol x y z
  · intro x y z hx hy hz ex ey ez
    rw [key id x y z hx hy hz ex ey ez, lodWriteWith_id]
    exact lodWrite_value vol x y z

/-- The amended C17 at the volume of 5 x 5 x 5 voxels in layers and its interior
voxel `(2, 2, 2)`, of sample 0: the neighbourhood holds nine samples 1, nine
samples 0 and nine samples 1/2, and the sample of the result at `(1, 1, 1)` is
their mean 1/2, in binary32 as in exact arithmetic.  The voxel `(4, 2, 0)` has
the last index on the first axis, and the sample at `(2, 1, 0)` is its own. -/
theorem load_lod_volume_samples_witness :
    layerVolume.sample 2 2 2 = 0 ∧
    (load_lod_volumeWith roundBinary32 layerVolume layerVolume).sample 1 1 1 = 1 / 2 ∧
    (load_lod_volumeWith id layerVolume layerVolume).sample 1 1 1 = 1 / 2 ∧
    (load_lod_volumeWith roundBinary32 layerVolume layerVolume).sample 2 1 0 = 0 := by
  have hs : ∀ x y z : Int, 0 ≤ x ∧ x < 5 → 0 ≤ y ∧ y < 5 → 0 ≤ z ∧ z < 5 →
      layerVolume.sample x y z = if z = 1 then 1 else if z = 3 then 1 / 2 else 0 :=
    fun x y z hx hy hz => layerVolume_sample x y z hx hy hz
  have hlist : (([-1, 0, 1] : List Int).flatMap (fun i => ([-1, 0, 1] : List Int).flatMap
      (fun j => ([-1, 0, 1] : List Int).map
        (fun k => layerVolume.sample (((2 : Nat) : Int) + i) (((2 : Nat) : Int) + j)
          (((2 : Nat) : Int) + k))))) =
      [1, 0, 1 / 2, 1, 0, 1 / 2, 1, 0, 1 / 2, 1, 0, 1 / 2, 1, 0, 1 / 2, 1, 0, 1 / 2,
        1, 0, 1 / 2, 1, 0, 1 / 2, 1, 0, 1 / 2] := by
    simp only [List.flatMap_cons, List.flatMap_nil, List.map_cons, List.map_nil,
      List.append_nil, List.cons_append, List.nil_append]
    simp (disch := decide) only [hs]
    norm_num
  have h := load_lod_volume_samples roundBinary32 layerVolume layerVolume rfl rfl
  have hid := load_lod_volume_samples id layerVolume layerVolume rfl rfl
  refine ⟨?_, ?_, ?_, ?_⟩
  · rw [hs 2 2 2 (by decide) (by decide) (by decide)]
    norm_num
  · have h1 := h.2.1 2 2 2 (by decide) (by decide) (by decide) (by decide) (by decide)
      (by decide)
    rw [if_pos (by decide), hlist, lodAverage_layers] at h1
    exact h1
  · have h1 := hid.2.1 2 2 2 (by decide) (by decide) (by decide) (by decide) (by decide)
      (by decide)
    rw [if_pos (by decide), hlist] at h1
    refine h1.trans ?_
    simp only [id, List.foldl_cons, List.foldl_nil]
    norm_num
  · have h1 := h.2.1 4 2 0 (by decide) (by decide) (by decide) (by decide) (by decide)
      (by decide)
    rw [if_neg (by decide), hs ((4 : Nat) : Int) ((2 : Nat) : Int) ((0 : Nat) : Int)
      (by decide) (by decide) (by decide)] at h1
    exact h1.trans (by norm_num)

theorem cubeVolume_loaded :
    load_data_raw_ SampleType.uint8
      [0, 1, 2, 3, 4, 5, 6, 7, 8, 9, 10, 11, 12, 13, 14, 15, 16, 17, 18, 19, 20, 21, 22, 23, 24,
        25, 26] { x := 3, y := 3, z := 3 } = Except.ok cubeVolume := by
  rw [load_data_raw_ok SampleType.uint8 _ _ 27 (by decide) (by decide)]
  simp [SampleType.sizeof, decodeSamples, normalize, minmaxScan, minmaxStep,
    SampleType.max, SampleType.min, transformInto, Volume.create, cubeVolume, List.range,
    List.range.loop]
  norm_num

theorem cameraDistance_nine : cameraDistance ⟨9, 0, 0⟩ = 9 := by
  unfold cameraDistance Vec3D.distance Vec3D.getLength Vec3D.toReal
  norm_num
  rw [show (81 : ℝ) = 9 ^ 2 by norm_num]
  exact Real.sqrt_sq (by norm_num)

/-- C15: a frame of `billboardsWithLOD` that reads outside the active volume.
The current volume has 3 x 3 x 3 voxels, the region is the one mode `none`
sets, and the camera stands at `(9, 0, 0)`, at distance 9 from the centre.  The
frame switches the current volume to the reduced volume of 2 x 2 x 2 voxels and
then runs the loops with the bounds 3, 3, 3 taken before the switch: the call
for the voxel `(2, 2, 2)` reads that index, which is outside the reduced
volume. -/
theorem draw_billboardsWithLOD_reads_outside :
    (draw_billboardsWithLOD (draw_none (initialGlobals cubeVolume)) ⟨-1, 0, 0⟩ ⟨0, 1, 0⟩ ⟨9, 0, 0⟩).1.gVolume =
      load_lod_volume cubeVolume cubeVolume ∧
    (∃ t ∈ (draw_billboardsWithLOD (draw_none (initialGlobals cubeVolume)) ⟨-1, 0, 0⟩ ⟨0, 1, 0⟩
        ⟨9, 0, 0⟩).2, ((2, 2, 2) : GridIndex) ∈ t.reads) ∧
    ¬ (draw_billboardsWithLOD (draw_none (initialGlobals cubeVolume)) ⟨-1, 0, 0⟩ ⟨0, 1, 0⟩
        ⟨9, 0, 0⟩).1.gVolume.inBounds (2, 2, 2) := by
  have hsw : switchLOD (draw_none (initialGlobals cubeVolume)) (cameraDistance ⟨9, 0, 0⟩) (4 / 1000) =
      ({ draw_none (initialGlobals cubeVolume) with
          global_vols_idx := 1, gVolume := load_lod_volume cubeVolume cubeVolume },
        4 / 1000 * 2) := by
    rw [cameraDistance_nine, switchLOD, if_pos ⟨by norm_num, rfl⟩]
    rfl
  have hax : selectAxis ⟨-1, 0, 0⟩ = AXIS.X := by
    simp [selectAxis]
  refine ⟨?_, ?_, ?_⟩
  · simp only [draw_billboardsWithLOD, hsw]
  · simp only [draw_billboardsWithLOD, hsw, List.mem_map]
    refine ⟨_, ⟨(2, 2, 2), ?_, rfl⟩, ?_⟩
    · rw [frameCalls, mem_traversal, hax]
      simp [loopP, loopQ, loopR, cubeVolume, draw_none, initialGlobals]
    · rw [performTransferWithBillboards_reads, hax]
      have hc : checkIntersection
          { draw_none (initialGlobals cubeVolume) with
            global_vols_idx := 1, gVolume := load_lod_volume cubeVolume cubeVolume }
          (samplePoint { draw_none (initialGlobals cubeVolume) with
            global_vols_idx := 1, gVolume := load_lod_volume cubeVolume cubeVolume }
            AXIS.X 2 2 2).XT
          (samplePoint { draw_none (initialGlobals cubeVolume) with
            global_vols_idx := 1, gVolume := load_lod_volume cubeVolume cubeVolume }
            AXIS.X 2 2 2).YT
          (samplePoint { draw_none (initialGlobals cubeVolume) with
            global_vols_idx := 1, gVolume := load_lod_volume cubeVolume cubeVolume }
            AXIS.X 2 2 2).ZT = true := by
        simp only [checkIntersection, checkCubeIntersection, samplePoint, normalizedCoordinate,
          draw_none, initialGlobals, cubeVolume]
        norm_num
      have hi : isInterior 2 2 2 (loopP (draw_none (initialGlobals cubeVolume)).gVolume AXIS.X)
          (loopQ (draw_none (initialGlobals cubeVolume)).gVolume AXIS.X)
          (loopR (draw_none (initialGlobals cubeVolume)).gVolume AXIS.X) = false := by
        simp [isInterior, loopP, loopQ, loopR, draw_none, initialGlobals, cubeVolume]
      rw [if_neg (by rw [hc]; decide), if_neg (by rw [hi]; decide)]
      simp [samplePoint]
  · simp only [draw_billboardsWithLOD, hsw]
    obtain ⟨d1, d2, d3⟩ := load_lod_volume_dims cubeVolume cubeVolume
    simp only [Volume.inBounds, d1, d2, d3]
    simp [cubeVolume]

theorem selectAxis_unitX : selectAxis ⟨1, 0, 0⟩ = AXIS.X := by
  simp [selectAxis]

/-- C13 (as stated, refuted): for the forward vector `(1, 0, 0)`, whose dominant
component is positive, and the volume of 3 x 3 x 3 voxels (`p = 3`), the first
slice visited is slice 0 and the last is slice 2.  With the forward vector as
the viewing direction slice 0 is the nearest slice, and `p - 1 = 2` is the
farthest. -/
theorem frameCalls_nearest_first :
    0 < (⟨1, 0, 0⟩ : Vec3D ℚ).component (selectAxis ⟨1, 0, 0⟩) ∧
    loopP cubeVolume (selectAxis ⟨1, 0, 0⟩) - 1 = 2 ∧
    ((frameCalls cubeVolume ⟨1, 0, 0⟩).map
      (sliceOf (initialGlobals cubeVolume) (selectAxis ⟨1, 0, 0⟩))).head? = some 0 ∧
    ((frameCalls cubeVolume ⟨1, 0, 0⟩).map
      (sliceOf (initialGlobals cubeVolume) (selectAxis ⟨1, 0, 0⟩))).getLast? = some 2 := by
  rw [selectAxis_unitX]
  have hd : selectDirection ⟨1, 0, 0⟩ AXIS.X = DIRECTION.POS := by
    simp [selectDirection, Vec3D.component]
  rw [frameCalls, selectAxis_unitX, hd]
  exact ⟨by simp [Vec3D.component], rfl, rfl, rfl⟩

/-- The amended order at the volume of 3 x 3 x 3 voxels and the forward vector
`(-1, 0, 0)`: the first slice visited is slice 2, the last is slice 0. -/
theorem frameCalls_first_last_witness :
    ((frameCalls (initialGlobals cubeVolume).gVolume ⟨-1, 0, 0⟩).map
      (sliceOf (initialGlobals cubeVolume) (selectAxis ⟨-1, 0, 0⟩))).head? = some 2 ∧
    ((frameCalls (initialGlobals cubeVolume).gVolume ⟨-1, 0, 0⟩).map
      (sliceOf (initialGlobals cubeVolume) (selectAxis ⟨-1, 0, 0⟩))).getLast? = some 0 := by
  have h := frameCalls_first_last (initialGlobals cubeVolume) ⟨-1, 0, 0⟩ (by decide) (by decide)
    (by decide)
  have hax : selectAxis ⟨-1, 0, 0⟩ = AXIS.X := by simp [selectAxis]
  rw [hax] at h ⊢
  simpa [Vec3D.component, loopP, initialGlobals, cubeVolume] using h

/-- The guard theorem at the initial region, the cube `[0, 1]³`, and the voxel
`(0, 0, 0)` of the volume of 3 x 3 x 3 voxels, whose normalised coordinates are
`(-1, -1, -1)`. -/
theorem transfer_outside_region_witness :
    (performTransfer (initialGlobals cubeVolume) AXIS.X 0 0 0).emitted = [] ∧
    (performTransferWithLighting (initialGlobals cubeVolume) AXIS.X 0 0 0 3 3 3
      ⟨2, 2, 0⟩).emitted = [] ∧
    (performTransferWithTrilinearInterpolation (initialGlobals cubeVolume) AXIS.X 0 0 0 3 3 3
      ⟨2, 2, 0⟩ true).emitted = [] ∧
    (performTransferWithBillboards (initialGlobals cubeVolume) AXIS.X 0 0 0 3 3 3 ⟨2, 2, 0⟩ true
      ⟨0, 0, 1⟩ ⟨0, 1, 0⟩ (4 / 1000)).emitted = [] ∧
    (performTransferWithArrays (initialGlobals cubeVolume) AXIS.X 0 0 0 3 3 3
      ⟨2, 2, 0⟩).emitted = [] :=
  transfer_outside_region (initialGlobals cubeVolume) AXIS.X 0 0 0 3 3 3 ⟨2, 2, 0⟩ ⟨0, 0, 1⟩
    ⟨0, 1, 0⟩ (4 / 1000) true
    (by norm_num [checkIntersection, checkCubeIntersection, samplePoint, normalizedCoordinate,
      initialGlobals, cubeVolume])

theorem operator_ne_iff {α : Type} [DecidableEq α] (aU aV : Vec3D α) :
    Vec3D.operator_ne aU aV = true ↔ aU.p0 ≠ aV.p0 ∧ aU.p1 ≠ aV.p1 ∧ aU.p2 ≠ aV.p2 := by
  simp [Vec3D.operator_ne, and_assoc]

theorem operator_eq_iff {α : Type} [DecidableEq α] (aU aV : Vec3D α) :
    Vec3D.operator_eq aU aV = true ↔ aU.p0 = aV.p0 ∧ aU.p1 = aV.p1 ∧ aU.p2 = aV.p2 := by
  simp [Vec3D.operator_eq, and_assoc]

/-- C30: the vectors `u = (1, 0, 0)` and `v = (2, 0, 0)` differ, `u == v` is
false, and `u != v` is false as well: `operator!=` asks for all three
components to differ.  In general `u != v` implies that `u == v` is false, and
not the other way round. -/
theorem operator_ne_not_negation :
    Vec3D.operator_eq (⟨1, 0, 0⟩ : Vec3D ℚ) ⟨2, 0, 0⟩ = false ∧
    Vec3D.operator_ne (⟨1, 0, 0⟩ : Vec3D ℚ) ⟨2, 0, 0⟩ = false ∧
    (∀ u v : Vec3D ℚ, Vec3D.operator_ne u v = true → Vec3D.operator_eq u v = false) ∧
    (∀ u v : Vec3D ℚ, (Vec3D.operator_ne u v = true ↔ Vec3D.operator_eq u v = false) ↔
      ((u.p0 ≠ v.p0 ∨ u.p1 ≠ v.p1 ∨ u.p2 ≠ v.p2) →
        (u.p0 ≠ v.p0 ∧ u.p1 ≠ v.p1 ∧ u.p2 ≠ v.p2))) := by
  refine ⟨by simp [Vec3D.operator_eq], by simp [Vec3D.operator_ne], ?_, ?_⟩
  · intro u v h
    rw [operator_ne_iff] at h
    simp [Vec3D.operator_eq, h.1]
  · intro u v
    rw [operator_ne_iff, ← Bool.not_eq_true, operator_eq_iff]
    constructor
    · intro h hne
      apply h.mpr
      intro ⟨h0, h1, h2⟩
      rcases hne with hn | hn | hn
      · exact hn h0
      · exact hn h1
      · exact hn h2
    · intro h
      constructor
      · intro ⟨h0, _, _⟩ ⟨e0, _, _⟩
        exact h0 e0
      · intro hn
        apply h
        by_contra hc
        push_neg at hc
        exact hn hc

/-! ### Region: the slab -/

/-- C21: with the slab region active on axis `a`, a point is contained exactly
when its coordinate on axis `a` lies in the closed interval from the origin's
coordinate on `a` to that coordinate plus the slab length; two points with the
same coordinate on `a` get the same answer, whatever their other two
coordinates. -/
theorem checkSlabIntersection_iff (g : Globals) (x y z : ℚ) :
    (checkSlabIntersection g x y z = true ↔
      g.global_position.component g.global_slab_axis ≤
          (⟨x, y, z⟩ : Vec3D ℚ).component g.global_slab_axis ∧
        (⟨x, y, z⟩ : Vec3D ℚ).component g.global_slab_axis ≤
          g.global_position.component g.global_slab_axis + g.global_slab_length) ∧
    (g.gSelectiveRegionType = ESelectiveRegionType.slab →
      checkIntersection g x y z = checkSlabIntersection g x y z) ∧
    (∀ x' y' z' : ℚ,
      (⟨x', y', z'⟩ : Vec3D ℚ).component g.global_slab_axis =
          (⟨x, y, z⟩ : Vec3D ℚ).component g.global_slab_axis →
        checkSlabIntersection g x' y' z' = checkSlabIntersection g x y z) := by
  refine ⟨?_, ?_, ?_⟩
  · unfold checkSlabIntersection
    cases g.global_slab_axis <;> simp [Vec3D.component]
  · intro h
    simp [checkIntersection, h]
  · intro x' y' z' h
    unfold checkSlabIntersection
    cases hax : g.global_slab_axis <;> simp only [hax, Vec3D.component] at h ⊢ <;> rw [h]



/-! ### Classification and the emitted records -/

theorem classify_eq_firstMatch (ttype : TRANSFERTYPE) (trunk : IsoSurface) (value : ℚ) :
    classify ttype trunk value = firstMatch (ruleSet ttype trunk) value := by
  cases ttype <;>
    simp only [classify, ruleSet, firstMatch, IsoSurface.hasBetween, ge_iff_le,
      decide_eq_true_eq]

theorem performTransfer_emitted (g : Globals) (axis : AXIS) (i j k : Int)
    (h : checkIntersection g (samplePoint g axis i j k).XT (samplePoint g axis i j k).YT
      (samplePoint g axis i j k).ZT = true) :
    (performTransfer g axis i j k).emitted =
      ((classify g.global_ttype trunkUnshaded
        (g.gVolume.sample (samplePoint g axis i j k).x (samplePoint g axis i j k).y
          (samplePoint g axis i j k).z)).map
        (fun c => Primitive.point
            (unshadedColor c (g.gVolume.sample (samplePoint g axis i j k).x
              (samplePoint g axis i j k).y (samplePoint g axis i j k).z))
            (alphaOf (g.gVolume.sample (samplePoint g axis i j k).x
              (samplePoint g axis i j k).y (samplePoint g axis i j k).z))
            ⟨(samplePoint g axis i j k).XT, (samplePoint g axis i j k).YT,
              (samplePoint g axis i j k).ZT⟩)).toList := by
  unfold performTransfer
  simp only [h, Bool.not_true, Bool.false_eq_true, if_false]
  cases classify g.global_ttype trunkUnshaded
    (g.gVolume.sample (samplePoint g axis i j k).x (samplePoint g axis i j k).y
      (samplePoint g axis i j k).z) <;> rfl

theorem performTransferWithLighting_interior (g : Globals) (axis : AXIS) (i j k p q r : Int)
    (lightdir : Vec3D ℚ)
    (h : checkIntersection g (samplePoint g axis i j k).XT (samplePoint g axis i j k).YT
      (samplePoint g axis i j k).ZT = true)
    (hint : isInterior i j k p q r = true) :
    (performTransferWithLighting g axis i j k p q r lightdir).emitted =
      ((classify g.global_ttype trunkShaded
        (g.gVolume.sample (samplePoint g axis i j k).x (samplePoint g axis i j k).y
          (samplePoint g axis i j k).z)).map
        (fun c => Primitive.point
            (shadedColor c (g.gVolume.sample (samplePoint g axis i j k).x
              (samplePoint g axis i j k).y (samplePoint g axis i j k).z)
              (diffuseTerm g (samplePoint g axis i j k).x (samplePoint g axis i j k).y
                (samplePoint g axis i j k).z lightdir))
            (alphaOf (g.gVolume.sample (samplePoint g axis i j k).x
              (samplePoint g axis i j k).y (samplePoint g axis i j k).z))
            ⟨(samplePoint g axis i j k).XT, (samplePoint g axis i j k).YT,
              (samplePoint g axis i j k).ZT⟩)).toList := by
  unfold performTransferWithLighting
  simp only [h, hint, Bool.not_true, Bool.false_eq_true, if_false, if_true]
  cases classify g.global_ttype trunkShaded
    (g.gVolume.sample (samplePoint g axis i j k).x (samplePoint g axis i j k).y
      (samplePoint g axis i j k).z) <;> rfl

theorem performTransferWithLighting_boundary (g : Globals) (axis : AXIS) (i j k p q r : Int)
    (lightdir : Vec3D ℚ) (hint : isInterior i j k p q r = false) :
    (performTransferWithLighting g axis i j k p q r lightdir).emitted =
      (performTransfer g axis i j k).emitted := by
  unfold performTransferWithLighting
  by_cases h : checkIntersection g (samplePoint g axis i j k).XT (samplePoint g axis i j k).YT
      (samplePoint g axis i j k).ZT = true
  · simp [h, hint]
  · simp only [Bool.not_eq_true] at h
    simp [h, performTransfer]

theorem performTransferWithTrilinearInterpolation_emitted (g : Globals) (axis : AXIS)
    (i j k p q r : Int) (lightdir : Vec3D ℚ) (checkTrilinearInterpolation : Bool) :
    (performTransferWithTrilinearInterpolation g axis i j k p q r lightdir
        checkTrilinearInterpolation).emitted =
      (performTransferWithLighting g axis i j k p q r lightdir).emitted ++
        (if checkIntersection g (samplePoint g axis i j k).XT (samplePoint g axis i j k).YT
              (samplePoint g axis i j k).ZT = true ∧ isInterior i j k p q r = true ∧
              checkTrilinearInterpolation = true then
          ((classify g.global_ttype trunkShaded
            (trilinAtVoxel g.gVolume.sample (samplePoint g axis i j k).x
              (samplePoint g axis i j k).y (samplePoint g axis i j k).z)).map
            (fun c => Primitive.point
                (shadedColor c (g.gVolume.sample (samplePoint g axis i j k).x
                  (samplePoint g axis i j k).y (samplePoint g axis i j k).z)
                  (diffuseTerm g (samplePoint g axis i j k).x (samplePoint g axis i j k).y
                    (samplePoint g axis i j k).z lightdir))
                (alphaOf (g.gVolume.sample (samplePoint g axis i j k).x
                  (samplePoint g axis i j k).y (samplePoint g axis i j k).z))
                ⟨(samplePoint g axis i j k).XT, (samplePoint g axis i j k).YT,
                  (samplePoint g axis i j k).ZT⟩)).toList
        else []) := by
  unfold performTransferWithTrilinearInterpolation performTransferWithLighting
  by_cases h : checkIntersection g (samplePoint g axis i j k).XT (samplePoint g axis i j k).YT
      (samplePoint g axis i j k).ZT = true
  · by_cases hint : isInterior i j k p q r = true
    · cases checkTrilinearInterpolation
      · simp [h, hint]
      · simp only [h, hint, Bool.not_true, Bool.false_eq_true, if_false, if_true, and_self]
        cases classify g.global_ttype trunkShaded
          (trilinAtVoxel g.gVolume.sample (samplePoint g axis i j k).x
            (samplePoint g axis i j k).y (samplePoint g axis i j k).z) <;> rfl
    · simp [h, hint]
  · simp only [Bool.not_eq_true] at h
    simp [h]

/-- C29: with `checkTrilinearInterpolation = false` the routine
`performTransferWithTrilinearInterpolation` emits, for every state of the
globals (volume, region, rule set), axis, index triple, loop bounds and light,
the same sequence of points as `performTransferWithLighting`; with
`checkTrilinearInterpolation = true` it emits that sequence followed by at most
one further point. -/
theorem performTransferWithTrilinearInterpolation_refines (g : Globals) (axis : AXIS)
    (i j k p q r : Int) (lightdir : Vec3D ℚ) :
    (performTransferWithTrilinearInterpolation g axis i j k p q r lightdir false).emitted =
      (performTransferWithLighting g axis i j k p q r lightdir).emitted ∧
    ∃ further : List Primitive, further.length ≤ 1 ∧
      (performTransferWithTrilinearInterpolation g axis i j k p q r lightdir true).emitted =
        (performTransferWithLighting g axis i j k p q r lightdir).emitted ++ further := by
  constructor
  · rw [performTransferWithTrilinearInterpolation_emitted]
    simp
  · refine ⟨_, ?_, performTransferWithTrilinearInterpolation_emitted g axis i j k p q r
      lightdir true⟩
    split_ifs
    · cases classify g.global_ttype trunkShaded
        (trilinAtVoxel g.gVolume.sample (samplePoint g axis i j k).x
          (samplePoint g axis i j k).y (samplePoint g axis i j k).z) <;> simp
    · simp


theorem performTransferWithBillboards_boundary (g : Globals) (axis : AXIS) (i j k p q r : Int)
    (lightdir : Vec3D ℚ) (checkTrilinearInterpolation : Bool) (right up : Vec3D ℚ) (size : ℚ)
    (h : checkIntersection g (samplePoint g axis i j k).XT (samplePoint g axis i j k).YT
      (samplePoint g axis i j k).ZT = true)
    (hint : isInterior i j k p q r = false) :
    (performTransferWithBillboards g axis i j k p q r lightdir checkTrilinearInterpolation
        right up size).emitted =
      ((classify g.global_ttype trunkShaded
        (g.gVolume.sample (samplePoint g axis i j k).x (samplePoint g axis i j k).y
          (samplePoint g axis i j k).z)).map
        (fun c => billboard right up
            ⟨(samplePoint g axis i j k).XT, (samplePoint g axis i j k).YT,
              (samplePoint g axis i j k).ZT⟩
            (unshadedColor c (g.gVolume.sample (samplePoint g axis i j k).x
              (samplePoint g axis i j k).y (samplePoint g axis i j k).z))
            (alphaOf (g.gVolume.sample (samplePoint g axis i j k).x
              (samplePoint g axis i j k).y (samplePoint g axis i j k).z)) size)).toList := by
  unfold performTransferWithBillboards
  simp only [h, hint, Bool.not_true, Bool.false_eq_true, if_false]
  cases classify g.global_ttype trunkShaded
    (g.gVolume.sample (samplePoint g axis i j k).x (samplePoint g axis i j k).y
      (samplePoint g axis i j k).z) <;> rfl

theorem performTransferWithArrays_boundary (g : Globals) (axis : AXIS) (i j k p q r : Int)
    (lightdir : Vec3D ℚ) (hint : isInterior i j k p q r = false) :
    (performTransferWithArrays g axis i j k p q r lightdir).emitted = [] := by
  unfold performTransferWithArrays
  by_cases h : checkIntersection g (samplePoint g axis i j k).XT (samplePoint g axis i j k).YT
      (samplePoint g axis i j k).ZT = true
  · simp [h, hint]
  · simp only [Bool.not_eq_true] at h
    simp [h]

theorem performTransferWithArrays_interior (g : Globals) (axis : AXIS) (i j k p q r : Int)
    (lightdir : Vec3D ℚ)
    (h : checkIntersection g (samplePoint g axis i j k).XT (samplePoint g axis i j k).YT
      (samplePoint g axis i j k).ZT = true)
    (hint : isInterior i j k p q r = true) :
    (performTransferWithArrays g axis i j k p q r lightdir).emitted =
      ((classify g.global_ttype trunkShaded
        (g.gVolume.sample (samplePoint g axis i j k).x (samplePoint g axis i j k).y
          (samplePoint g axis i j k).z)).map
        (fun c => Primitive.entry
            (shadedColor c (g.gVolume.sample (samplePoint g axis i j k).x
              (samplePoint g axis i j k).y (samplePoint g axis i j k).z)
              (diffuseTerm g (samplePoint g axis i j k).x (samplePoint g axis i j k).y
                (samplePoint g axis i j k).z lightdir))
            (alphaOf (g.gVolume.sample (samplePoint g axis i j k).x
              (samplePoint g axis i j k).y (samplePoint g axis i j k).z))
            ⟨(samplePoint g axis i j k).XT, (samplePoint g axis i j k).YT,
              (samplePoint g axis i j k).ZT⟩)).toList := by
  unfold performTransferWithArrays
  simp only [h, hint, Bool.not_true, Bool.false_eq_true, if_false, if_true]
  cases classify g.global_ttype trunkShaded
    (g.gVolume.sample (samplePoint g axis i j k).x (samplePoint g axis i j k).y
      (samplePoint g axis i j k).z) <;> rfl

theorem firstMatch_some (rules : List (IsoSurface × Vec3D ℚ)) (d : ℚ) (b : Vec3D ℚ)
    (h : firstMatch rules d = some b) :
    ∃ rule ∈ rules, rule.2 = b ∧ rule.1.low ≤ d ∧ d ≤ rule.1.high := by
  induction rules with
  | nil => simp [firstMatch] at h
  | cons rule rest ih =>
    unfold firstMatch at h
    split_ifs at h with hr
    · exact ⟨rule, List.mem_cons_self _ _, Option.some.inj h, hr⟩
    · obtain ⟨r', hm, hb⟩ := ih h
      exact ⟨r', List.mem_cons_of_mem _ hm, hb⟩

theorem firstMatch_none_iff (rules : List (IsoSurface × Vec3D ℚ)) (d : ℚ) :
    firstMatch rules d = none ↔ ∀ rule ∈ rules, ¬ (rule.1.low ≤ d ∧ d ≤ rule.1.high) := by
  induction rules with
  | nil => simp [firstMatch]
  | cons rule rest ih =>
    unfold firstMatch
    split_ifs with hr
    · simp only [List.mem_cons, forall_eq_or_imp, false_iff, not_and, not_forall]
      intro hn
      exact absurd hr.2 (hn hr.1)
    · rw [ih]
      simp only [List.mem_cons, forall_eq_or_imp]
      exact ⟨fun h => ⟨hr, h⟩, fun h => h.2⟩

theorem cubeVolume_sample (x y z : Nat) (hx : x < 3) (hy : y < 3) (hz : z < 3) :
    cubeVolume.sample (x : Int) (y : Int) (z : Int) = ((x + 3 * (y + 3 * z) : Nat) : ℚ) / 26 := by
  have hb : cubeVolume.inBounds ((x : Int), (y : Int), (z : Int)) := by
    simp only [Volume.inBounds, cubeVolume]
    omega
  unfold Volume.sample
  rw [if_pos hb]
  have hlt : x + 3 * (y + 3 * z) < 27 := by omega
  simp [Volume.offset, cubeVolume, List.getD_eq_getElem?_getD, List.getElem?_map,
    List.getElem?_range hlt]


theorem cubeGlobals_region (i j k : Int) (axis : AXIS)
    (hi : 0 ≤ i ∧ i ≤ 3) (hj : 0 ≤ j ∧ j ≤ 3) (hk : 0 ≤ k ∧ k ≤ 3) :
    checkIntersection (draw_none (initialGlobals cubeVolume))
      (samplePoint (draw_none (initialGlobals cubeVolume)) axis i j k).XT
      (samplePoint (draw_none (initialGlobals cubeVolume)) axis i j k).YT
      (samplePoint (draw_none (initialGlobals cubeVolume)) axis i j k).ZT = true := by
  have hi0 : (0 : ℚ) ≤ i := by exact_mod_cast hi.1
  have hi1 : (i : ℚ) ≤ 3 := by exact_mod_cast hi.2
  have hj0 : (0 : ℚ) ≤ j := by exact_mod_cast hj.1
  have hj1 : (j : ℚ) ≤ 3 := by exact_mod_cast hj.2
  have hk0 : (0 : ℚ) ≤ k := by exact_mod_cast hk.1
  have hk1 : (k : ℚ) ≤ 3 := by exact_mod_cast hk.2
  cases axis <;>
    simp only [checkIntersection, checkCubeIntersection, samplePoint, normalizedCoordinate,
      draw_none, initialGlobals, cubeVolume] <;>
    norm_num <;>
    refine ⟨?_, ?_, ?_, ?_, ?_, ?_⟩ <;> linarith

/-- C22: in `performTransfer`, for a sample inside the region, the record
emitted is the point whose colour is the base colour of the first rule of the
active rule set, in its fixed order, whose closed interval `[low, high]`
contains the density, scaled by the density; no record is emitted when no
rule's interval contains the density.  Under BACKPACK the density 0.25 has the
colour of lightgrey and the density 0.9 the colour of red. -/
theorem performTransfer_first_match (g : Globals) (axis : AXIS) (i j k : Int)
    (s : SamplePoint) (d : ℚ) (hs : s = samplePoint g axis i j k)
    (hd : d = g.gVolume.sample s.x s.y s.z)
    (h : checkIntersection g s.XT s.YT s.ZT = true) :
    (∀ b : Vec3D ℚ, firstMatch (ruleSet g.global_ttype trunkUnshaded) d = some b →
      (performTransfer g axis i j k).emitted =
        [Primitive.point ⟨((b.p0 * d : ℚ) : ℝ), ((b.p1 * d : ℚ) : ℝ), ((b.p2 * d : ℚ) : ℝ)⟩
          (alpha (FloatVal.finite (d : ℝ))) ⟨s.XT, s.YT, s.ZT⟩]) ∧
    ((∀ rule ∈ ruleSet g.global_ttype trunkUnshaded, ¬ (rule.1.low ≤ d ∧ d ≤ rule.1.high)) →
      (performTransfer g axis i j k).emitted = []) ∧
    firstMatch (ruleSet TRANSFERTYPE.BACKPACK trunkUnshaded) (25 / 100) =
      some ⟨85 / 100, 85 / 100, 85 / 100⟩ ∧
    firstMatch (ruleSet TRANSFERTYPE.BACKPACK trunkUnshaded) (9 / 10) = some ⟨1, 0, 0⟩ := by
  subst hs hd
  refine ⟨?_, ?_, ?_, ?_⟩
  · intro b hb
    rw [performTransfer_emitted g axis i j k h, classify_eq_firstMatch, hb]
    rfl
  · intro hn
    rw [performTransfer_emitted g axis i j k h, classify_eq_firstMatch,
      (firstMatch_none_iff _ _).mpr hn]
    rfl
  · norm_num [firstMatch, ruleSet, lightgrey]
  · norm_num [firstMatch, ruleSet, lightgrey, darkgrey, red]

/-- The theorem at the voxel `(1, 1, 0)` of the volume of 3 x 3 x 3 voxels, of
density `4/26`, under BONSAI: the point has the colour of leaves scaled by the
density. -/
theorem performTransfer_first_match_witness :
    (performTransfer (draw_none (initialGlobals cubeVolume)) AXIS.X 0 1 1).emitted =
      [Primitive.point ⟨((0 * (4 / 26) : ℚ) : ℝ), ((1 * (4 / 26) : ℚ) : ℝ),
          ((0 * (4 / 26) : ℚ) : ℝ)⟩
        (alpha (FloatVal.finite ((4 / 26 : ℚ) : ℝ)))
        ⟨(samplePoint (draw_none (initialGlobals cubeVolume)) AXIS.X 0 1 1).XT,
          (samplePoint (draw_none (initialGlobals cubeVolume)) AXIS.X 0 1 1).YT,
          (samplePoint (draw_none (initialGlobals cubeVolume)) AXIS.X 0 1 1).ZT⟩] :=
  (performTransfer_first_match (draw_none (initialGlobals cubeVolume)) AXIS.X 0 1 1
    (samplePoint (draw_none (initialGlobals cubeVolume)) AXIS.X 0 1 1) (4 / 26) rfl
    (by
      have := cubeVolume_sample 1 1 0 (by decide) (by decide) (by decide)
      simp only [samplePoint, draw_none, initialGlobals]
      norm_num at this ⊢
      rw [this])
    (cubeGlobals_region 0 1 1 AXIS.X (by decide) (by decide) (by decide))).1 ⟨0, 1, 0⟩
    (by norm_num [firstMatch, ruleSet, trunkUnshaded, leaves, draw_none, initialGlobals])


theorem ruleSet_shaded_pos (ttype : TRANSFERTYPE) (d : ℚ) (b : Vec3D ℚ)
    (h : firstMatch (ruleSet ttype trunkShaded) d = some b) :
    0 < d ∧ 0 ≤ b.p0 ∧ 0 ≤ b.p1 ∧ 0 ≤ b.p2 := by
  obtain ⟨rule, hm, rfl, hlo, _⟩ := firstMatch_some _ _ _ h
  cases ttype <;>
    simp only [ruleSet, List.mem_cons, List.mem_singleton, List.not_mem_nil, or_false] at hm
  · rcases hm with rfl | rfl <;>
      simp only [trunkShaded, leaves] at hlo ⊢ <;> norm_num at hlo ⊢ <;> linarith
  · rcases hm with rfl | rfl | rfl | rfl | rfl <;>
      simp only [lightgrey, darkgrey, red, lightblue, yellow] at hlo ⊢ <;>
      norm_num at hlo ⊢ <;> linarith

theorem sqrt_mul_self_add_eq_zero (a b c : ℝ) :
    Real.sqrt (a * a + b * b + c * c) = 0 ↔ a = 0 ∧ b = 0 ∧ c = 0 := by
  have h0 : 0 ≤ a * a + b * b + c * c :=
    add_nonneg (add_nonneg (mul_self_nonneg a) (mul_self_nonneg b)) (mul_self_nonneg c)
  rw [Real.sqrt_eq_zero h0]
  constructor
  · intro h
    have ha : a * a = 0 := by nlinarith [mul_self_nonneg a, mul_self_nonneg b, mul_self_nonneg c]
    have hb : b * b = 0 := by nlinarith [mul_self_nonneg a, mul_self_nonneg b, mul_self_nonneg c]
    have hc : c * c = 0 := by nlinarith [mul_self_nonneg a, mul_self_nonneg b, mul_self_nonneg c]
    exact ⟨mul_self_eq_zero.mp ha, mul_self_eq_zero.mp hb, mul_self_eq_zero.mp hc⟩
  · rintro ⟨rfl, rfl, rfl⟩
    norm_num

theorem diffuseTerm_eq (g : Globals) (x y z : Int) (lightdir : Vec3D ℚ) (gx gy gz len : ℝ)
    (hgx : gx = (((g.gVolume.sample (x + 1) y z - g.gVolume.sample (x - 1) y z) / 2 : ℚ) : ℝ))
    (hgy : gy = (((g.gVolume.sample x (y + 1) z - g.gVolume.sample x (y - 1) z) / 2 : ℚ) : ℝ))
    (hgz : gz = (((g.gVolume.sample x y (z + 1) - g.gVolume.sample x y (z - 1)) / 2 : ℚ) : ℝ))
    (hlen : len = Real.sqrt (gx * gx + gy * gy + gz * gz)) :
    diffuseTerm g x y z lightdir =
      (if len = 0 then -gx else -gx / len) * (lightdir.p0 : ℝ) +
      (if len = 0 then -gy else -gy / len) * (lightdir.p1 : ℝ) +
      (if len = 0 then -gz else -gz / len) * (lightdir.p2 : ℝ) := by
  have hl : Vec3D.getLength (Vec3D.toReal
      ⟨-((g.gVolume.sample (x + 1) y z - g.gVolume.sample (x - 1) y z) / 2),
       -((g.gVolume.sample x (y + 1) z - g.gVolume.sample x (y - 1) z) / 2),
       -((g.gVolume.sample x y (z + 1) - g.gVolume.sample x y (z - 1)) / 2)⟩) = len := by
    rw [hlen, hgx, hgy, hgz]
    simp only [Vec3D.getLength, Vec3D.toReal, Rat.cast_neg, neg_mul_neg]
  unfold diffuseTerm
  simp only []
  unfold Vec3D.normalize
  rw [hl]
  by_cases h0 : len = 0
  · rw [if_pos h0.symm, if_pos h0, if_pos h0, if_pos h0]
    simp only [Vec3D.dotProduct, Vec3D.toReal, Rat.cast_neg, hgx, hgy, hgz]
  · rw [if_neg (fun h => h0 h.symm), if_neg h0, if_neg h0, if_neg h0]
    simp only [Vec3D.dotProduct, Vec3D.toReal, Rat.cast_neg, hgx, hgy, hgz]

/-- C24: for an interior voxel inside the region whose density `d` matches the
rule of base colour `b` (the first rule of the active set that contains `d`),
`performTransferWithLighting` emits exactly one point, at the voxel's
normalised position, with alpha `alpha(d)` and colour `b * (d * (n . L))`.  Here
`L` is the light vector, `(gx, gy, gz)` is the central-difference gradient of
the volume at the voxel's grid location `(x, y, z)`, `len` is its length
`sqrt(gx² + gy² + gz²)`, and `n` is `(-gx, -gy, -gz) / len`, of length 1, when
the gradient is not zero and the zero vector when it is.  The colour is not
clamped: when `n . L < 0` no component is positive, and each component with a
positive base is negative. -/
theorem performTransferWithLighting_shaded (g : Globals) (axis : AXIS) (i j k p q r : Int)
    (lightdir : Vec3D ℚ) (s : SamplePoint) (d : ℚ) (b : Vec3D ℚ) (gx gy gz len nx ny nz dot : ℝ)
    (hs : s = samplePoint g axis i j k)
    (hd : d = g.gVolume.sample s.x s.y s.z)
    (hgx : gx =
      (((g.gVolume.sample (s.x + 1) s.y s.z - g.gVolume.sample (s.x - 1) s.y s.z) / 2 : ℚ) : ℝ))
    (hgy : gy =
      (((g.gVolume.sample s.x (s.y + 1) s.z - g.gVolume.sample s.x (s.y - 1) s.z) / 2 : ℚ) : ℝ))
    (hgz : gz =
      (((g.gVolume.sample s.x s.y (s.z + 1) - g.gVolume.sample s.x s.y (s.z - 1)) / 2 : ℚ) : ℝ))
    (hlen : len = Real.sqrt (gx * gx + gy * gy + gz * gz))
    (hnx : nx = if len = 0 then -gx else -gx / len)
    (hny : ny = if len = 0 then -gy else -gy / len)
    (hnz : nz = if len = 0 then -gz else -gz / len)
    (hdot : dot = nx * (lightdir.p0 : ℝ) + ny * (lightdir.p1 : ℝ) + nz * (lightdir.p2 : ℝ))
    (hregion : checkIntersection g s.XT s.YT s.ZT = true)
    (hinterior : k ≠ 0 ∧ j ≠ 0 ∧ i ≠ 0 ∧ k ≠ p - 1 ∧ j ≠ q - 1 ∧ i ≠ r - 1)
    (hrule : firstMatch (ruleSet g.global_ttype trunkShaded) d = some b) :
    (performTransferWithLighting g axis i j k p q r lightdir).emitted =
      [Primitive.point ⟨(b.p0 : ℝ) * ((d : ℝ) * dot), (b.p1 : ℝ) * ((d : ℝ) * dot),
          (b.p2 : ℝ) * ((d : ℝ) * dot)⟩
        (alpha (FloatVal.finite (d : ℝ))) ⟨s.XT, s.YT, s.ZT⟩] ∧
    (gx = 0 ∧ gy = 0 ∧ gz = 0 → nx = 0 ∧ ny = 0 ∧ nz = 0) ∧
    (¬ (gx = 0 ∧ gy = 0 ∧ gz = 0) →
      nx = -gx / len ∧ ny = -gy / len ∧ nz = -gz / len ∧ nx * nx + ny * ny + nz * nz = 1) ∧
    (dot < 0 →
      (b.p0 : ℝ) * ((d : ℝ) * dot) ≤ 0 ∧ (b.p1 : ℝ) * ((d : ℝ) * dot) ≤ 0 ∧
      (b.p2 : ℝ) * ((d : ℝ) * dot) ≤ 0 ∧
      (0 < b.p0 → (b.p0 : ℝ) * ((d : ℝ) * dot) < 0) ∧
      (0 < b.p1 → (b.p1 : ℝ) * ((d : ℝ) * dot) < 0) ∧
      (0 < b.p2 → (b.p2 : ℝ) * ((d : ℝ) * dot) < 0)) := by
  subst hs hd
  have hint : isInterior i j k p q r = true := by
    simp only [isInterior, decide_eq_true_eq]
    exact hinterior
  obtain ⟨hdpos, h0, h1, h2⟩ := ruleSet_shaded_pos _ _ _ hrule
  have hdR : (0 : ℝ) < ((g.gVolume.sample (samplePoint g axis i j k).x
      (samplePoint g axis i j k).y (samplePoint g axis i j k).z : ℚ) : ℝ) := by
    exact_mod_cast hdpos
  have h0R : (0 : ℝ) ≤ (b.p0 : ℝ) := by exact_mod_cast h0
  have h1R : (0 : ℝ) ≤ (b.p1 : ℝ) := by exact_mod_cast h1
  have h2R : (0 : ℝ) ≤ (b.p2 : ℝ) := by exact_mod_cast h2
  have hzero := sqrt_mul_self_add_eq_zero gx gy gz
  rw [← hlen] at hzero
  refine ⟨?_, ?_, ?_, ?_⟩
  · rw [performTransferWithLighting_interior g axis i j k p q r lightdir hregion hint,
      classify_eq_firstMatch, hrule,
      diffuseTerm_eq g _ _ _ lightdir gx gy gz len hgx hgy hgz hlen, ← hnx, ← hny, ← hnz, ← hdot]
    simp only [Option.map_some', Option.toList_some, shadedColor, Vec3D.scale, Vec3D.toReal,
      alphaOf]
  · rintro ⟨rfl, rfl, rfl⟩
    rw [hnx, hny, hnz]
    refine ⟨?_, ?_, ?_⟩ <;> split_ifs <;> simp
  · intro hne
    have hlen0 : len ≠ 0 := fun h => hne (hzero.mp h)
    rw [if_neg hlen0] at hnx hny hnz
    refine ⟨hnx, hny, hnz, ?_⟩
    have hsq : len * len = gx * gx + gy * gy + gz * gz := by
      rw [hlen]
      exact Real.mul_self_sqrt
        (add_nonneg (add_nonneg (mul_self_nonneg gx) (mul_self_nonneg gy)) (mul_self_nonneg gz))
    rw [hnx, hny, hnz]
    field_simp
    nlinarith [hsq]
  · intro hneg
    have hprod := mul_neg_of_pos_of_neg hdR hneg
    refine ⟨mul_nonpos_of_nonneg_of_nonpos h0R hprod.le,
      mul_nonpos_of_nonneg_of_nonpos h1R hprod.le, mul_nonpos_of_nonneg_of_nonpos h2R hprod.le,
      ?_, ?_, ?_⟩
    · intro hb
      exact mul_neg_of_pos_of_neg (by exact_mod_cast hb) hprod
    · intro hb
      exact mul_neg_of_pos_of_neg (by exact_mod_cast hb) hprod
    · intro hb
      exact mul_neg_of_pos_of_neg (by exact_mod_cast hb) hprod


theorem cubeGlobals_sample (axis : AXIS) (i j k : Int) :
    (draw_none (initialGlobals cubeVolume)).gVolume.sample
        (samplePoint (draw_none (initialGlobals cubeVolume)) axis i j k).x
        (samplePoint (draw_none (initialGlobals cubeVolume)) axis i j k).y
        (samplePoint (draw_none (initialGlobals cubeVolume)) axis i j k).z =
      cubeVolume.sample (samplePoint (initialGlobals cubeVolume) axis i j k).x
        (samplePoint (initialGlobals cubeVolume) axis i j k).y
        (samplePoint (initialGlobals cubeVolume) axis i j k).z := by
  cases axis <;> rfl

theorem cubeGlobals_samples :
    (draw_none (initialGlobals cubeVolume)).gVolume.sample 1 1 1 = 1 / 2 ∧
    (draw_none (initialGlobals cubeVolume)).gVolume.sample 2 1 1 = 14 / 26 ∧
    (draw_none (initialGlobals cubeVolume)).gVolume.sample 0 1 1 = 12 / 26 ∧
    (draw_none (initialGlobals cubeVolume)).gVolume.sample 1 2 1 = 16 / 26 ∧
    (draw_none (initialGlobals cubeVolume)).gVolume.sample 1 0 1 = 10 / 26 ∧
    (draw_none (initialGlobals cubeVolume)).gVolume.sample 1 1 2 = 22 / 26 ∧
    (draw_none (initialGlobals cubeVolume)).gVolume.sample 1 1 0 = 4 / 26 := by
  have hg : (draw_none (initialGlobals cubeVolume)).gVolume = cubeVolume := rfl
  rw [hg]
  have h111 := cubeVolume_sample 1 1 1 (by decide) (by decide) (by decide)
  have h211 := cubeVolume_sample 2 1 1 (by decide) (by decide) (by decide)
  have h011 := cubeVolume_sample 0 1 1 (by decide) (by decide) (by decide)
  have h121 := cubeVolume_sample 1 2 1 (by decide) (by decide) (by decide)
  have h101 := cubeVolume_sample 1 0 1 (by decide) (by decide) (by decide)
  have h112 := cubeVolume_sample 1 1 2 (by decide) (by decide) (by decide)
  have h110 := cubeVolume_sample 1 1 0 (by decide) (by decide) (by decide)
  norm_num at h111 h211 h011 h121 h101 h112 h110 ⊢
  exact ⟨h111, h211, h011, h121, h101, h112, h110⟩

theorem sqrt_ninety_one :
    Real.sqrt (1 / 26 * (1 / 26) + 3 / 26 * (3 / 26) + 9 / 26 * (9 / 26)) =
      Real.sqrt 91 / 26 := by
  rw [show (1 / 26 * (1 / 26) + 3 / 26 * (3 / 26) + 9 / 26 * (9 / 26) : ℝ) = 91 / 26 ^ 2 by
    norm_num, Real.sqrt_div (by norm_num), Real.sqrt_sq (by norm_num)]

/-- C24 at the interior voxel `(1, 1, 1)` of the volume of 3 x 3 x 3 voxels, of
density `1/2`, under BONSAI and the initial light `(2, 2, 0)`: the gradient is
`(1, 3, 9) / 26`, of length `sqrt(91) / 26`, so `n = -(1, 3, 9) / sqrt(91)` and
`n . L = -8 / sqrt(91)`; the point has the colour of trunk scaled by
`1/2 * (-8 / sqrt(91))`, a negative red component among them. -/
theorem performTransferWithLighting_shaded_witness :
    (performTransferWithLighting (draw_none (initialGlobals cubeVolume)) AXIS.X 1 1 1 3 3 3
      ⟨2, 2, 0⟩).emitted =
      [Primitive.point
        ⟨33 / 100 * (1 / 2 * (-8 / Real.sqrt 91)), 21 / 100 * (1 / 2 * (-8 / Real.sqrt 91)),
         1 / 10 * (1 / 2 * (-8 / Real.sqrt 91))⟩
        (alpha (FloatVal.finite (1 / 2))) ⟨-1 / 3, -1 / 3, -1 / 3⟩] ∧
    (33 / 100 : ℝ) * (1 / 2 * (-8 / Real.sqrt 91)) < 0 := by
  obtain ⟨s111, s211, s011, s121, s101, s112, s110⟩ := cubeGlobals_samples
  have h91 : Real.sqrt 91 ≠ 0 := by
    rw [Ne, Real.sqrt_eq_zero (by norm_num)]
    norm_num
  have hlen0 : Real.sqrt 91 / 26 ≠ 0 := div_ne_zero h91 (by norm_num)
  have h := performTransferWithLighting_shaded (draw_none (initialGlobals cubeVolume)) AXIS.X
    1 1 1 3 3 3 ⟨2, 2, 0⟩ (samplePoint (draw_none (initialGlobals cubeVolume)) AXIS.X 1 1 1)
    (1 / 2) ⟨33 / 100, 21 / 100, 1 / 10⟩ (1 / 26) (3 / 26) (9 / 26) (Real.sqrt 91 / 26)
    (-1 / Real.sqrt 91) (-3 / Real.sqrt 91) (-9 / Real.sqrt 91) (-8 / Real.sqrt 91) rfl
    (by simp only [samplePoint]; exact s111.symm)
    (by
      simp only [samplePoint]
      norm_num
      rw [s211, s011]
      norm_num)
    (by
      simp only [samplePoint]
      norm_num
      rw [s121, s101]
      norm_num)
    (by
      simp only [samplePoint]
      norm_num
      rw [s112, s110]
      norm_num)
    sqrt_ninety_one.symm
    (by rw [if_neg hlen0]; field_simp)
    (by rw [if_neg hlen0]; field_simp; ring)
    (by rw [if_neg hlen0]; field_simp; ring)
    (by push_cast; ring)
    (cubeGlobals_region 1 1 1 AXIS.X (by decide) (by decide) (by decide))
    (by decide)
    (by norm_num [firstMatch, ruleSet, trunkShaded, draw_none, initialGlobals])
  refine ⟨?_, ?_⟩
  · rw [h.1]
    simp only [samplePoint, normalizedCoordinate, draw_none, initialGlobals, cubeVolume]
    norm_num
  · have hneg := (h.2.2.2 (div_neg_of_neg_of_pos (by norm_num)
      (Real.sqrt_pos.mpr (by norm_num)))).2.2.2.1 (by norm_num)
    norm_num at hneg ⊢
    exact hneg

/-- C25: the array-buffer routine drops boundary voxels.  In the volume of
3 x 3 x 3 voxels the voxel `(1, 1, 0)` is a boundary voxel (loop index `i = 0`
under axis X), it is inside the region mode `none` sets, and its density
`4/26` matches the rule leaves; `performTransferWithArrays` emits nothing for
it, while `performTransferWithBillboards` emits one quad and
`performTransferWithLighting` one point of the unshaded colour.  The routine
emits nothing for any voxel that is not interior. -/
theorem performTransferWithArrays_drops_boundary :
    isInterior 0 1 1 3 3 3 = false ∧
    checkIntersection (draw_none (initialGlobals cubeVolume))
      (samplePoint (draw_none (initialGlobals cubeVolume)) AXIS.X 0 1 1).XT
      (samplePoint (draw_none (initialGlobals cubeVolume)) AXIS.X 0 1 1).YT
      (samplePoint (draw_none (initialGlobals cubeVolume)) AXIS.X 0 1 1).ZT = true ∧
    (draw_none (initialGlobals cubeVolume)).gVolume.sample 1 1 0 = 4 / 26 ∧
    firstMatch (ruleSet (draw_none (initialGlobals cubeVolume)).global_ttype trunkShaded)
      (4 / 26) = some ⟨0, 1, 0⟩ ∧
    (performTransferWithArrays (draw_none (initialGlobals cubeVolume)) AXIS.X 0 1 1 3 3 3
      ⟨2, 2, 0⟩).emitted = [] ∧
    (performTransferWithBillboards (draw_none (initialGlobals cubeVolume)) AXIS.X 0 1 1 3 3 3
      ⟨2, 2, 0⟩ false ⟨0, 0, 1⟩ ⟨0, 1, 0⟩ (4 / 1000)).emitted =
      [billboard ⟨0, 0, 1⟩ ⟨0, 1, 0⟩
        ⟨(samplePoint (draw_none (initialGlobals cubeVolume)) AXIS.X 0 1 1).XT,
          (samplePoint (draw_none (initialGlobals cubeVolume)) AXIS.X 0 1 1).YT,
          (samplePoint (draw_none (initialGlobals cubeVolume)) AXIS.X 0 1 1).ZT⟩
        (unshadedColor ⟨0, 1, 0⟩ (4 / 26)) (alphaOf (4 / 26)) (4 / 1000)] ∧
    (performTransferWithLighting (draw_none (initialGlobals cubeVolume)) AXIS.X 0 1 1 3 3 3
      ⟨2, 2, 0⟩).emitted =
      [Primitive.point (unshadedColor ⟨0, 1, 0⟩ (4 / 26)) (alphaOf (4 / 26))
        ⟨(samplePoint (draw_none (initialGlobals cubeVolume)) AXIS.X 0 1 1).XT,
          (samplePoint (draw_none (initialGlobals cubeVolume)) AXIS.X 0 1 1).YT,
          (samplePoint (draw_none (initialGlobals cubeVolume)) AXIS.X 0 1 1).ZT⟩] ∧
    (∀ (g : Globals) (axis : AXIS) (i j k p q r : Int) (lightdir : Vec3D ℚ),
      isInterior i j k p q r = false →
        (performTransferWithArrays g axis i j k p q r lightdir).emitted = []) := by
  have hint : isInterior 0 1 1 3 3 3 = false := by decide
  have hreg := cubeGlobals_region 0 1 1 AXIS.X (by decide) (by decide) (by decide)
  have hsample : (draw_none (initialGlobals cubeVolume)).gVolume.sample 1 1 0 = 4 / 26 := by
    have := cubeVolume_sample 1 1 0 (by decide) (by decide) (by decide)
    norm_num at this ⊢
    exact this
  have hsample' : (draw_none (initialGlobals cubeVolume)).gVolume.sample
      (samplePoint (draw_none (initialGlobals cubeVolume)) AXIS.X 0 1 1).x
      (samplePoint (draw_none (initialGlobals cubeVolume)) AXIS.X 0 1 1).y
      (samplePoint (draw_none (initialGlobals cubeVolume)) AXIS.X 0 1 1).z = 4 / 26 := hsample
  have hu : classify (draw_none (initialGlobals cubeVolume)).global_ttype trunkUnshaded
      (4 / 26) = some ⟨0, 1, 0⟩ := by
    norm_num [classify, IsoSurface.hasBetween, trunkUnshaded, leaves, draw_none, initialGlobals]
  have hsh : classify (draw_none (initialGlobals cubeVolume)).global_ttype trunkShaded
      (4 / 26) = some ⟨0, 1, 0⟩ := by
    norm_num [classify, IsoSurface.hasBetween, trunkShaded, leaves, draw_none, initialGlobals]
  refine ⟨hint, hreg, hsample, ?_, ?_, ?_, ?_, ?_⟩
  · rw [← classify_eq_firstMatch]
    exact hsh
  · exact performTransferWithArrays_boundary _ _ _ _ _ _ _ _ _ hint
  · rw [performTransferWithBillboards_boundary _ _ _ _ _ _ _ _ _ _ _ _ _ hreg hint, hsample',
      hsh]
    rfl
  · rw [performTransferWithLighting_boundary _ _ _ _ _ _ _ _ _ hint,
      performTransfer_emitted _ _ _ _ _ hreg, hsample', hu]
    rfl
  · intro g axis i j k p q r lightdir h
    exact performTransferWithArrays_boundary g axis i j k p q r lightdir h

/-- C26: the routines do not select the same rule.  Under BONSAI the voxel
`(0, 0, 2)` of the volume of 3 x 3 x 3 voxels has density `18/26`, between 0.6
and 0.9: `performTransfer`, whose trunk is `[0.5, 0.6]`, emits nothing for it,
and `performTransferWithBillboards`, whose trunk is `[0.5, 0.9]`, emits a quad
of the trunk colour.  For every density above 0.6 and at most 0.9 the table of
`performTransfer` has no match and the table of the other four routines
matches trunk; `performTransferWithLighting` therefore emits one point for such
a voxel when it is interior and none when it is on the boundary.  For every
other density, and under BACKPACK for every density, the two tables agree. -/
theorem classify_trunk_differs :
    (draw_none (initialGlobals cubeVolume)).gVolume.sample 0 0 2 = 18 / 26 ∧
    (performTransfer (draw_none (initialGlobals cubeVolume)) AXIS.X 2 0 0).emitted = [] ∧
    (performTransferWithBillboards (draw_none (initialGlobals cubeVolume)) AXIS.X 2 0 0 3 3 3
      ⟨2, 2, 0⟩ false ⟨0, 0, 1⟩ ⟨0, 1, 0⟩ (4 / 1000)).emitted =
      [billboard ⟨0, 0, 1⟩ ⟨0, 1, 0⟩
        ⟨(samplePoint (draw_none (initialGlobals cubeVolume)) AXIS.X 2 0 0).XT,
          (samplePoint (draw_none (initialGlobals cubeVolume)) AXIS.X 2 0 0).YT,
          (samplePoint (draw_none (initialGlobals cubeVolume)) AXIS.X 2 0 0).ZT⟩
        (unshadedColor ⟨33 / 100, 21 / 100, 1 / 10⟩ (18 / 26)) (alphaOf (18 / 26)) (4 / 1000)] ∧
    (∀ d : ℚ, 6 / 10 < d → d ≤ 9 / 10 →
      classify TRANSFERTYPE.BONSAI trunkUnshaded d = none ∧
      classify TRANSFERTYPE.BONSAI trunkShaded d = some ⟨33 / 100, 21 / 100, 1 / 10⟩) ∧
    (∀ (g : Globals) (axis : AXIS) (i j k p q r : Int) (lightdir : Vec3D ℚ),
      g.global_ttype = TRANSFERTYPE.BONSAI →
      checkIntersection g (samplePoint g axis i j k).XT (samplePoint g axis i j k).YT
        (samplePoint g axis i j k).ZT = true →
      6 / 10 < g.gVolume.sample (samplePoint g axis i j k).x (samplePoint g axis i j k).y
        (samplePoint g axis i j k).z →
      g.gVolume.sample (samplePoint g axis i j k).x (samplePoint g axis i j k).y
        (samplePoint g axis i j k).z ≤ 9 / 10 →
      (isInterior i j k p q r = true →
        (performTransferWithLighting g axis i j k p q r lightdir).emitted.length = 1) ∧
      (isInterior i j k p q r = false →
        (performTransferWithLighting g axis i j k p q r lightdir).emitted = [])) ∧
    (∀ d : ℚ, ¬ (6 / 10 < d ∧ d ≤ 9 / 10) →
      classify TRANSFERTYPE.BONSAI trunkUnshaded d =
        classify TRANSFERTYPE.BONSAI trunkShaded d) ∧
    (∀ d : ℚ, classify TRANSFERTYPE.BACKPACK trunkUnshaded d =
      classify TRANSFERTYPE.BACKPACK trunkShaded d) := by
  have hrange : ∀ d : ℚ, 6 / 10 < d → d ≤ 9 / 10 →
      classify TRANSFERTYPE.BONSAI trunkUnshaded d = none ∧
      classify TRANSFERTYPE.BONSAI trunkShaded d = some ⟨33 / 100, 21 / 100, 1 / 10⟩ := by
    intro d h1 h2
    have h3 : ¬ (d ≤ 6 / 10) := not_le.mpr h1
    have h4 : (1 : ℚ) / 2 ≤ d := by linarith
    have h5 : ¬ (d ≤ 2 / 10) := by
      intro h
      linarith
    constructor
    · simp [classify, IsoSurface.hasBetween, trunkUnshaded, leaves, h3, h5]
    · have h4' : (2 : ℚ)⁻¹ ≤ d := by linarith
      simp [classify, IsoSurface.hasBetween, trunkShaded, h4', h2]
  have hint : isInterior 2 0 0 3 3 3 = false := by decide
  have hreg := cubeGlobals_region 2 0 0 AXIS.X (by decide) (by decide) (by decide)
  have hsample : (draw_none (initialGlobals cubeVolume)).gVolume.sample 0 0 2 = 18 / 26 := by
    have := cubeVolume_sample 0 0 2 (by decide) (by decide) (by decide)
    norm_num at this ⊢
    exact this
  have hsample' : (draw_none (initialGlobals cubeVolume)).gVolume.sample
      (samplePoint (draw_none (initialGlobals cubeVolume)) AXIS.X 2 0 0).x
      (samplePoint (draw_none (initialGlobals cubeVolume)) AXIS.X 2 0 0).y
      (samplePoint (draw_none (initialGlobals cubeVolume)) AXIS.X 2 0 0).z = 18 / 26 := hsample
  have hb : (draw_none (initialGlobals cubeVolume)).global_ttype = TRANSFERTYPE.BONSAI := rfl
  obtain ⟨hu, hsh⟩ := hrange (18 / 26) (by norm_num) (by norm_num)
  refine ⟨hsample, ?_, ?_, hrange, ?_, ?_, ?_⟩
  · rw [performTransfer_emitted _ _ _ _ _ hreg, hsample', hb, hu]
    rfl
  · rw [performTransferWithBillboards_boundary _ _ _ _ _ _ _ _ _ _ _ _ _ hreg hint, hsample',
      hb, hsh]
    rfl
  · intro g axis i j k p q r lightdir ht hin h1 h2
    obtain ⟨hu', hsh'⟩ := hrange _ h1 h2
    constructor
    · intro hi
      rw [performTransferWithLighting_interior g axis i j k p q r lightdir hin hi, ht, hsh']
      rfl
    · intro hi
      rw [performTransferWithLighting_boundary g axis i j k p q r lightdir hi,
        performTransfer_emitted g axis i j k hin, ht, hu']
      rfl
  · intro d hd
    by_cases h1 : d ≤ 6 / 10
    · have : (d ≤ 9 / 10) := by linarith
      simp [classify, IsoSurface.hasBetween, trunkUnshaded, trunkShaded, h1, this]
    · have h2 : ¬ (d ≤ 9 / 10) := fun h => hd ⟨not_le.mp h1, h⟩
      simp [classify, IsoSurface.hasBetween, trunkUnshaded, trunkShaded, h1, h2]
  · intro d
    rfl


/-! ### The rule intervals -/

/-- C27 (as stated, refuted): under BACKPACK the density 0.25, which lies in
`[0, 1]`, is in the interval of lightgrey and in the interval of darkgrey, two
different rules of the set; the density 0.9 is in the interval of red and in
the interval of lightblue. -/
theorem backpack_intervals_overlap :
    (0 : ℚ) ≤ 25 / 100 ∧ (25 / 100 : ℚ) ≤ 1 ∧
    (lightgrey, (⟨85 / 100, 85 / 100, 85 / 100⟩ : Vec3D ℚ)) ∈
      ruleSet TRANSFERTYPE.BACKPACK trunkShaded ∧
    (darkgrey, (⟨66 / 100, 66 / 100, 66 / 100⟩ : Vec3D ℚ)) ∈
      ruleSet TRANSFERTYPE.BACKPACK trunkShaded ∧
    lightgrey.hasBetween (25 / 100) = true ∧ darkgrey.hasBetween (25 / 100) = true ∧
    red.hasBetween (9 / 10) = true ∧ lightblue.hasBetween (9 / 10) = true := by
  refine ⟨by norm_num, by norm_num, by simp [ruleSet], by simp [ruleSet], ?_, ?_, ?_, ?_⟩ <;>
    norm_num [IsoSurface.hasBetween, lightgrey, darkgrey, red, lightblue]

/-- C27 (amended): in each rule set every rule has `low ≤ high`.  The intervals
of BONSAI, trunk (either of its two intervals) and leaves, are disjoint.  The
intervals of BACKPACK are disjoint but for two shared end points: lightgrey and
darkgrey share exactly the density 0.25, red and lightblue share exactly the
density 0.9, and no other two rules share a density.  A shared density goes to
the rule tested first, lightgrey and red. -/
theorem ruleSet_intervals :
    (∀ (ttype : TRANSFERTYPE) (trunk : IsoSurface),
      trunk = trunkUnshaded ∨ trunk = trunkShaded →
        ∀ rule ∈ ruleSet ttype trunk, rule.1.low ≤ rule.1.high) ∧
    (∀ d : ℚ,
      ¬ (trunkUnshaded.hasBetween d = true ∧ leaves.hasBetween d = true) ∧
      ¬ (trunkShaded.hasBetween d = true ∧ leaves.hasBetween d = true)) ∧
    (∀ d : ℚ,
      (lightgrey.hasBetween d = true ∧ darkgrey.hasBetween d = true ↔ d = 25 / 100) ∧
      (red.hasBetween d = true ∧ lightblue.hasBetween d = true ↔ d = 9 / 10) ∧
      ¬ (lightgrey.hasBetween d = true ∧ red.hasBetween d = true) ∧
      ¬ (lightgrey.hasBetween d = true ∧ lightblue.hasBetween d = true) ∧
      ¬ (lightgrey.hasBetween d = true ∧ yellow.hasBetween d = true) ∧
      ¬ (darkgrey.hasBetween d = true ∧ red.hasBetween d = true) ∧
      ¬ (darkgrey.hasBetween d = true ∧ lightblue.hasBetween d = true) ∧
      ¬ (darkgrey.hasBetween d = true ∧ yellow.hasBetween d = true) ∧
      ¬ (red.hasBetween d = true ∧ yellow.hasBetween d = true) ∧
      ¬ (lightblue.hasBetween d = true ∧ yellow.hasBetween d = true)) ∧
    (∀ trunk : IsoSurface,
      classify TRANSFERTYPE.BACKPACK trunk (25 / 100) = some ⟨85 / 100, 85 / 100, 85 / 100⟩ ∧
      classify TRANSFERTYPE.BACKPACK trunk (9 / 10) = some ⟨1, 0, 0⟩) := by
  refine ⟨?_, ?_, ?_, ?_⟩
  · intro ttype trunk ht rule hm
    cases ttype <;>
      simp only [ruleSet, List.mem_cons, List.mem_singleton, List.not_mem_nil, or_false] at hm
    · rcases hm with rfl | rfl
      · rcases ht with rfl | rfl <;> norm_num [trunkUnshaded, trunkShaded]
      · norm_num [leaves]
    · rcases hm with rfl | rfl | rfl | rfl | rfl <;>
        norm_num [lightgrey, darkgrey, red, lightblue, yellow]
  · intro d
    simp only [IsoSurface.hasBetween, trunkUnshaded, trunkShaded, leaves, decide_eq_true_eq,
      ge_iff_le]
    constructor
    · rintro ⟨⟨h1, _⟩, _, h2⟩
      linarith
    · rintro ⟨⟨h1, _⟩, _, h2⟩
      linarith
  · intro d
    simp only [IsoSurface.hasBetween, lightgrey, darkgrey, red, lightblue, yellow,
      decide_eq_true_eq, ge_iff_le]
    refine ⟨?_, ?_, ?_, ?_, ?_, ?_, ?_, ?_, ?_, ?_⟩
    · constructor
      · rintro ⟨⟨h1, _⟩, _, h2⟩
        linarith
      · rintro rfl
        norm_num
    · constructor
      · rintro ⟨⟨h1, _⟩, _, h2⟩
        linarith
      · rintro rfl
        norm_num
    all_goals
      rintro ⟨⟨h1, h2⟩, h3, h4⟩
      linarith
  · intro trunk
    constructor
    · norm_num [classify, IsoSurface.hasBetween, lightgrey]
    · norm_num [classify, IsoSurface.hasBetween, lightgrey, darkgrey, red]

/-! ### The array-buffer cache -/

theorem pushEntry_buffers (g : Globals) (e : Primitive) :
    (pushEntry g e).gDrawColors = g.gDrawColors ++ entryColors e ∧
    (pushEntry g e).gDrawPositions = g.gDrawPositions ++ entryPositions e ∧
    (pushEntry g e).current_dir = g.current_dir ∧
    (pushEntry g e).gLightChanged = g.gLightChanged := by
  cases e <;> simp [pushEntry, entryColors, entryPositions]

theorem foldl_pushEntry_buffers (es : List Primitive) (g : Globals) :
    (es.foldl pushEntry g).gDrawColors = g.gDrawColors ++ es.flatMap entryColors ∧
    (es.foldl pushEntry g).gDrawPositions = g.gDrawPositions ++ es.flatMap entryPositions ∧
    (es.foldl pushEntry g).current_dir = g.current_dir ∧
    (es.foldl pushEntry g).gLightChanged = g.gLightChanged := by
  induction es generalizing g with
  | nil => simp
  | cons e es ih =>
    obtain ⟨h1, h2, h3, h4⟩ := ih (pushEntry g e)
    obtain ⟨e1, e2, e3, e4⟩ := pushEntry_buffers g e
    simp only [List.foldl_cons, List.flatMap_cons]
    exact ⟨by rw [h1, e1, List.append_assoc], by rw [h2, e2, List.append_assoc],
      by rw [h3, e3], by rw [h4, e4]⟩

theorem foldl_transfers_buffers (ts : List Transfer) (g : Globals) :
    (ts.foldl (fun acc t => t.emitted.foldl pushEntry acc) g).gDrawColors =
      g.gDrawColors ++ (ts.flatMap (fun t => t.emitted)).flatMap entryColors ∧
    (ts.foldl (fun acc t => t.emitted.foldl pushEntry acc) g).gDrawPositions =
      g.gDrawPositions ++ (ts.flatMap (fun t => t.emitted)).flatMap entryPositions ∧
    (ts.foldl (fun acc t => t.emitted.foldl pushEntry acc) g).current_dir = g.current_dir ∧
    (ts.foldl (fun acc t => t.emitted.foldl pushEntry acc) g).gLightChanged =
      g.gLightChanged := by
  induction ts generalizing g with
  | nil => simp
  | cons t ts ih =>
    obtain ⟨h1, h2, h3, h4⟩ := ih (t.emitted.foldl pushEntry g)
    obtain ⟨e1, e2, e3, e4⟩ := foldl_pushEntry_buffers t.emitted g
    simp only [List.foldl_cons, List.flatMap_cons, List.flatMap_append]
    exact ⟨by rw [h1, e1, List.append_assoc], by rw [h2, e2, List.append_assoc],
      by rw [h3, e3], by rw [h4, e4]⟩

theorem draw_drawAsArray_rebuild (g : Globals) (aCameraFwd : Vec3D ℚ)
    (h : g.gLightChanged = true ∨
      selectDirection aCameraFwd (selectAxis aCameraFwd) ≠ g.current_dir) :
    (draw_drawAsArray g aCameraFwd).2 =
      (frameCalls g.gVolume aCameraFwd).map
        (fun c => performTransferWithArrays
          (clearBuffers g (selectDirection aCameraFwd (selectAxis aCameraFwd)))
          (selectAxis aCameraFwd) c.1 c.2.1 c.2.2 (loopP g.gVolume (selectAxis aCameraFwd))
          (loopQ g.gVolume (selectAxis aCameraFwd)) (loopR g.gVolume (selectAxis aCameraFwd))
          g.gLightPosition) ∧
    (draw_drawAsArray g aCameraFwd).1.gDrawColors =
      ((draw_drawAsArray g aCameraFwd).2.flatMap (fun t => t.emitted)).flatMap entryColors ∧
    (draw_drawAsArray g aCameraFwd).1.gDrawPositions =
      ((draw_drawAsArray g aCameraFwd).2.flatMap (fun t => t.emitted)).flatMap
        entryPositions ∧
    (draw_drawAsArray g aCameraFwd).1.current_dir =
      selectDirection aCameraFwd (selectAxis aCameraFwd) ∧
    (draw_drawAsArray g aCameraFwd).1.gLightChanged = false := by
  have heq : draw_drawAsArray g aCameraFwd =
      (((frameCalls g.gVolume aCameraFwd).map
        (fun c => performTransferWithArrays
          (clearBuffers g (selectDirection aCameraFwd (selectAxis aCameraFwd)))
          (selectAxis aCameraFwd) c.1 c.2.1 c.2.2 (loopP g.gVolume (selectAxis aCameraFwd))
          (loopQ g.gVolume (selectAxis aCameraFwd)) (loopR g.gVolume (selectAxis aCameraFwd))
          g.gLightPosition)).foldl (fun acc t => t.emitted.foldl pushEntry acc)
        (clearBuffers g (selectDirection aCameraFwd (selectAxis aCameraFwd))),
       (frameCalls g.gVolume aCameraFwd).map
        (fun c => performTransferWithArrays
          (clearBuffers g (selectDirection aCameraFwd (selectAxis aCameraFwd)))
          (selectAxis aCameraFwd) c.1 c.2.1 c.2.2 (loopP g.gVolume (selectAxis aCameraFwd))
          (loopQ g.gVolume (selectAxis aCameraFwd)) (loopR g.gVolume (selectAxis aCameraFwd))
          g.gLightPosition)) := by
    unfold draw_drawAsArray
    exact if_pos h
  obtain ⟨h1, h2, h3, h4⟩ := foldl_transfers_buffers
    ((frameCalls g.gVolume aCameraFwd).map
        (fun c => performTransferWithArrays
          (clearBuffers g (selectDirection aCameraFwd (selectAxis aCameraFwd)))
          (selectAxis aCameraFwd) c.1 c.2.1 c.2.2 (loopP g.gVolume (selectAxis aCameraFwd))
          (loopQ g.gVolume (selectAxis aCameraFwd)) (loopR g.gVolume (selectAxis aCameraFwd))
          g.gLightPosition))
    (clearBuffers g (selectDirection aCameraFwd (selectAxis aCameraFwd)))
  rw [heq]
  refine ⟨rfl, ?_, ?_, ?_, ?_⟩
  · rw [h1]; rfl
  · rw [h2]; rfl
  · rw [h3]; rfl
  · rw [h4]; rfl

theorem draw_drawAsArray_reuse (g : Globals) (aCameraFwd : Vec3D ℚ)
    (hl : g.gLightChanged = false)
    (hd : selectDirection aCameraFwd (selectAxis aCameraFwd) = g.current_dir) :
    draw_drawAsArray g aCameraFwd = (g, []) := by
  unfold draw_drawAsArray
  simp only []
  rw [if_neg]
  rintro (h | h)
  · rw [hl] at h
    exact Bool.false_ne_true h
  · exact h hd

theorem performTransferWithArrays_positions (g : Globals) (axis : AXIS) (i j k p q r : Int)
    (lightdir : Vec3D ℚ) :
    (performTransferWithArrays g axis i j k p q r lightdir).emitted.flatMap entryPositions =
      if isInterior i j k p q r = true ∧
          checkIntersection g (samplePoint g axis i j k).XT (samplePoint g axis i j k).YT
            (samplePoint g axis i j k).ZT = true ∧
          (classify g.global_ttype trunkShaded
            (g.gVolume.sample (samplePoint g axis i j k).x (samplePoint g axis i j k).y
              (samplePoint g axis i j k).z)).isSome = true then
        [(samplePoint g axis i j k).XT, (samplePoint g axis i j k).YT,
          (samplePoint g axis i j k).ZT]
      else [] := by
  by_cases hint : isInterior i j k p q r = true
  · by_cases h : checkIntersection g (samplePoint g axis i j k).XT
        (samplePoint g axis i j k).YT (samplePoint g axis i j k).ZT = true
    · rw [performTransferWithArrays_interior g axis i j k p q r lightdir h hint]
      cases classify g.global_ttype trunkShaded
        (g.gVolume.sample (samplePoint g axis i j k).x (samplePoint g axis i j k).y
          (samplePoint g axis i j k).z) <;> simp [hint, h, entryPositions]
    · simp only [Bool.not_eq_true] at h
      simp [performTransferWithArrays, h]
  · simp only [Bool.not_eq_true] at hint
    rw [performTransferWithArrays_boundary g axis i j k p q r lightdir hint]
    simp [hint]


theorem flatMap_flatMap_emitted (ts : List Transfer) :
    (ts.flatMap (fun t => t.emitted)).flatMap entryPositions =
      ts.flatMap (fun t => t.emitted.flatMap entryPositions) := by
  induction ts with
  | nil => rfl
  | cons t ts ih => simp only [List.flatMap_cons, List.flatMap_append, ih]

theorem draw_drawAsArray_first_frame :
    (draw_drawAsArray (draw_none (initialGlobals cubeVolume)) ⟨1, 0, 0⟩).1.gDrawPositions =
      [-1 / 3, -1 / 3, -1 / 3] := by
  have hx : selectAxis ⟨1, 0, 0⟩ = AXIS.X := by simp [selectAxis]
  have hdx : selectDirection ⟨1, 0, 0⟩ AXIS.X = DIRECTION.POS := by
    simp [selectDirection, Vec3D.component]
  obtain ⟨hcalls, _, hpos, _, _⟩ := draw_drawAsArray_rebuild
    (draw_none (initialGlobals cubeVolume)) ⟨1, 0, 0⟩ (Or.inl rfl)
  have hs : cubeVolume.sample 1 1 1 = 1 / 2 := by
    have := cubeVolume_sample 1 1 1 (by decide) (by decide) (by decide)
    norm_num at this ⊢
    exact this
  rw [hpos, hcalls, flatMap_flatMap_emitted, List.flatMap_map, frameCalls, hx, hdx]
  simp only [performTransferWithArrays_positions]
  have hl : traversal DIRECTION.POS (loopP (draw_none (initialGlobals cubeVolume)).gVolume AXIS.X)
      (loopQ (draw_none (initialGlobals cubeVolume)).gVolume AXIS.X)
      (loopR (draw_none (initialGlobals cubeVolume)).gVolume AXIS.X) =
      traversal DIRECTION.POS 3 3 3 := rfl
  rw [hl]
  have hlist : traversal DIRECTION.POS 3 3 3 =
      [(0, 0, 0), (1, 0, 0), (2, 0, 0), (0, 1, 0), (1, 1, 0), (2, 1, 0), (0, 2, 0), (1, 2, 0), (2, 2, 0), (0, 0, 1), (1, 0, 1), (2, 0, 1), (0, 1, 1), (1, 1, 1), (2, 1, 1), (0, 2, 1), (1, 2, 1), (2, 2, 1), (0, 0, 2), (1, 0, 2), (2, 0, 2), (0, 1, 2), (1, 1, 2), (2, 1, 2), (0, 2, 2), (1, 2, 2), (2, 2, 2)] := by
    decide
  have hreg := cubeGlobals_region 1 1 1 AXIS.X (by decide) (by decide) (by decide)
  have hreg' : checkIntersection
      (clearBuffers (draw_none (initialGlobals cubeVolume)) DIRECTION.POS)
      (samplePoint (clearBuffers (draw_none (initialGlobals cubeVolume)) DIRECTION.POS)
        AXIS.X 1 1 1).XT
      (samplePoint (clearBuffers (draw_none (initialGlobals cubeVolume)) DIRECTION.POS)
        AXIS.X 1 1 1).YT
      (samplePoint (clearBuffers (draw_none (initialGlobals cubeVolume)) DIRECTION.POS)
        AXIS.X 1 1 1).ZT = true := hreg
  have hsome : (classify
      (clearBuffers (draw_none (initialGlobals cubeVolume)) DIRECTION.POS).global_ttype
      trunkShaded
      ((clearBuffers (draw_none (initialGlobals cubeVolume)) DIRECTION.POS).gVolume.sample
        (samplePoint (clearBuffers (draw_none (initialGlobals cubeVolume)) DIRECTION.POS)
          AXIS.X 1 1 1).x
        (samplePoint (clearBuffers (draw_none (initialGlobals cubeVolume)) DIRECTION.POS)
          AXIS.X 1 1 1).y
        (samplePoint (clearBuffers (draw_none (initialGlobals cubeVolume)) DIRECTION.POS)
          AXIS.X 1 1 1).z)).isSome = true := by
    have h1 : (clearBuffers (draw_none (initialGlobals cubeVolume)) DIRECTION.POS).gVolume.sample
        (samplePoint (clearBuffers (draw_none (initialGlobals cubeVolume)) DIRECTION.POS)
          AXIS.X 1 1 1).x
        (samplePoint (clearBuffers (draw_none (initialGlobals cubeVolume)) DIRECTION.POS)
          AXIS.X 1 1 1).y
        (samplePoint (clearBuffers (draw_none (initialGlobals cubeVolume)) DIRECTION.POS)
          AXIS.X 1 1 1).z = 1 / 2 := hs
    rw [h1]
    norm_num [classify, IsoSurface.hasBetween, trunkShaded, clearBuffers, draw_none,
      initialGlobals]
  have hb : ∀ (i j k : Int) (P : Prop) [Decidable P] (l : List ℚ),
      isInterior i j k 3 3 3 = false →
      (if isInterior i j k (loopP (draw_none (initialGlobals cubeVolume)).gVolume AXIS.X)
          (loopQ (draw_none (initialGlobals cubeVolume)).gVolume AXIS.X)
          (loopR (draw_none (initialGlobals cubeVolume)).gVolume AXIS.X) = true ∧ P
        then l else []) = [] := by
    intro i j k P _ l h
    have h' : isInterior i j k (loopP (draw_none (initialGlobals cubeVolume)).gVolume AXIS.X)
          (loopQ (draw_none (initialGlobals cubeVolume)).gVolume AXIS.X)
          (loopR (draw_none (initialGlobals cubeVolume)).gVolume AXIS.X) = false := h
    rw [if_neg]
    rw [h']
    simp
  rw [hlist]
  simp only [List.flatMap_cons, List.flatMap_nil]
  simp (disch := decide) only [hb]
  rw [if_pos ⟨by decide, hreg', hsome⟩]
  simp [samplePoint, normalizedCoordinate, clearBuffers, draw_none, initialGlobals,
    cubeVolume]
  norm_num

theorem selectAxis_unitY : selectAxis ⟨0, 1, 0⟩ = AXIS.Y := by
  simp [selectAxis]

theorem blockVolume_sample (x y z : Int) (hx : 0 ≤ x ∧ x < 4) (hy : 0 ≤ y ∧ y < 4)
    (hz : 0 ≤ z ∧ z < 4) :
    blockVolume.sample x y z = ((x + 4 * (y + 4 * z) : Int) : ℚ) / 63 := by
  have hb : blockVolume.inBounds (x, y, z) := by
    simp only [Volume.inBounds, blockVolume]
    omega
  unfold Volume.sample
  rw [if_pos hb]
  have hlt : x.toNat + 4 * (y.toNat + 4 * z.toNat) < 64 := by omega
  have hc : ((x.toNat + 4 * (y.toNat + 4 * z.toNat) : Nat) : ℚ) =
      ((x + 4 * (y + 4 * z) : Int) : ℚ) := by
    have : ((x.toNat + 4 * (y.toNat + 4 * z.toNat) : Nat) : Int) = x + 4 * (y + 4 * z) := by
      omega
    exact_mod_cast this
  simp only [Volume.offset, blockVolume, List.getD_eq_getElem?_getD, List.getElem?_map,
    List.getElem?_range hlt, Option.map_some', Option.getD_some, hc]

theorem blockGlobals_region (dir : DIRECTION) (i j k : Int) (axis : AXIS)
    (hi : 0 ≤ i ∧ i ≤ 4) (hj : 0 ≤ j ∧ j ≤ 4) (hk : 0 ≤ k ∧ k ≤ 4) :
    checkIntersection (clearBuffers (draw_none (initialGlobals blockVolume)) dir)
      (samplePoint (clearBuffers (draw_none (initialGlobals blockVolume)) dir) axis i j k).XT
      (samplePoint (clearBuffers (draw_none (initialGlobals blockVolume)) dir) axis i j k).YT
      (samplePoint (clearBuffers (draw_none (initialGlobals blockVolume)) dir) axis i j k).ZT =
        true := by
  have hi0 : (0 : ℚ) ≤ i := by exact_mod_cast hi.1
  have hi1 : (i : ℚ) ≤ 4 := by exact_mod_cast hi.2
  have hj0 : (0 : ℚ) ≤ j := by exact_mod_cast hj.1
  have hj1 : (j : ℚ) ≤ 4 := by exact_mod_cast hj.2
  have hk0 : (0 : ℚ) ≤ k := by exact_mod_cast hk.1
  have hk1 : (k : ℚ) ≤ 4 := by exact_mod_cast hk.2
  cases axis <;>
    simp only [checkIntersection, checkCubeIntersection, samplePoint, normalizedCoordinate,
      clearBuffers, draw_none, initialGlobals, blockVolume] <;>
    norm_num <;>
    refine ⟨?_, ?_, ?_, ?_, ?_, ?_⟩ <;> linarith

theorem blockGlobals_classify (x y z : Int) (hx : x = 1 ∨ x = 2) (hy : y = 1 ∨ y = 2)
    (hz : z = 1 ∨ z = 2) :
    (classify TRANSFERTYPE.BONSAI trunkShaded (blockVolume.sample x y z)).isSome =
      decide (z = 2) := by
  rw [blockVolume_sample x y z (by omega) (by omega) (by omega)]
  rcases hx with rfl | rfl <;> rcases hy with rfl | rfl <;> rcases hz with rfl | rfl <;>
    norm_num [classify, IsoSurface.hasBetween, trunkShaded, leaves]

theorem blockGlobals_positions (dir : DIRECTION) (axis : AXIS) (i j k : Int)
    (hi : 0 ≤ i ∧ i < 4) (hj : 0 ≤ j ∧ j < 4) (hk : 0 ≤ k ∧ k < 4) :
    (performTransferWithArrays (clearBuffers (draw_none (initialGlobals blockVolume)) dir) axis
      i j k 4 4 4 ⟨2, 2, 0⟩).emitted.flatMap entryPositions =
      if isInterior i j k 4 4 4 = true ∧
          (samplePoint (clearBuffers (draw_none (initialGlobals blockVolume)) dir)
            axis i j k).z = 2 then
        [(samplePoint (clearBuffers (draw_none (initialGlobals blockVolume)) dir) axis i j k).XT,
         (samplePoint (clearBuffers (draw_none (initialGlobals blockVolume)) dir) axis i j k).YT,
         (samplePoint (clearBuffers (draw_none (initialGlobals blockVolume)) dir) axis i j k).ZT]
      else [] := by
  rw [performTransferWithArrays_positions]
  have hreg := blockGlobals_region dir i j k axis (by omega) (by omega) (by omega)
  by_cases hint : isInterior i j k 4 4 4 = true
  · have hint' := hint
    simp only [isInterior, decide_eq_true_eq] at hint'
    have hcl : (classify (clearBuffers (draw_none (initialGlobals blockVolume)) dir).global_ttype
        trunkShaded
        ((clearBuffers (draw_none (initialGlobals blockVolume)) dir).gVolume.sample
          (samplePoint (clearBuffers (draw_none (initialGlobals blockVolume)) dir) axis i j k).x
          (samplePoint (clearBuffers (draw_none (initialGlobals blockVolume)) dir) axis i j k).y
          (samplePoint (clearBuffers (draw_none (initialGlobals blockVolume)) dir) axis i j k).z)).isSome =
        decide ((samplePoint (clearBuffers (draw_none (initialGlobals blockVolume)) dir)
          axis i j k).z = 2) := by
      cases axis <;>
        exact blockGlobals_classify _ _ _ (by simp only [samplePoint]; omega)
          (by simp only [samplePoint]; omega) (by simp only [samplePoint]; omega)
    simp only [hint, hreg, hcl, true_and, decide_eq_true_eq]
  · rw [if_neg (fun h => hint h.1), if_neg (fun h => hint h.1)]


theorem blockGlobals_frame (aCameraFwd : Vec3D ℚ) (axis : AXIS)
    (hax : selectAxis aCameraFwd = axis)
    (hdir : selectDirection aCameraFwd axis = DIRECTION.POS) :
    (draw_drawAsArray (draw_none (initialGlobals blockVolume)) aCameraFwd).1.gDrawPositions =
      (traversal DIRECTION.POS 4 4 4).flatMap (fun c =>
        if isInterior c.1 c.2.1 c.2.2 4 4 4 = true ∧
            (samplePoint (clearBuffers (draw_none (initialGlobals blockVolume)) DIRECTION.POS)
              axis c.1 c.2.1 c.2.2).z = 2 then
          [(samplePoint (clearBuffers (draw_none (initialGlobals blockVolume)) DIRECTION.POS)
              axis c.1 c.2.1 c.2.2).XT,
           (samplePoint (clearBuffers (draw_none (initialGlobals blockVolume)) DIRECTION.POS)
              axis c.1 c.2.1 c.2.2).YT,
           (samplePoint (clearBuffers (draw_none (initialGlobals blockVolume)) DIRECTION.POS)
              axis c.1 c.2.1 c.2.2).ZT]
        else []) := by
  obtain ⟨hcalls, _, hpos, _, _⟩ := draw_drawAsArray_rebuild
    (draw_none (initialGlobals blockVolume)) aCameraFwd (Or.inl rfl)
  rw [hpos, hcalls, flatMap_flatMap_emitted, List.flatMap_map, frameCalls, hax, hdir]
  have hl : traversal DIRECTION.POS (loopP (draw_none (initialGlobals blockVolume)).gVolume axis)
      (loopQ (draw_none (initialGlobals blockVolume)).gVolume axis)
      (loopR (draw_none (initialGlobals blockVolume)).gVolume axis) =
      traversal DIRECTION.POS 4 4 4 := by
    cases axis <;> rfl
  have hp : loopP (draw_none (initialGlobals blockVolume)).gVolume axis = 4 := by
    cases axis <;> rfl
  have hq : loopQ (draw_none (initialGlobals blockVolume)).gVolume axis = 4 := by
    cases axis <;> rfl
  have hr : loopR (draw_none (initialGlobals blockVolume)).gVolume axis = 4 := by
    cases axis <;> rfl
  have hlight : (draw_none (initialGlobals blockVolume)).gLightPosition = ⟨2, 2, 0⟩ := rfl
  rw [hl, hp, hq, hr, hlight]
  apply List.flatMap_congr
  intro c hc
  rw [mem_traversal] at hc
  exact blockGlobals_positions DIRECTION.POS axis c.1 c.2.1 c.2.2 (by omega) (by omega) (by omega)

theorem traversal_four : traversal DIRECTION.POS 4 4 4 =
    [(0, 0, 0), (1, 0, 0), (2, 0, 0), (3, 0, 0), (0, 1, 0), (1, 1, 0), (2, 1, 0), (3, 1, 0),
     (0, 2, 0), (1, 2, 0), (2, 2, 0), (3, 2, 0), (0, 3, 0), (1, 3, 0), (2, 3, 0), (3, 3, 0),
     (0, 0, 1), (1, 0, 1), (2, 0, 1), (3, 0, 1), (0, 1, 1), (1, 1, 1), (2, 1, 1), (3, 1, 1),
     (0, 2, 1), (1, 2, 1), (2, 2, 1), (3, 2, 1), (0, 3, 1), (1, 3, 1), (2, 3, 1), (3, 3, 1),
     (0, 0, 2), (1, 0, 2), (2, 0, 2), (3, 0, 2), (0, 1, 2), (1, 1, 2), (2, 1, 2), (3, 1, 2),
     (0, 2, 2), (1, 2, 2), (2, 2, 2), (3, 2, 2), (0, 3, 2), (1, 3, 2), (2, 3, 2), (3, 3, 2),
     (0, 0, 3), (1, 0, 3), (2, 0, 3), (3, 0, 3), (0, 1, 3), (1, 1, 3), (2, 1, 3), (3, 1, 3),
     (0, 2, 3), (1, 2, 3), (2, 2, 3), (3, 2, 3), (0, 3, 3), (1, 3, 3), (2, 3, 3), (3, 3, 3)] := by
  decide

theorem blockGlobals_frame_X :
    (draw_drawAsArray (draw_none (initialGlobals blockVolume)) ⟨1, 0, 0⟩).1.gDrawPositions =
      [-1 / 2, -1 / 2, 0, -1 / 2, 0, 0, 0, -1 / 2, 0, 0, 0, 0] := by
  have hx : selectAxis ⟨1, 0, 0⟩ = AXIS.X := by simp [selectAxis]
  have hdx : selectDirection ⟨1, 0, 0⟩ AXIS.X = DIRECTION.POS := by
    simp [selectDirection, Vec3D.component]
  rw [blockGlobals_frame ⟨1, 0, 0⟩ AXIS.X hx hdx, traversal_four]
  simp only [List.flatMap_cons, List.flatMap_nil, isInterior, samplePoint, normalizedCoordinate,
    clearBuffers, draw_none, initialGlobals, blockVolume]
  norm_num

theorem blockGlobals_frame_Y :
    (draw_drawAsArray (draw_none (initialGlobals blockVolume)) ⟨0, 1, 0⟩).1.gDrawPositions =
      [-1 / 2, -1 / 2, 0, 0, -1 / 2, 0, -1 / 2, 0, 0, 0, 0, 0] := by
  have hdy : selectDirection ⟨0, 1, 0⟩ AXIS.Y = DIRECTION.POS := by
    simp [selectDirection, Vec3D.component]
  rw [blockGlobals_frame ⟨0, 1, 0⟩ AXIS.Y selectAxis_unitY hdy, traversal_four]
  simp only [List.flatMap_cons, List.flatMap_nil, isInterior, samplePoint, normalizedCoordinate,
    clearBuffers, draw_none, initialGlobals, blockVolume]
  norm_num

theorem blockVolume_loaded :
    load_data_raw_ SampleType.uint8
      ((List.range 64).map (fun (n : Nat) => UInt8.ofNat n)) { x := 4, y := 4, z := 4 } =
        Except.ok blockVolume := by
  rw [load_data_raw_ok SampleType.uint8 _ _ 64 (by decide) (by decide)]
  simp [SampleType.sizeof, decodeSamples, normalize, minmaxScan, minmaxStep,
    SampleType.max, SampleType.min, transformInto, Volume.create, blockVolume, List.range,
    List.range.loop]
  norm_num

/-- C23: a change of the dominant axis alone does not refill the buffers.
After a frame of `drawAsArray` with forward `(1, 0, 0)` has filled them, a frame
with forward `(0, 1, 0)` and the light unchanged has another dominant axis, Y
instead of X, and the same direction `POS`; it calls no routine and leaves the
globals, the buffers among them, as the first frame left them.  For the volume
of 3 x 3 x 3 voxels the buffers hold the record of its one interior voxel.  For
the volume of 4 x 4 x 4 voxels they hold four records in the order of the
traversal along X, `(-1/2, -1/2, 0)`, `(-1/2, 0, 0)`, `(0, -1/2, 0)`, `(0, 0, 0)`,
where a frame with forward `(0, 1, 0)` that fills them gives the order of the
traversal along Y, `(-1/2, -1/2, 0)`, `(0, -1/2, 0)`, `(-1/2, 0, 0)`,
`(0, 0, 0)`. -/
theorem draw_drawAsArray_axis_change :
    selectAxis ⟨1, 0, 0⟩ = AXIS.X ∧ selectAxis ⟨0, 1, 0⟩ = AXIS.Y ∧
    (draw_drawAsArray (draw_none (initialGlobals cubeVolume)) ⟨1, 0, 0⟩).1.gDrawPositions =
      [-1 / 3, -1 / 3, -1 / 3] ∧
    draw_drawAsArray (draw_drawAsArray (draw_none (initialGlobals cubeVolume)) ⟨1, 0, 0⟩).1
        ⟨0, 1, 0⟩ =
      ((draw_drawAsArray (draw_none (initialGlobals cubeVolume)) ⟨1, 0, 0⟩).1, []) ∧
    (draw_drawAsArray (draw_none (initialGlobals blockVolume)) ⟨1, 0, 0⟩).1.gDrawPositions =
      [-1 / 2, -1 / 2, 0, -1 / 2, 0, 0, 0, -1 / 2, 0, 0, 0, 0] ∧
    draw_drawAsArray (draw_drawAsArray (draw_none (initialGlobals blockVolume)) ⟨1, 0, 0⟩).1
        ⟨0, 1, 0⟩ =
      ((draw_drawAsArray (draw_none (initialGlobals blockVolume)) ⟨1, 0, 0⟩).1, []) ∧
    (draw_drawAsArray (draw_none (initialGlobals blockVolume)) ⟨0, 1, 0⟩).1.gDrawPositions =
      [-1 / 2, -1 / 2, 0, 0, -1 / 2, 0, -1 / 2, 0, 0, 0, 0, 0] := by
  have hx : selectAxis ⟨1, 0, 0⟩ = AXIS.X := by simp [selectAxis]
  have hdx : selectDirection ⟨1, 0, 0⟩ (selectAxis ⟨1, 0, 0⟩) = DIRECTION.POS := by
    rw [hx]; simp [selectDirection, Vec3D.component]
  have hdy : selectDirection ⟨0, 1, 0⟩ (selectAxis ⟨0, 1, 0⟩) = DIRECTION.POS := by
    rw [selectAxis_unitY]; simp [selectDirection, Vec3D.component]
  obtain ⟨_, _, _, hdir, hlight⟩ := draw_drawAsArray_rebuild
    (draw_none (initialGlobals cubeVolume)) ⟨1, 0, 0⟩ (Or.inl rfl)
  obtain ⟨_, _, _, hdirB, hlightB⟩ := draw_drawAsArray_rebuild
    (draw_none (initialGlobals blockVolume)) ⟨1, 0, 0⟩ (Or.inl rfl)
  refine ⟨hx, selectAxis_unitY, draw_drawAsArray_first_frame, ?_, blockGlobals_frame_X, ?_,
    blockGlobals_frame_Y⟩
  · apply draw_drawAsArray_reuse _ _ hlight
    rw [hdir, hdx, hdy]
  · apply draw_drawAsArray_reuse _ _ hlightB
    rw [hdirB, hdx, hdy]

/-! ### The reduced volume and the global volume -/

theorem mem_load_lod_reads (gVolume vol : Volume) (idx : GridIndex) :
    idx ∈ load_lod_reads gVolume vol ↔
      ∃ a b c : Nat, 2 * a < gVolume.width ∧ 2 * b < gVolume.height ∧ 2 * c < vol.depth ∧
        idx ∈ lodReads vol (2 * (a : Int)) (2 * (b : Int)) (2 * (c : Int)) := by
  simp only [load_lod_reads, List.mem_flatMap, mem_evensBelow]
  constructor
  · rintro ⟨z, ⟨c, hc, rfl⟩, y, ⟨b, hb, rfl⟩, x, ⟨a, ha, rfl⟩, h⟩
    exact ⟨a, b, c, ha, hb, hc, h⟩
  · rintro ⟨a, b, c, ha, hb, hc, h⟩
    exact ⟨_, ⟨c, hc, rfl⟩, _, ⟨b, hb, rfl⟩, _, ⟨a, ha, rfl⟩, h⟩

theorem lodReads_in_bounds (vol : Volume) (x y z : Int)
    (hx : 0 ≤ x ∧ x < vol.width) (hy : 0 ≤ y ∧ y < vol.height) (hz : 0 ≤ z ∧ z < vol.depth) :
    ∀ idx ∈ lodReads vol x y z, vol.inBounds idx := by
  intro idx hidx
  unfold lodReads at hidx
  split_ifs at hidx with h
  · simp only [neighbourhood, List.flatMap_cons, List.flatMap_nil, List.map_cons, List.map_nil,
      List.append_nil, List.cons_append, List.nil_append, List.mem_cons, List.mem_singleton,
      List.not_mem_nil, or_false] at hidx
    rcases hidx with h' | h' | h' | h' | h' | h' | h' | h' | h' | h' | h' | h' | h' | h' | h' |
      h' | h' | h' | h' | h' | h' | h' | h' | h' | h' | h' | h' | h' <;>
      subst h' <;> simp only [Volume.inBounds] <;> omega
  · rw [List.mem_singleton.mp hidx]
    simp only [Volume.inBounds]
    omega

theorem load_lod_reads_in_bounds (gVolume vol : Volume) (hW : gVolume.width = vol.width)
    (hH : gVolume.height = vol.height) :
    ∀ idx ∈ load_lod_reads gVolume vol, vol.inBounds idx := by
  intro idx hidx
  obtain ⟨a, b, c, ha, hb, hc, h⟩ := (mem_load_lod_reads gVolume vol idx).mp hidx
  exact lodReads_in_bounds vol _ _ _ (by omega) (by omega) (by omega) idx h

/-- C17 (as stated, refuted): with the volume of 3 x 3 x 3 voxels as argument
while the global current volume is the empty volume, its state before
`project_initialize`, the loops over `y` and `x`, which take their bounds from
the global, run no iteration.  The voxel `(2, 0, 0)` of the argument has even
coordinates and the sample `2/26`; the sample of the result at `(1, 0, 0)` is
the content the constructor left, 0 in the model. -/
theorem load_lod_volume_samples_other_global :
    cubeVolume.sample 2 0 0 = 2 / 26 ∧
    load_lod_writes (Volume.create 0 0 0) cubeVolume = [] ∧
    (load_lod_volume (Volume.create 0 0 0) cubeVolume).sample 1 0 0 = 0 := by
  have hs200 : cubeVolume.sample 2 0 0 = 2 / 26 := by
    have := cubeVolume_sample 2 0 0 (by decide) (by decide) (by decide)
    norm_num at this ⊢
    exact this
  have hempty : load_lod_writes (Volume.create 0 0 0) cubeVolume = [] := by
    simp [load_lod_writes, evensBelow, Volume.create]
  refine ⟨hs200, hempty, ?_⟩
  rw [load_lod_volume, hempty]
  simp [Volume.sample, Volume.create, Volume.inBounds, Volume.offset, cubeVolume]

/-- C28: the result of `load_lod_volume` depends on the global `gVolume`, and
the function reads outside its argument.  For the volume of 3 x 3 x 3 voxels as
argument: with `gVolume` in its initial state, the empty volume, no element of
the result is assigned; with `gVolume` the argument itself, eight are, the
element `(1, 0, 0)` among them with the value `2/26`.  With the reduced volume
of 2 x 2 x 2 voxels as argument and the volume of 3 x 3 x 3 voxels as `gVolume`,
the function reads its argument at `(2, 0, 0)`, outside its bounds. -/
theorem load_lod_volume_reads_gVolume :
    load_lod_writes (Volume.create 0 0 0) cubeVolume = [] ∧
    (load_lod_writes cubeVolume cubeVolume).length = 8 ∧
    (((1, 0, 0) : GridIndex), (2 / 26 : ℚ)) ∈ load_lod_writes cubeVolume cubeVolume ∧
    (load_lod_volume (Volume.create 0 0 0) cubeVolume).sample 1 0 0 =
      (Volume.create 2 2 2).sample 1 0 0 ∧
    (load_lod_volume cubeVolume cubeVolume).sample 1 0 0 = 2 / 26 ∧
    load_lod_volume (Volume.create 0 0 0) cubeVolume ≠ load_lod_volume cubeVolume cubeVolume ∧
    ((2, 0, 0) : GridIndex) ∈
      load_lod_reads cubeVolume (load_lod_volume cubeVolume cubeVolume) ∧
    ¬ (load_lod_volume cubeVolume cubeVolume).inBounds (2, 0, 0) := by
  have hs200 : cubeVolume.sample 2 0 0 = 2 / 26 := by
    have := cubeVolume_sample 2 0 0 (by decide) (by decide) (by decide)
    norm_num at this ⊢
    exact this
  have hw : lodWrite cubeVolume (2 * ((1 : Nat) : Int)) (2 * ((0 : Nat) : Int))
      (2 * ((0 : Nat) : Int)) = (((1, 0, 0) : GridIndex), (2 / 26 : ℚ)) := by
    have h1 := lodWrite_target cubeVolume (2 * ((1 : Nat) : Int)) (2 * ((0 : Nat) : Int))
      (2 * ((0 : Nat) : Int))
    have h2 := lodWrite_value cubeVolume 2 0 0
    rw [if_neg (by decide)] at h2
    simp only [floor_half_even] at h1
    apply Prod.ext
    · rw [h1]; rfl
    · have : (lodWrite cubeVolume (2 * ((1 : Nat) : Int)) (2 * ((0 : Nat) : Int))
          (2 * ((0 : Nat) : Int))).2 = (lodWrite cubeVolume ((2 : Nat) : Int) ((0 : Nat) : Int)
          ((0 : Nat) : Int)).2 := rfl
      rw [this, h2]
      exact hs200
  have hempty : load_lod_writes (Volume.create 0 0 0) cubeVolume = [] := by
    simp [load_lod_writes, evensBelow, Volume.create]
  have hA : (load_lod_volume (Volume.create 0 0 0) cubeVolume).sample 1 0 0 =
      (Volume.create 2 2 2).sample 1 0 0 := by
    rw [load_lod_volume, hempty]
    rfl
  have hB : (load_lod_volume cubeVolume cubeVolume).sample 1 0 0 = 2 / 26 := by
    have := load_lod_volume_written cubeVolume cubeVolume rfl rfl 1 0 0 (by decide) (by decide)
      (by decide)
    rw [hw] at this
    exact this
  obtain ⟨d1, d2, d3⟩ := load_lod_volume_dims cubeVolume cubeVolume
  refine ⟨hempty, ?_, ?_, hA, hB, ?_, ?_, ?_⟩
  · simp [load_lod_writes, evensBelow, cubeVolume, List.range_succ]
  · rw [← hw]
    exact mem_load_lod_writes cubeVolume cubeVolume 1 0 0 (by decide) (by decide) (by decide)
  · intro he
    rw [he, hB] at hA
    have h0 : (Volume.create 2 2 2).sample 1 0 0 = 0 := by
      simp [Volume.sample, Volume.create, Volume.inBounds, Volume.offset]
    rw [h0] at hA
    norm_num at hA
  · rw [mem_load_lod_reads]
    refine ⟨1, 0, 0, by decide, by decide, ?_, ?_⟩
    · rw [d3]; decide
    · unfold lodReads
      split_ifs <;> simp
  · simp only [Volume.inBounds, d1]
    simp [cubeVolume]

/-- The slab theorem at the state after start-up and key `b`, the slab on axis X
from 0 with length 0.5: the point `(1/4, 5, -3)` is contained, the point
`(3/4, 5, -3)` is not. -/
theorem checkSlabIntersection_iff_witness :
    checkIntersection (project_on_key_press_b (initialGlobals cubeVolume)) (1 / 4) 5 (-3) =
      true ∧
    checkIntersection (project_on_key_press_b (initialGlobals cubeVolume)) (3 / 4) 5 (-3) =
      false := by
  have h1 := checkSlabIntersection_iff (project_on_key_press_b (initialGlobals cubeVolume))
    (1 / 4) 5 (-3)
  have h2 := checkSlabIntersection_iff (project_on_key_press_b (initialGlobals cubeVolume))
    (3 / 4) 5 (-3)
  constructor
  · rw [h1.2.1 rfl, h1.1]
    norm_num [project_on_key_press_b, initialGlobals, Vec3D.component]
  · rw [h2.2.1 rfl, ← Bool.not_eq_true, h2.1]
    norm_num [project_on_key_press_b, initialGlobals, Vec3D.component]

/-- The amended theorem at the rule leaves of BONSAI. -/
theorem ruleSet_intervals_witness : leaves.low ≤ leaves.high :=
  ruleSet_intervals.1 TRANSFERTYPE.BONSAI trunkShaded (Or.inr rfl) (leaves, ⟨0, 1, 0⟩)
    (by simp [ruleSet])

end Rasterization
